import Mathlib

/-!
# Synaptics 3k touch panel driver: report decoding and wake gestures

A shallow embedding of `synaptics_ts_work_func` and of the entry points that
write the variables it reads (`drivers/input/touchscreen/synaptics_3k.c`),
built with `CONFIG_TOUCHSCREEN_SYNAPTICS_SWEEP2WAKE`.

Conventions of the embedding.

* C unsigned integers are `Nat`, truncated with an explicit `%` wherever the
  source stores into a narrower type; C `int` values are `Int`.
* The function's side effects on its collaborators (input core, i2c bus,
  power callback, timers, power-key trigger) are recorded, in program order,
  as a list of `Out`.  `printk` and `msleep` calls are not recorded, except
  the two fault messages, which carry the fault code.
* `int pre_finger_data[11][2]` is a total function of its two indices.
* The `static` variables of the file are the fields of `Globals`; `downx`,
  a `static` local of the work function, is one of them.
* The work function is cut into named pieces, each the embedding of the
  source lines given in its comment; control flow (`break`, `goto`) is kept
  by explicit flags.
* Shifts are those of `Nat` and signed arithmetic is that of `Int`; they
  agree with C for slot indices below 31 and values within `int`, which is
  the case for `finger_support <= 10`, the size of `pre_finger_data`.
-/

namespace Synaptics3k

/-! ## Build-time constants -/

/-- Constants the source takes from Kconfig and from kernel headers that are
not part of the file: whether `CONFIG_TOUCHSCREEN_COMPATIBLE_REPORT` is set,
the tick rate `HZ`, and the flag bits `SYNAPTICS_FLIP_X` and
`SYNAPTICS_SWAP_XY` of `linux/synaptics_i2c_rmi.h`. -/
structure Build where
  compatible_report : Bool
  HZ : Nat
  SYNAPTICS_FLIP_X : Nat
  SYNAPTICS_SWAP_XY : Nat

/-! ## State -/

/-- The fields of `struct synaptics_ts_data` that the work function, suspend
and resume use, apart from `debug_log_level`, which only selects `printk`
output.  `power` records whether the power callback is set. -/
structure synaptics_ts_data where
  use_irq : Bool
  max : Nat × Nat
  flags : Nat
  finger_support : Nat
  finger_pressed : Nat
  power : Bool
  pre_finger_data : Nat → Nat → Int
  raw_base : Nat
  raw_ref : Nat
  timestamp : Nat

/-- The file-level `static` variables (lines 66-87) and the work function's
`static int downx` (line 554). -/
structure Globals where
  proximity_status : Bool
  s2w_register_threshold : Int
  s2w_min_distance : Int
  s2w_allow_stroke : Bool
  s2w_switch : Bool
  dt2w_switch : Bool
  dt2w_duration : Nat
  dt2w_threshold : Nat
  dt2w_start : Nat
  dt2w_screen : Bool
  scr_suspended : Bool
  exec_count : Bool
  barrier : Bool
  mode : Bool
  downx : Int

/-- Driver state: the device structure and the statics. -/
structure State where
  ts : synaptics_ts_data
  g : Globals

/-- Values of the statics at module load (lines 66-87, 554). -/
def Globals.init : Globals where
  proximity_status := true
  s2w_register_threshold := 9
  s2w_min_distance := 500
  s2w_allow_stroke := true
  s2w_switch := true
  dt2w_switch := true
  dt2w_duration := 100
  dt2w_threshold := 500
  dt2w_start := 0
  dt2w_screen := false
  scr_suspended := false
  exec_count := true
  barrier := false
  mode := true
  downx := -1

/-! ## Observable effects -/

/-- Calls made on the collaborators, in program order.  `i2c_write p off v`
is `i2c_smbus_write_byte_data(client, page_table[p].value + off, v)`.
In the non-compatible report format the two packed words are kept unpacked:
`abs_mt_amplitude z w` is `z << 16 | w`, and `abs_mt_position last x y` is
`last << 31 | x << 16 | y`.  `pwrtrigger m` is a call of
`sweep2wake_syn_pwrtrigger` made while the static `mode` holds `m`
(`true` = wake on, `false` = wake off). -/
inductive Out where
  | i2c_transfer_failed
  | status_error (code : Nat)
  | power (up : Bool)
  | i2c_write (page : Nat) (off : Int) (val : Nat)
  | init_panel
  | hrtimer_start
  | hrtimer_cancel
  | cancel_work_sync
  | key_btn_touch (v : Nat)
  | abs_mt_pressure (v : Int)
  | abs_mt_width_major (v : Int)
  | abs_mt_position_x (v : Int)
  | abs_mt_position_y (v : Int)
  | mt_sync
  | abs_mt_amplitude (z w : Int)
  | abs_mt_position (last : Bool) (x y : Int)
  | input_sync
  | enable_irq
  | disable_irq
  | enable_irq_wake
  | disable_irq_wake
  | pwrtrigger (mode : Bool)
deriving DecidableEq, Repr

/-- An `input_report_*` or `input_mt_sync` call: a finger event handed to the
input core. -/
def Out.isFingerEvent : Out → Bool
  | .key_btn_touch _ => true
  | .abs_mt_pressure _ => true
  | .abs_mt_width_major _ => true
  | .abs_mt_position_x _ => true
  | .abs_mt_position_y _ => true
  | .mt_sync => true
  | .abs_mt_amplitude _ _ => true
  | .abs_mt_position _ _ _ => true
  | _ => false

/-- A power-key trigger request. -/
def Out.isTrigger : Out → Bool
  | .pwrtrigger _ => true
  | _ => false

/-- The trigger requests among the effects, by mode, in order. -/
def triggers : List Out → List Bool
  | [] => []
  | .pwrtrigger m :: os => m :: triggers os
  | _ :: os => triggers os

/-! ## One work cycle: inputs -/

/-- What one run of the work function receives from outside: the result of
`i2c_syn_read` (`ret`, negative on failure) and the bytes it read, the clock
readings `ktime_to_ns(ktime_get())` and `jiffies`, and `stray`, the word
found at `finger_data[finger_support][1]`: line 642 reads `finger_data`
with `loop_i` left at `finger_support` by the loop of line 602, before any
row of this cycle is written, so the value comes from outside the array. -/
structure Cycle where
  ret : Int
  buf : List Nat
  now : Nat
  jiffies : Nat
  stray : Int

/-- Byte `i` of the report buffer (`uint8_t buf[]`). -/
def rd (buf : List Nat) (i : Nat) : Nat := buf.getD i 0 % 256

/-- One row of `int finger_data[][4]`: position, width, pressure. -/
structure finger_row where
  x : Int
  y : Int
  w : Int
  z : Int
deriving DecidableEq, Repr

/-! ## Lines 602-606: presence scan -/

/-- Body of the loop of lines 602-606 acting on the `uint8_t` pair
`(finger_pressed, finger_count)`; `pb` is `buf[1 + (finger_support + 3) / 4]`. -/
def scan_step (pb : Nat) (acc : Nat × Nat) (loop_i : Nat) : Nat × Nat :=
  if (pb >>> (loop_i * 2)) &&& 0x03 ≠ 0 then
    ((acc.1 ||| (1 <<< loop_i)) % 256, (acc.2 + 1) % 256)
  else acc

/-- Lines 602-606: `(finger_pressed, finger_count)` after the loop. -/
def scan_fingers (ts : synaptics_ts_data) (buf : List Nat) : Nat × Nat :=
  (List.range ts.finger_support).foldl
    (scan_step (rd buf (1 + (ts.finger_support + 3) / 4))) (0, 0)

/-! ## Lines 663-677: decoding one finger slot -/

/-- `ts->max[loop_j]`. -/
def max_at (ts : synaptics_ts_data) (loop_j : Nat) : Nat :=
  if loop_j = 0 then ts.max.1 else ts.max.2

/-- Lines 665-672 for one `loop_j`: `pos_mask` is `0x0f` shifted left by four
`loop_j` times in a `uint8_t`, `flip_flag` is `SYNAPTICS_FLIP_X` shifted left
`loop_j` times in a `uint32_t`. -/
def decode_axis (b : Build) (ts : synaptics_ts_data) (buf : List Nat) (base loop_j : Nat) : Int :=
  let pos_mask := (0x0f <<< (4 * loop_j)) % 256
  let flip_flag := (b.SYNAPTICS_FLIP_X <<< loop_j) % 4294967296
  let v : Nat := ((rd buf (base + 2) &&& pos_mask) >>> (loop_j * 4)) ||| (rd buf (base + loop_j) <<< 4)
  if ts.flags &&& flip_flag ≠ 0 then (max_at ts loop_j : Int) - (v : Int) else (v : Int)

/-- Lines 663-677: the row written to `finger_data[loop_i]`. -/
def decode_finger (b : Build) (ts : synaptics_ts_data) (buf : List Nat) (base : Nat) : finger_row :=
  let d0 := decode_axis b ts buf base 0
  let d1 := decode_axis b ts buf base 1
  let d2 : Int := (((rd buf (base + 3) >>> 4) &&& 0x0F) + (rd buf (base + 3) &&& 0x0F) : Nat)
  let d3 : Int := (rd buf (base + 4) : Nat)
  if ts.flags &&& b.SYNAPTICS_SWAP_XY ≠ 0 then ⟨d1, d0, d2, d3⟩ else ⟨d0, d1, d2, d3⟩

/-! ## Lines 718-859: gesture handling of one pressed finger -/

/-- Line 718: `dt2w_screen` records whether the finger is above the
`y = 1900` line. -/
def note_zone (g : Globals) (y : Int) : Globals :=
  { g with dt2w_screen := decide (y < 1900) }

/-- Lines 729-733, 786-790 and 826-830: the touch-down of a stroke records
its start and leaves the slot loop. -/
def touch_down (g : Globals) (x : Int) : Globals × List Out × Bool :=
  ({ g with downx := x }, [], true)

/-- Lines 737-740, 794-797 and 834-837: `barrier = true` once the finger is
farther from the start than the register threshold (`far`). -/
def lock_panel (g : Globals) (far : Bool) : Globals :=
  if far then { g with barrier := true } else g

/-- Lines 748-752, 756-760, 803-807 and 844-848: `mode = m`, the trigger
request, `exec_count = false`, and `break`. -/
def pwr_toggle (g : Globals) (m : Bool) : Globals × List Out × Bool :=
  ({ g with mode := m, exec_count := false }, [Out.pwrtrigger m], true)

/-- Lines 771, 815 and 856: a touch at `y <= 1900` marks the stroke as
started on the screen. -/
def on_screen (g : Globals) : Globals × List Out × Bool :=
  ({ g with downx := -2 }, [], false)

/-- The value of a C `int` expression whose exact value is `v`: two's
complement reduction into `[-2^31, 2^31)`, which is what the subtractions of
lines 834 and 840 yield when `downx - s2w_register_threshold` or
`downx - s2w_min_distance` leaves the range of `int`. -/
def wrap_int (v : Int) : Int := (v + 2147483648) % 4294967296 - 2147483648

/-- Lines 718-859 for one pressed finger at `(x, y)`: the new statics, the
effects, and whether the slot loop is left by a `break`.  The differences
`downx - finger_data[loop_i][0]` under `abs` are between two decoded
positions or a position and the markers -1 and -2, far from the limits of
`int`; the two differences with a sysfs-settable static wrap. -/
def s2w_sample (g : Globals) (finger_count : Nat) (x y : Int) : Globals × List Out × Bool :=
  let g := note_zone g y
  if g.s2w_allow_stroke then
    if finger_count = 1 ∧ g.s2w_switch = true ∧ g.downx ≠ -2 then
      if y > 1900 then
        if g.downx = -1 ∨ ((g.downx - x).natAbs : Int) > g.s2w_register_threshold then
          if g.downx = -1 then touch_down g x
          else
            let g := lock_panel g (decide (((g.downx - x).natAbs : Int) > g.s2w_register_threshold))
            if ((g.downx - x).natAbs : Int) > g.s2w_min_distance then
              if g.exec_count then
                if g.scr_suspended then pwr_toggle g true
                else pwr_toggle g false
              else (g, [], false)
            else (g, [], false)
        else (g, [], false)
      else on_screen g
    else (g, [], false)
  else
    if finger_count = 1 ∧ g.scr_suspended = true ∧ g.s2w_switch = true ∧ g.downx ≠ -2 then
      if y > 1900 then
        if g.downx = -1 ∨ x > g.downx then
          if g.downx = -1 then touch_down g x
          else
            let g := lock_panel g (decide (((g.downx - x).natAbs : Int) > g.s2w_register_threshold))
            if ((g.downx - x).natAbs : Int) > g.s2w_min_distance then
              if g.exec_count then pwr_toggle g true
              else (g, [], false)
            else (g, [], false)
        else (g, [], false)
      else on_screen g
    else if finger_count = 1 ∧ g.scr_suspended = false ∧ g.s2w_switch = true ∧ g.downx ≠ -2 then
      if y > 1900 then
        if g.downx = -1 ∨ x < g.downx then
          if g.downx = -1 then touch_down g x
          else
            let g := lock_panel g (decide (wrap_int (g.downx - g.s2w_register_threshold) > x))
            if wrap_int (g.downx - g.s2w_min_distance) > x then
              if g.exec_count then pwr_toggle g false
              else (g, [], false)
            else (g, [], false)
        else (g, [], false)
      else on_screen g
    else (g, [], false)

/-! ## Lines 613-658: a report without fingers -/

/-- The helper `s2w_active` (lines 92-94). -/
def s2w_active (g : Globals) : Bool := g.s2w_switch || g.dt2w_switch

/-- Line 634: `tap_time`, the product `dt2w_duration * 1000 * 1000` formed in
`unsigned int` before it is stored in a `cputime64_t`. -/
def tap_time (g : Globals) : Nat := (g.dt2w_duration * 1000 * 1000) % 4294967296

/-- Line 635: `too_long_time`, the product `dt2w_threshold * 1000 * 1000`
formed in `unsigned int` before it is stored in a `cputime64_t`. -/
def too_long_time (g : Globals) : Nat := (g.dt2w_threshold * 1000 * 1000) % 4294967296

/-- Lines 623-654, entered when `finger_pressed == 0`: the stroke reset and
the double-tap test.  The clock values are `cputime64_t` (64-bit unsigned);
`tap_time` and `too_long_time` are products of `unsigned int`. -/
def release_all (c : Cycle) (finger_count : Nat) (g : Globals) : Globals × List Out :=
  if finger_count = 0 ∧ s2w_active g = true then
    let g := if g.s2w_switch then { g with exec_count := true, barrier := false, downx := -1 } else g
    if g.scr_suspended = true ∧ g.dt2w_switch = true then
      let now := c.now % 18446744073709551616
      let diff := (now + (18446744073709551616 - g.dt2w_start % 18446744073709551616))
                    % 18446744073709551616
      let tap_time := tap_time g
      let too_long_time := too_long_time g
      let g := { g with dt2w_start := now }
      if g.dt2w_screen = true ∧ c.stray < 1900 then
        if diff > tap_time ∧ diff < too_long_time then
          ({ g with mode := true }, [Out.pwrtrigger true])
        else (g, [])
      else (g, [])
    else (g, [])
  else (g, [])

/-- Lines 614-620: the "no finger" report. -/
def report_leave (b : Build) : List Out :=
  if b.compatible_report then [Out.key_btn_touch 0]
  else [Out.abs_mt_amplitude 0 0, Out.abs_mt_position true 0 0]

/-! ## Lines 659-879: the slot loop -/

/-- Assignment `ts->pre_finger_data[i][j] = v`. -/
def set_pfd (ts : synaptics_ts_data) (i j : Nat) (v : Int) : synaptics_ts_data :=
  { ts with pre_finger_data := fun a c => if a = i ∧ c = j then v else ts.pre_finger_data a c }

/-- What the slot loop reads and writes: the device structure, the statics,
the effects so far, and the locals `base`, `finger_pressed` and
`finger_data` (the rows written so far, by slot). -/
structure Loop where
  ts : synaptics_ts_data
  g : Globals
  out : List Out
  base : Nat
  finger_pressed : Nat
  finger_data : List (Nat × finger_row)

/-- Lines 684-702: the finger event of a pressed slot; `finger_pressed` is
the local mask after the slot's bit was cleared. -/
def report_finger (b : Build) (fd : finger_row) (finger_pressed : Nat) : List Out :=
  if b.compatible_report then
    [Out.abs_mt_pressure fd.z, Out.abs_mt_width_major fd.w, Out.abs_mt_position_x fd.x,
     Out.abs_mt_position_y fd.y, Out.key_btn_touch (if fd.w ≠ 0 then 1 else 0), Out.mt_sync]
  else
    [Out.abs_mt_amplitude fd.z fd.w, Out.abs_mt_position (finger_pressed == 0) fd.x fd.y]

/-- Lines 703-714: bookkeeping of a newly pressed finger before calibration
is confirmed. -/
def note_press (ts : synaptics_ts_data) (finger_count press_changed loop_i : Nat)
    (fd : finger_row) : synaptics_ts_data × List Out :=
  if ts.pre_finger_data 0 0 < 2 then
    if (press_changed >>> loop_i) &&& 0x1 ≠ 0 then
      let ts := set_pfd (set_pfd ts (loop_i + 1) 0 fd.x) (loop_i + 1) 1 fd.y
      if finger_count = ts.finger_support then (ts, [Out.i2c_write 12 (-1) 1])
      else if ts.pre_finger_data 0 0 = 0 ∧ finger_count > 1 then (set_pfd ts 0 0 1, [])
      else (ts, [])
    else (ts, [])
  else (ts, [])

/-- Lines 867-875, run for a decoded slot unless the loop was left by
`break`: the release acknowledgement and the calibration decision.  The
comparison with `raw_base` is unsigned 32-bit, the one with the time stamp
unsigned 64-bit. -/
def slot_tail (b : Build) (c : Cycle) (finger_count release_changed loop_i : Nat)
    (fd : finger_row) (l : Loop) : Loop :=
  let l := if (release_changed >>> loop_i) &&& 0x1 ≠ 0 ∧ l.ts.pre_finger_data 0 0 < 2
           then { l with out := l.out ++ [Out.i2c_write 12 (-1) 1] } else l
  if finger_count = 0 ∧ l.ts.pre_finger_data 0 0 = 0 ∧
      (c.jiffies > (l.ts.timestamp + 15 * b.HZ) % 18446744073709551616 ∨
        ((fd.y % 4294967296).toNat > l.ts.raw_base ∧
          (l.ts.pre_finger_data (loop_i + 1) 1 - fd.y).natAbs > l.ts.raw_ref)) then
    { l with ts := set_pfd l.ts 0 0 2 }
  else if finger_count = 0 then { l with ts := set_pfd l.ts 0 0 0 }
  else l

/-- Lines 661-876: the body of the slot loop for slot `loop_i`; the flag
tells whether the loop is left by `break`. -/
def slot_body (b : Build) (c : Cycle) (finger_count press_changed release_changed loop_i : Nat)
    (l : Loop) : Loop × Bool :=
  if ((l.finger_pressed ||| release_changed) >>> loop_i) &&& 1 = 1 then
    let fd := decode_finger b l.ts c.buf l.base
    let l := { l with finger_data := l.finger_data ++ [(loop_i, fd)] }
    if (l.finger_pressed >>> loop_i) &&& 1 = 1 then
      let fp := (l.finger_pressed &&& (4294967295 ^^^ (1 <<< loop_i))) % 256
      let np := note_press l.ts finger_count press_changed loop_i fd
      let sw := s2w_sample l.g finger_count fd.x fd.y
      let l := { l with ts := np.1, g := sw.1, finger_pressed := fp,
                        out := l.out ++ report_finger b fd fp ++ np.2 ++ sw.2.1 }
      if sw.2.2 then (l, true)
      else (slot_tail b c finger_count release_changed loop_i fd l, false)
    else (slot_tail b c finger_count release_changed loop_i fd l, false)
  else (l, false)

/-- The loop of lines 660-878 over the remaining slots; `base += 5` after
each slot that does not `break`. -/
def slot_loop (b : Build) (c : Cycle) (finger_count press_changed release_changed : Nat) :
    List Nat → Loop → Loop
  | [], l => l
  | loop_i :: rest, l =>
    let r := slot_body b c finger_count press_changed release_changed loop_i l
    if r.2 then r.1
    else slot_loop b c finger_count press_changed release_changed rest { r.1 with base := r.1.base + 5 }

/-! ## The work function -/

/-- Lines 882-888: the exit path shared by all branches. -/
def work_exit (b : Build) (ts : synaptics_ts_data) : List Out :=
  (if b.compatible_report then [Out.input_sync] else []) ++
  (if ts.use_irq then [Out.enable_irq] else [])

/-- Lines 566-587: the reset of the controller after a failed or faulty read. -/
def reset_touch_control (c : Cycle) (ts : synaptics_ts_data) : List Out :=
  [if c.ret < 0 then Out.i2c_transfer_failed else Out.status_error (rd c.buf 0 &&& 0x0F)] ++
  (if ts.power then [Out.power false, Out.power true] else [Out.i2c_write 7 0 1]) ++
  [Out.init_panel] ++
  (if ts.use_irq then [Out.i2c_write 8 1 4] else [Out.hrtimer_start])

/-- Lines 607-612: the transition masks `(finger_press_changed,
finger_release_changed)` and the updated `ts->finger_pressed`. -/
def press_changes (ts : synaptics_ts_data) (finger_pressed : Nat) : Nat × Nat × Nat :=
  if ts.finger_pressed ≠ finger_pressed ∧ ts.pre_finger_data 0 0 < 2 then
    let changed := (ts.finger_pressed ^^^ finger_pressed) % 256
    let released := (changed &&& (4294967295 ^^^ finger_pressed)) % 256
    (changed &&& finger_pressed, released, finger_pressed)
  else (0, 0, ts.finger_pressed)

/-- Lines 590-879: the branch taken for a report whose status nibble is
zero, up to the end of the slot loop. -/
def work_report (b : Build) (c : Cycle) (s : State) : Loop :=
  let base := (s.ts.finger_support + 11) / 4
  let sc := scan_fingers s.ts c.buf
  let finger_pressed := sc.1
  let finger_count := sc.2
  let pc := press_changes s.ts finger_pressed
  let ts := { s.ts with finger_pressed := pc.2.2 }
  let rel := if finger_pressed = 0 then
               let r := release_all c finger_count s.g
               (r.1, report_leave b ++ r.2)
             else (s.g, [])
  let l : Loop := ⟨ts, rel.1, rel.2, base, finger_pressed, []⟩
  if ts.pre_finger_data 0 0 < 2 ∨ finger_pressed ≠ 0 then
    slot_loop b c finger_count pc.1 pc.2.1 (List.range ts.finger_support) l
  else l

/-- The function `synaptics_ts_work_func` (lines 547-889): the state after
one run and the effects of the run. -/
def synaptics_ts_work_func (b : Build) (c : Cycle) (s : State) : State × List Out :=
  if s.g.proximity_status = false then (s, work_exit b s.ts)
  else if c.ret < 0 ∨ (rd c.buf 0 &&& 0x0F) ≠ 0 then
    (s, reset_touch_control c s.ts ++ work_exit b s.ts)
  else
    let l := work_report b c s
    (⟨l.ts, l.g⟩, l.out ++ work_exit b l.ts)

/-- Line 558: the number of bytes of the report buffer,
`sizeof(buf) = (ts->finger_support * 21 + 11) / 4`; `i2c_syn_read` fills
exactly these. -/
def report_len (ts : synaptics_ts_data) : Nat := (ts.finger_support * 21 + 11) / 4

/-- The cycle `c` with the bytes `buf` in its report buffer. -/
def with_buf (c : Cycle) (buf : List Nat) : Cycle := { c with buf := buf }

/-- The rows of `finger_data` written by one run, by slot (empty when the
report is not decoded). -/
def decoded_fingers (b : Build) (c : Cycle) (s : State) : List (Nat × finger_row) :=
  if s.g.proximity_status = false then []
  else if c.ret < 0 ∨ (rd c.buf 0 &&& 0x0F) ≠ 0 then []
  else (work_report b c s).finger_data

/-! ## The other writers of the state -/

/-- C conversion `(int)value` of an `unsigned long`. -/
def to_int (value : Nat) : Int :=
  if value % 4294967296 < 2147483648 then (value % 4294967296 : Nat)
  else ((value % 4294967296 : Nat) : Int) - 4294967296

/-- The function `synaptics_ts_suspend` (lines 1118-1166). -/
def synaptics_ts_suspend (s : State) : State × List Out :=
  let o1 := if s2w_active s.g then [Out.enable_irq_wake] else []
  let o2 := if s.ts.use_irq then (if s2w_active s.g then [] else [Out.disable_irq])
            else [Out.hrtimer_cancel, Out.cancel_work_sync]
  let ts := set_pfd (set_pfd s.ts 0 0 0) 0 1 0
  let o3 := if s2w_active s.g then [] else [Out.i2c_write 8 0 1]
  let g := if s2w_active s.g then { s.g with scr_suspended := true, mode := false } else s.g
  (⟨ts, g⟩, o1 ++ o2 ++ o3)

/-- The function `synaptics_ts_resume` (lines 1168-1225); `jiffies` is the
tick count read at line 1192. -/
def synaptics_ts_resume (b : Build) (jiffies : Nat) (s : State) : State × List Out :=
  let o1 := if s2w_active s.g then [Out.i2c_write 8 0 1, Out.disable_irq_wake] else []
  let o2 := [Out.i2c_write 8 0 0, Out.init_panel]
  let ts := { s.ts with timestamp := jiffies }
  let o3 := if b.compatible_report then [Out.abs_mt_pressure 0, Out.key_btn_touch 0, Out.input_sync]
            else [Out.abs_mt_amplitude 0 0, Out.abs_mt_position true 0 0]
  let o4 := if s2w_active s.g then []
            else if ts.use_irq then [Out.enable_irq] else [Out.hrtimer_start]
  let g := if s2w_active s.g then { s.g with scr_suspended := false, mode := true } else s.g
  (⟨ts, g⟩, o1 ++ o2 ++ o3 ++ o4)

/-- Entry points that run between work cycles: a work cycle itself, suspend
and resume, the proximity callback (lines 121-125), and the sysfs stores of
lines 261-459 with the parsed `value`. -/
inductive Ev where
  | work (c : Cycle)
  | suspend
  | resume (jiffies : Nat)
  | proximity (val : Bool)
  | sweep2wake_store (value : Nat)
  | s2w_allow_stroke_store (value : Nat)
  | s2w_register_threshold_store (value : Nat)
  | s2w_min_distance_store (value : Nat)
  | dt2w_switch_store (value : Nat)
  | dt2w_duration_store (value : Nat)
  | dt2w_threshold_store (value : Nat)

/-- One entry point applied to the state. -/
def step (b : Build) (s : State) : Ev → State × List Out
  | .work c => synaptics_ts_work_func b c s
  | .suspend => synaptics_ts_suspend s
  | .resume j => synaptics_ts_resume b j s
  | .proximity val => ({ s with g := { s.g with proximity_status := val } }, [])
  | .sweep2wake_store v =>
    (if v = 0 ∨ v = 1 then { s with g := { s.g with s2w_switch := decide (v ≠ 0) } } else s, [])
  | .s2w_allow_stroke_store v =>
    (if v = 0 ∨ v = 1 then { s with g := { s.g with s2w_allow_stroke := decide (v ≠ 0) } } else s, [])
  | .s2w_register_threshold_store v =>
    ({ s with g := { s.g with s2w_register_threshold := to_int v } }, [])
  | .s2w_min_distance_store v =>
    ({ s with g := { s.g with s2w_min_distance := to_int v } }, [])
  | .dt2w_switch_store v =>
    (if v = 0 ∨ v = 1 then { s with g := { s.g with dt2w_switch := decide (v ≠ 0) } } else s, [])
  | .dt2w_duration_store v =>
    (if v > 0 then { s with g := { s.g with dt2w_duration := v % 4294967296 } } else s, [])
  | .dt2w_threshold_store v =>
    (if v > 0 then { s with g := { s.g with dt2w_threshold := v % 4294967296 } } else s, [])

/-- A sequence of entry points run in order: final state and all effects. -/
def run (b : Build) : State → List Ev → State × List Out
  | s, [] => (s, [])
  | s, e :: es =>
    let r := step b s e
    let r2 := run b r.1 es
    (r2.1, r.2 ++ r2.2)


/-! ## Auxiliary definitions used to state the results -/

/-- The fields of the device structure other than `pre_finger_data` and
`finger_pressed` agree. -/
def same_setup (a b : synaptics_ts_data) : Prop :=
  a.use_irq = b.use_irq ∧ a.max = b.max ∧ a.flags = b.flags ∧
  a.finger_support = b.finger_support ∧ a.power = b.power ∧
  a.raw_base = b.raw_base ∧ a.raw_ref = b.raw_ref ∧ a.timestamp = b.timestamp

/-- The gesture handling of lines 718-859 applied to the samples of the
pressed slots in slot order, stopping at the first `break`. -/
def gest_loop (g : Globals) (finger_count : Nat) : List (Int × Int) → Globals × List Out
  | [] => (g, [])
  | p :: rest =>
    let r := s2w_sample g finger_count p.1 p.2
    if r.2.2 then (r.1, r.2.1)
    else ((gest_loop r.1 finger_count rest).1, r.2.1 ++ (gest_loop r.1 finger_count rest).2)

/-- Positions `(x, y)` decoded for the slots of `slots` whose bit is set in
`mask`, slot `i` being read at offset `base0 + 5 * i`. -/
def pressed_samples (b : Build) (ts : synaptics_ts_data) (buf : List Nat) (mask base0 : Nat)
    (slots : List Nat) : List (Int × Int) :=
  slots.filterMap (fun i =>
    if mask.testBit i then
      some ((decode_finger b ts buf (base0 + 5 * i)).x, (decode_finger b ts buf (base0 + 5 * i)).y)
    else none)

/-- The report read by cycle `c` is decoded: the sensor is far, the read
succeeded and the status nibble is zero. -/
def report_ok (c : Cycle) (s : State) : Prop :=
  s.g.proximity_status = true ∧ 0 ≤ c.ret ∧ rd c.buf 0 &&& 0x0F = 0

instance (c : Cycle) (s : State) : Decidable (report_ok c s) := by
  unfold report_ok; infer_instance


/-- The double-tap memory `dt2w_screen` apart, the statics agree. -/
def same_but_screen (g1 g2 : Globals) : Prop :=
  { g1 with dt2w_screen := false } = { g2 with dt2w_screen := false }

/-- The event is a work cycle whose report is decoded and shows no finger. -/
def sees_zero_fingers (s : State) : Ev → Prop
  | .work c => report_ok c s ∧ (scan_fingers s.ts c.buf).2 = 0
  | _ => False

instance (s : State) (e : Ev) : Decidable (sees_zero_fingers s e) := by
  cases e <;> simp only [sees_zero_fingers] <;> infer_instance

/-- No work cycle of the sequence, run from `s`, sees a zero-finger report. -/
def no_zero_report (b : Build) : State → List Ev → Prop
  | _, [] => True
  | s, e :: es => ¬ sees_zero_fingers s e ∧ no_zero_report b (step b s e).1 es

instance decNoZeroReport (b : Build) :
    (s : State) → (es : List Ev) → Decidable (no_zero_report b s es)
  | _, [] => isTrue trivial
  | s, e :: es => @instDecidableAnd _ _ _ (decNoZeroReport b (step b s e).1 es)

/-- The statics agree up to `dt2w_screen` and the device structures up to
`pre_finger_data` and `finger_pressed`. -/
def related (s1 s2 : State) : Prop :=
  same_but_screen s1.g s2.g ∧ same_setup s1.ts s2.ts

/-- The report of cycle `c` is decoded in state `s` and shows exactly one
finger, whose decoded position is `(x, y)`. -/
def one_finger_at (b : Build) (s : State) (c : Cycle) (x y : Int) : Prop :=
  report_ok c s ∧ (scan_fingers s.ts c.buf).2 = 1 ∧
  pressed_samples b s.ts c.buf (scan_fingers s.ts c.buf).1 ((s.ts.finger_support + 11) / 4)
    (List.range s.ts.finger_support) = [(x, y)]

instance (b : Build) (s : State) (c : Cycle) (x y : Int) : Decidable (one_finger_at b s c x y) := by
  unfold one_finger_at; infer_instance

/-- The test of lines 868-870 for slot `i` of the report of cycle `c`, with
the time stamp, `raw_base`, `raw_ref` and the first recorded Y of the slot
as they stand in `s`: more than `15 * HZ` ticks have passed since the time
stamp, or the slot's decoded Y exceeds `raw_base` and differs from its
first recorded Y by more than `raw_ref`. -/
def drift_confirms (b : Build) (s : State) (c : Cycle) (i : Nat) : Prop :=
  c.jiffies > (s.ts.timestamp + 15 * b.HZ) % 18446744073709551616 ∨
  (((decode_finger b s.ts c.buf ((s.ts.finger_support + 11) / 4 + 5 * i)).y % 4294967296).toNat
      > s.ts.raw_base ∧
    (s.ts.pre_finger_data (i + 1) 1 -
      (decode_finger b s.ts c.buf ((s.ts.finger_support + 11) / 4 + 5 * i)).y).natAbs
      > s.ts.raw_ref)

instance (b : Build) (s : State) (c : Cycle) (i : Nat) : Decidable (drift_confirms b s c i) := by
  unfold drift_confirms; infer_instance

/-- The gesture handling of lines 718-859 applied to a stroke: one
single-finger sample per report. -/
def sweep_run (g : Globals) : List (Int × Int) → Globals × List Out
  | [] => (g, [])
  | p :: ps =>
    ((sweep_run (s2w_sample g 1 p.1 p.2).1 ps).1,
      (s2w_sample g 1 p.1 p.2).2.1 ++ (sweep_run (s2w_sample g 1 p.1 p.2).1 ps).2)

/-- Raw 12-bit X of the slot stored at offset `base`: high byte times
sixteen plus the low nibble of the shared byte. -/
def spec_raw_x (buf : List Nat) (base : Nat) : Nat :=
  rd buf base * 16 + (rd buf (base + 2) &&& 0x0F)

/-- Raw 12-bit Y of the slot stored at offset `base`: high byte times
sixteen plus the high nibble of the shared byte. -/
def spec_raw_y (buf : List Nat) (base : Nat) : Nat :=
  rd buf (base + 1) * 16 + (rd buf (base + 2) >>> 4)

/-- Axis flip: `max - value` when the flag bit `flag` is set in `flags`. -/
def spec_flip (flags flag max value : Nat) : Int :=
  if flags &&& flag ≠ 0 then (max : Int) - (value : Int) else (value : Int)

/-! ## Sample data -/

/-- A build with the compatible report format, `HZ = 100` and the flag bits
of the platform header. -/
def sample_build : Build := ⟨true, 100, 1, 4⟩

/-- A four-finger panel in interrupt mode, nothing pressed, calibration cold. -/
def sample_ts : synaptics_ts_data :=
  ⟨true, (1000, 2000), 0, 4, 0, false, fun _ _ => 0, 0, 0, 0⟩

/-- The state after probe with the module-load values of the statics. -/
def sample_state : State := ⟨sample_ts, Globals.init⟩

/-- The same state with the screen suspended. -/
def sample_suspended : State := ⟨sample_ts, { Globals.init with scr_suspended := true }⟩

/-- A 23-byte report of the four-finger panel with status byte `st` and one
finger in slot 0 at raw position `(x, y)`. -/
def report_one (st x y : Nat) : List Nat :=
  [st, 0, 1, x / 16, y / 16, x % 16 + 16 * (y % 16), 0x11, 40] ++ List.replicate 15 0

/-- A 23-byte report with fingers in slots 0 and 1. -/
def report_two (x0 y0 x1 y1 : Nat) : List Nat :=
  [0, 0, 5, x0 / 16, y0 / 16, x0 % 16 + 16 * (y0 % 16), 0x11, 40,
    x1 / 16, y1 / 16, x1 % 16 + 16 * (y1 % 16), 0x11, 40] ++ List.replicate 10 0

/-- A 23-byte report with status zero and no finger. -/
def report_none : List Nat := List.replicate 23 0

/-- A cycle that read `buf` successfully at time `now` (ns), with `stray`
as the word beyond `finger_data`. -/
def cycle_of (buf : List Nat) (now : Nat) (stray : Int) : Cycle := ⟨0, buf, now, 0, stray⟩

/-- A swipe on the button panel from 100 over 700 to 900. -/
def sample_swipe : List Ev :=
  [Ev.work (cycle_of (report_one 0 100 2000) 0 0),
   Ev.work (cycle_of (report_one 0 700 2000) 0 0),
   Ev.work (cycle_of (report_one 0 900 2000) 0 0)]

/-- The state after the touch-down of a stroke at `x = 100` on the button
panel, awake. -/
def sample_tracking : State :=
  (run sample_build sample_state [Ev.work (cycle_of (report_one 0 100 2000) 0 0)]).1

/-- Two taps of one finger at `x = 100`, the first at height `y1` and lifted
at 1 s, the second at height `y2`. -/
def sample_taps (y1 y2 : Nat) : List Ev :=
  [Ev.work (cycle_of (report_one 0 100 y1) 900000000 0),
   Ev.work (cycle_of report_none 1000000000 0),
   Ev.work (cycle_of (report_one 0 100 y2) (1000000000 + 100000000) 0)]

/-- The report that lifts the second tap `gap` nanoseconds after the first
was lifted, read while the word beyond `finger_data` holds `stray`. -/
def sample_lift (gap : Nat) (stray : Int) : Cycle :=
  cycle_of report_none (1000000000 + gap) stray

/-- A press at `(100, 1000)` and its release read at `jiffies = 2000`, more
than `15 * HZ` ticks after the time stamp 0 of `sample_ts`. -/
def sample_confirm : List Ev :=
  [Ev.work (cycle_of (report_one 0 100 1000) 0 0), Ev.work ⟨0, report_none, 0, 2000, 0⟩]

/-- The state after `sample_confirm`: calibration confirmed. -/
def sample_calibrated : State := (run sample_build sample_state sample_confirm).1

/-- The state after a report with two fingers: calibration warming. -/
def sample_warming : State :=
  (run sample_build sample_state [Ev.work (cycle_of (report_two 100 1000 300 1000) 0 0)]).1

/-- The state after the press of `sample_confirm`: one finger down,
calibration cold. -/
def sample_pressed : State :=
  (run sample_build sample_state [Ev.work (cycle_of (report_one 0 100 1000) 0 0)]).1

/-- Free-swipe mode, suspended, after the touch-down of a stroke at
`x = 100` on the button panel. -/
def sample_free_wake : State :=
  (run sample_build sample_suspended
    [Ev.s2w_allow_stroke_store 0, Ev.work (cycle_of (report_one 0 100 2000) 0 0)]).1

/-- Free-swipe mode, awake, after the touch-down of a stroke at `x = 700`
on the button panel. -/
def sample_free_sleep : State :=
  (run sample_build sample_state
    [Ev.s2w_allow_stroke_store 0, Ev.work (cycle_of (report_one 0 700 2000) 0 0)]).1

/-- Free-swipe mode, awake, X flipped on a panel of width 1000, with
`s2w_min_distance` stored as `INT_MAX`, after the touch-down of a stroke at
raw X 1003, which decodes to `x = -3`. -/
def sample_wrap_max : State :=
  (run sample_build ⟨{ sample_ts with flags := 1 }, Globals.init⟩
    [Ev.s2w_allow_stroke_store 0, Ev.s2w_min_distance_store 2147483647,
     Ev.work (cycle_of (report_one 0 1003 2000) 0 0)]).1

/-- Free-swipe mode, awake, with `s2w_min_distance` stored as `INT_MIN`
(the store of the value `2^31`), after the touch-down of a stroke at
`x = 700` on the button panel. -/
def sample_wrap_min : State :=
  (run sample_build sample_state
    [Ev.s2w_allow_stroke_store 0, Ev.s2w_min_distance_store 2147483648,
     Ev.work (cycle_of (report_one 0 700 2000) 0 0)]).1

/-! ## Bit-level facts -/

theorem rd_lt (buf : List Nat) (i : Nat) : rd buf i < 256 := by
  unfold rd; omega

theorem shr_and_one_eq (m i : Nat) : ((m >>> i) &&& 1 = 1) ↔ m.testBit i = true := by
  rw [Nat.testBit_to_div_mod, Nat.and_one_is_mod, Nat.shiftRight_eq_div_pow]
  simp

theorem shr_and_one_ne (m i : Nat) : ((m >>> i) &&& 1 ≠ 0) ↔ m.testBit i = true := by
  rw [← shr_and_one_eq, Nat.and_one_is_mod]
  omega

theorem code_lt_four (pb i : Nat) (hpb : pb < 256) (h : (pb >>> (i * 2)) &&& 0x03 ≠ 0) : i < 4 := by
  by_contra hi
  apply h
  have h4 : 4 ≤ i := by omega
  have hp : (2:Nat) ^ 8 ≤ 2 ^ (i * 2) := Nat.pow_le_pow_right (by norm_num) (by omega)
  have : pb >>> (i * 2) = 0 := by
    rw [Nat.shiftRight_eq_div_pow]
    apply Nat.div_eq_of_lt
    norm_num at hp
    omega
  rw [this]
  simp

theorem scan_foldl_inv (pb : Nat) (hpb : pb < 256) (n : Nat) :
    ((List.range n).foldl (scan_step pb) (0, 0)).1 < 256 ∧
    (∀ i, ((List.range n).foldl (scan_step pb) (0, 0)).1.testBit i = true ↔
      (i < n ∧ (pb >>> (i * 2)) &&& 0x03 ≠ 0)) ∧
    ((List.range n).foldl (scan_step pb) (0, 0)).2 =
      ((List.range n).filter (fun j => decide ((pb >>> (j * 2)) &&& 0x03 ≠ 0))).length ∧
    ((List.range n).foldl (scan_step pb) (0, 0)).2 ≤ n ∧
    ((List.range n).foldl (scan_step pb) (0, 0)).2 ≤ 4 := by
  induction n with
  | zero => simp
  | succ n ih =>
    obtain ⟨h1, h2, h3, h4, h5⟩ := ih
    rw [List.range_succ, List.foldl_append, List.filter_append]
    simp only [List.foldl_cons, List.foldl_nil, List.length_append]
    generalize (List.range n).foldl (scan_step pb) (0, 0) = r at h1 h2 h3 h4 h5 ⊢
    unfold scan_step
    by_cases hc : (pb >>> (n * 2)) &&& 0x03 ≠ 0
    · have hn : n < 4 := code_lt_four pb n hpb hc
      rw [if_pos hc]
      have hf : List.filter (fun j => decide ((pb >>> (j * 2)) &&& 0x03 ≠ 0)) [n] = [n] := by
        simp [hc]
      rw [hf, List.length_singleton]
      refine ⟨Nat.mod_lt _ (by norm_num), ?_, ?_, ?_, ?_⟩
      · intro i
        have e : (256 : Nat) = 2 ^ 8 := by norm_num
        rw [e, Nat.testBit_mod_two_pow, Nat.testBit_or, Nat.one_shiftLeft, Nat.testBit_two_pow]
        simp only [Bool.and_eq_true, Bool.or_eq_true, decide_eq_true_eq]
        rw [h2 i]
        constructor
        · rintro ⟨_, h | h⟩
          · exact ⟨by omega, h.2⟩
          · subst h; exact ⟨by omega, hc⟩
        · rintro ⟨hi, hci⟩
          have := code_lt_four pb i hpb hci
          refine ⟨by omega, ?_⟩
          by_cases hin : i < n
          · exact Or.inl ⟨hin, hci⟩
          · exact Or.inr (by omega)
      · rw [← h3]; omega
      · omega
      · omega
    · rw [if_neg hc]
      have hf : List.filter (fun j => decide ((pb >>> (j * 2)) &&& 0x03 ≠ 0)) [n] = [] := by
        simp only [List.filter_cons, List.filter_nil]
        rw [if_neg]; simpa using hc
      rw [hf, List.length_nil]
      refine ⟨h1, ?_, ?_, ?_, ?_⟩
      · intro i
        rw [h2 i]
        constructor
        · rintro ⟨hi, hci⟩; exact ⟨by omega, hci⟩
        · rintro ⟨hi, hci⟩
          refine ⟨?_, hci⟩
          by_contra hin
          have : i = n := by omega
          subst this; exact hc hci
      · simpa using h3
      · omega
      · exact h5

/-! ## Frame facts of the slot loop -/

theorem triggers_append (a b : List Out) : triggers (a ++ b) = triggers a ++ triggers b := by
  induction a with
  | nil => rfl
  | cons o os ih => cases o <;> simp [triggers, ih]

theorem triggers_report_finger (b : Build) (fd : finger_row) (fp : Nat) :
    triggers (report_finger b fd fp) = [] := by
  unfold report_finger; split <;> rfl

theorem triggers_note_press (ts : synaptics_ts_data) (fc pc i : Nat) (fd : finger_row) :
    triggers (note_press ts fc pc i fd).2 = [] := by
  simp only [note_press]; split_ifs <;> rfl

theorem triggers_work_exit (b : Build) (ts : synaptics_ts_data) : triggers (work_exit b ts) = [] := by
  unfold work_exit; split_ifs <;> rfl

theorem triggers_report_leave (b : Build) : triggers (report_leave b) = [] := by
  unfold report_leave; split_ifs <;> rfl

theorem triggers_reset (c : Cycle) (ts : synaptics_ts_data) :
    triggers (reset_touch_control c ts) = [] := by
  unfold reset_touch_control; split_ifs <;> rfl

theorem same_setup_refl (a : synaptics_ts_data) : same_setup a a := by
  simp [same_setup]

theorem same_setup_trans {a b c : synaptics_ts_data} (h1 : same_setup a b) (h2 : same_setup b c) :
    same_setup a c := by
  simp only [same_setup] at *
  obtain ⟨a1, a2, a3, a4, a5, a6, a7, a8⟩ := h1
  obtain ⟨b1, b2, b3, b4, b5, b6, b7, b8⟩ := h2
  exact ⟨a1.trans b1, a2.trans b2, a3.trans b3, a4.trans b4, a5.trans b5, a6.trans b6,
    a7.trans b7, a8.trans b8⟩

theorem same_setup_set_pfd (ts : synaptics_ts_data) (i j : Nat) (v : Int) :
    same_setup (set_pfd ts i j v) ts := by
  simp [same_setup, set_pfd]

theorem same_setup_note_press (ts : synaptics_ts_data) (fc pc i : Nat) (fd : finger_row) :
    same_setup (note_press ts fc pc i fd).1 ts := by
  simp only [note_press]
  split_ifs <;> simp [same_setup, set_pfd]

theorem decode_finger_congr (b : Build) (t1 t2 : synaptics_ts_data) (h : same_setup t1 t2)
    (buf : List Nat) (base : Nat) : decode_finger b t1 buf base = decode_finger b t2 buf base := by
  obtain ⟨_, h2, h3, _⟩ := h
  simp only [decode_finger, decode_axis, max_at, h2, h3]

theorem slot_tail_g (b : Build) (c : Cycle) (fc rc i : Nat) (fd : finger_row) (l : Loop) :
    (slot_tail b c fc rc i fd l).g = l.g := by
  simp only [slot_tail]; split_ifs <;> rfl

theorem slot_tail_base (b : Build) (c : Cycle) (fc rc i : Nat) (fd : finger_row) (l : Loop) :
    (slot_tail b c fc rc i fd l).base = l.base := by
  simp only [slot_tail]; split_ifs <;> rfl

theorem slot_tail_finger_pressed (b : Build) (c : Cycle) (fc rc i : Nat) (fd : finger_row)
    (l : Loop) : (slot_tail b c fc rc i fd l).finger_pressed = l.finger_pressed := by
  simp only [slot_tail]; split_ifs <;> rfl

theorem slot_tail_finger_data (b : Build) (c : Cycle) (fc rc i : Nat) (fd : finger_row)
    (l : Loop) : (slot_tail b c fc rc i fd l).finger_data = l.finger_data := by
  simp only [slot_tail]; split_ifs <;> rfl

theorem slot_tail_triggers (b : Build) (c : Cycle) (fc rc i : Nat) (fd : finger_row) (l : Loop) :
    triggers (slot_tail b c fc rc i fd l).out = triggers l.out := by
  simp only [slot_tail]; split_ifs <;> simp [triggers_append, triggers]

theorem slot_tail_setup (b : Build) (c : Cycle) (fc rc i : Nat) (fd : finger_row) (l : Loop) :
    same_setup (slot_tail b c fc rc i fd l).ts l.ts := by
  simp only [slot_tail]; split_ifs <;> simp [same_setup, set_pfd]

theorem testBit_lt_256 (m j : Nat) (hm : m < 256) (h : m.testBit j = true) : j < 8 := by
  by_contra hj
  have h8 : (2:Nat) ^ 8 ≤ 2 ^ j := Nat.pow_le_pow_right (by norm_num) (by omega)
  have : m < 2 ^ j := by norm_num at h8; omega
  rw [Nat.testBit_lt_two_pow this] at h
  exact Bool.false_ne_true h

theorem clear_bit_testBit (m i j : Nat) (hm : m < 256) (hij : j ≠ i) :
    ((m &&& (4294967295 ^^^ (1 <<< i))) % 256).testBit j = m.testBit j := by
  have e : (256 : Nat) = 2 ^ 8 := by norm_num
  have e2 : (4294967295 : Nat) = 2 ^ 32 - 1 := by norm_num
  rw [e, Nat.testBit_mod_two_pow, Nat.testBit_and, Nat.testBit_xor, e2, Nat.testBit_two_pow_sub_one,
    Nat.one_shiftLeft, Nat.testBit_two_pow_of_ne (Ne.symm hij)]
  cases h : m.testBit j
  · simp
  · have := testBit_lt_256 m j hm h
    simp; omega

theorem slot_body_base (b : Build) (c : Cycle) (fc pc rc i : Nat) (l : Loop) :
    (slot_body b c fc pc rc i l).1.base = l.base := by
  simp only [slot_body]; split_ifs <;> simp [slot_tail_base]

theorem slot_body_setup (b : Build) (c : Cycle) (fc pc rc i : Nat) (l : Loop) :
    same_setup (slot_body b c fc pc rc i l).1.ts l.ts := by
  simp only [slot_body]
  split_ifs
  · exact same_setup_note_press _ _ _ _ _
  · exact same_setup_trans (slot_tail_setup _ _ _ _ _ _ _) (same_setup_note_press _ _ _ _ _)
  · exact slot_tail_setup _ _ _ _ _ _ _
  · exact same_setup_refl _

theorem slot_body_finger_pressed (b : Build) (c : Cycle) (fc pc rc i : Nat) (l : Loop) :
    (slot_body b c fc pc rc i l).1.finger_pressed =
      if l.finger_pressed.testBit i = true then
        (l.finger_pressed &&& (4294967295 ^^^ (1 <<< i))) % 256
      else l.finger_pressed := by
  simp only [slot_body, shr_and_one_eq]
  split_ifs <;> simp_all [slot_tail_finger_pressed]

theorem slot_body_finger_data (b : Build) (c : Cycle) (fc pc rc i : Nat) (l : Loop) :
    (slot_body b c fc pc rc i l).1.finger_data = l.finger_data ∨
    (slot_body b c fc pc rc i l).1.finger_data =
      l.finger_data ++ [(i, decode_finger b l.ts c.buf l.base)] := by
  simp only [slot_body]
  split_ifs <;> simp [slot_tail_finger_data]

theorem slot_body_pressed (b : Build) (c : Cycle) (fc pc rc i : Nat) (l : Loop)
    (h : l.finger_pressed.testBit i = true) :
    (slot_body b c fc pc rc i l).1.g =
      (s2w_sample l.g fc (decode_finger b l.ts c.buf l.base).x
        (decode_finger b l.ts c.buf l.base).y).1 ∧
    (slot_body b c fc pc rc i l).2 =
      (s2w_sample l.g fc (decode_finger b l.ts c.buf l.base).x
        (decode_finger b l.ts c.buf l.base).y).2.2 ∧
    triggers (slot_body b c fc pc rc i l).1.out = triggers l.out ++
      triggers (s2w_sample l.g fc (decode_finger b l.ts c.buf l.base).x
        (decode_finger b l.ts c.buf l.base).y).2.1 := by
  have hf : ((l.finger_pressed ||| rc) >>> i) &&& 1 = 1 := by
    rw [shr_and_one_eq, Nat.testBit_or, h]; rfl
  have hp : (l.finger_pressed >>> i) &&& 1 = 1 := (shr_and_one_eq _ _).2 h
  simp only [slot_body, if_pos hf, if_pos hp]
  split_ifs with hb
  · simp [hb, triggers_append, triggers_report_finger, triggers_note_press]
  · simp [hb, slot_tail_g, slot_tail_triggers, triggers_append, triggers_report_finger,
      triggers_note_press]

theorem slot_body_not_pressed (b : Build) (c : Cycle) (fc pc rc i : Nat) (l : Loop)
    (h : l.finger_pressed.testBit i = false) :
    (slot_body b c fc pc rc i l).1.g = l.g ∧ (slot_body b c fc pc rc i l).2 = false ∧
    triggers (slot_body b c fc pc rc i l).1.out = triggers l.out := by
  have hp : ¬ ((l.finger_pressed >>> i) &&& 1 = 1) := by
    rw [shr_and_one_eq, h]; exact Bool.false_ne_true
  simp only [slot_body, if_neg hp]
  split_ifs <;> simp [slot_tail_g, slot_tail_triggers]

theorem slot_body_lt (b : Build) (c : Cycle) (fc pc rc i : Nat) (l : Loop)
    (h : l.finger_pressed < 256) : (slot_body b c fc pc rc i l).1.finger_pressed < 256 := by
  rw [slot_body_finger_pressed]
  split_ifs
  · exact Nat.mod_lt _ (by norm_num)
  · exact h

theorem slot_body_testBit (b : Build) (c : Cycle) (fc pc rc i j : Nat) (l : Loop)
    (h : l.finger_pressed < 256) (hij : j ≠ i) :
    (slot_body b c fc pc rc i l).1.finger_pressed.testBit j = l.finger_pressed.testBit j := by
  rw [slot_body_finger_pressed]
  split_ifs
  · exact clear_bit_testBit _ _ _ h hij
  · rfl

theorem pressed_samples_congr (b : Build) (t1 t2 : synaptics_ts_data) (buf : List Nat)
    (m1 m2 base0 : Nat) (slots : List Nat) (ht : same_setup t1 t2)
    (hm : ∀ i ∈ slots, m1.testBit i = m2.testBit i) :
    pressed_samples b t1 buf m1 base0 slots = pressed_samples b t2 buf m2 base0 slots := by
  unfold pressed_samples
  apply List.filterMap_congr
  intro i hi
  rw [hm i hi, decode_finger_congr b t1 t2 ht]

/-- The slot loop acts on the statics and on the trigger requests as the
gesture handling applied to the samples of the pressed slots. -/
theorem slot_loop_gesture (b : Build) (c : Cycle) (fc pc rc base0 : Nat) :
    ∀ (n k : Nat) (l : Loop), l.base = base0 + 5 * k → l.finger_pressed < 256 →
      (slot_loop b c fc pc rc (List.range' k n) l).g =
        (gest_loop l.g fc (pressed_samples b l.ts c.buf l.finger_pressed base0
          (List.range' k n))).1 ∧
      triggers (slot_loop b c fc pc rc (List.range' k n) l).out = triggers l.out ++
        triggers (gest_loop l.g fc (pressed_samples b l.ts c.buf l.finger_pressed base0
          (List.range' k n))).2 ∧
      same_setup (slot_loop b c fc pc rc (List.range' k n) l).ts l.ts := by
  intro n
  induction n with
  | zero =>
    intro k l _ _
    simp [slot_loop, pressed_samples, gest_loop, triggers, same_setup_refl]
  | succ n ih =>
    intro k l hb hl
    rw [List.range'_succ]
    have hs := slot_body_setup b c fc pc rc k l
    have hlt := slot_body_lt b c fc pc rc k l hl
    have hbase := slot_body_base b c fc pc rc k l
    have hcongr : pressed_samples b (slot_body b c fc pc rc k l).1.ts c.buf
        (slot_body b c fc pc rc k l).1.finger_pressed base0 (List.range' (k + 1) n) =
        pressed_samples b l.ts c.buf l.finger_pressed base0 (List.range' (k + 1) n) := by
      apply pressed_samples_congr _ _ _ _ _ _ _ _ hs
      intro i hi
      rw [List.mem_range'_1] at hi
      exact slot_body_testBit b c fc pc rc k i l hl (by omega)
    have ih1 := ih (k + 1) { (slot_body b c fc pc rc k l).1 with
      base := (slot_body b c fc pc rc k l).1.base + 5 } (by simp [hbase, hb]; ring) hlt
    simp only [hcongr] at ih1
    obtain ⟨i1, i2, i3⟩ := ih1
    cases hp : l.finger_pressed.testBit k
    · obtain ⟨g1, g2, g3⟩ := slot_body_not_pressed b c fc pc rc k l hp
      have hps : pressed_samples b l.ts c.buf l.finger_pressed base0 (k :: List.range' (k + 1) n) =
          pressed_samples b l.ts c.buf l.finger_pressed base0 (List.range' (k + 1) n) := by
        simp [pressed_samples, hp]
      rw [hps]
      simp only [slot_loop, g2, Bool.false_eq_true, if_false]
      rw [← g1, ← g3]
      exact ⟨i1, i2, same_setup_trans i3 hs⟩
    · obtain ⟨g1, g2, g3⟩ := slot_body_pressed b c fc pc rc k l hp
      have hps : pressed_samples b l.ts c.buf l.finger_pressed base0 (k :: List.range' (k + 1) n) =
          ((decode_finger b l.ts c.buf (base0 + 5 * k)).x,
            (decode_finger b l.ts c.buf (base0 + 5 * k)).y) ::
          pressed_samples b l.ts c.buf l.finger_pressed base0 (List.range' (k + 1) n) := by
        simp [pressed_samples, hp]
      rw [hps]
      rw [hb] at g1 g2 g3
      simp only [slot_loop, gest_loop]
      rw [g2]
      split_ifs with hbrk
      · exact ⟨g1, g3, hs⟩
      · rw [triggers_append, ← List.append_assoc, ← g3, ← g1]
        exact ⟨i1, i2, same_setup_trans i3 hs⟩

/-- Rows written by the slot loop are decoded at offset `base0 + 5 * slot`. -/
theorem slot_loop_finger_data (b : Build) (c : Cycle) (fc pc rc base0 : Nat) (ts0 : synaptics_ts_data) :
    ∀ (n k : Nat) (l : Loop), l.base = base0 + 5 * k → same_setup l.ts ts0 →
      ∀ e ∈ (slot_loop b c fc pc rc (List.range' k n) l).finger_data,
        e ∈ l.finger_data ∨ e.2 = decode_finger b ts0 c.buf (base0 + 5 * e.1) := by
  intro n
  induction n with
  | zero =>
    intro k l _ _ e he
    exact Or.inl (by simpa [slot_loop] using he)
  | succ n ih =>
    intro k l hb hs e he
    rw [List.range'_succ] at he
    simp only [slot_loop] at he
    have hfd := slot_body_finger_data b c fc pc rc k l
    have key : e ∈ (slot_body b c fc pc rc k l).1.finger_data →
        e ∈ l.finger_data ∨ e.2 = decode_finger b ts0 c.buf (base0 + 5 * e.1) := by
      intro h
      rcases hfd with h1 | h1
      · rw [h1] at h; exact Or.inl h
      · rw [h1, List.mem_append, List.mem_singleton] at h
        rcases h with h | h
        · exact Or.inl h
        · right; rw [h]; simp only
          rw [hb]; exact decode_finger_congr b _ _ hs _ _
    split_ifs at he with hbrk
    · exact key he
    · have := ih (k + 1) { (slot_body b c fc pc rc k l).1 with
        base := (slot_body b c fc pc rc k l).1.base + 5 }
        (by simp [slot_body_base, hb]; ring)
        (same_setup_trans (slot_body_setup b c fc pc rc k l) hs) e he
      rcases this with h | h
      · exact key h
      · exact Or.inr h

/-! ## The work function as gesture handling of the pressed slots -/

theorem scan_fingers_lt (ts : synaptics_ts_data) (buf : List Nat) : (scan_fingers ts buf).1 < 256 :=
  (scan_foldl_inv _ (rd_lt _ _) _).1

theorem pressed_samples_zero (b : Build) (ts : synaptics_ts_data) (buf : List Nat) (base0 : Nat)
    (slots : List Nat) : pressed_samples b ts buf 0 base0 slots = [] := by
  unfold pressed_samples
  induction slots with
  | nil => rfl
  | cons i rest ih => simp [List.filterMap_cons, ih]

theorem triggers_release_all_le (c : Cycle) (fc : Nat) (g : Globals) :
    triggers (release_all c fc g).2 = [] ∨ triggers (release_all c fc g).2 = [true] := by
  simp only [release_all]
  split_ifs <;> simp [triggers]

/-- A cycle whose report is not decoded changes nothing and requests no
trigger. -/
theorem work_not_ok (b : Build) (c : Cycle) (s : State) (h : ¬ report_ok c s) :
    (synaptics_ts_work_func b c s).1 = s ∧ triggers (synaptics_ts_work_func b c s).2 = [] := by
  unfold report_ok at h
  unfold synaptics_ts_work_func
  by_cases hp : s.g.proximity_status = false
  · simp [hp, triggers_work_exit]
  · rw [if_neg hp]
    have hp2 : s.g.proximity_status = true := by simpa using hp
    have : c.ret < 0 ∨ rd c.buf 0 &&& 0x0F ≠ 0 := by
      by_contra hn
      push_neg at hn
      exact h ⟨hp2, hn.1, hn.2⟩
    rw [if_pos this]
    simp [triggers_append, triggers_work_exit, triggers_reset]

theorem work_ok_eq (b : Build) (c : Cycle) (s : State) (h : report_ok c s) :
    synaptics_ts_work_func b c s =
      (⟨(work_report b c s).ts, (work_report b c s).g⟩,
        (work_report b c s).out ++ work_exit b (work_report b c s).ts) := by
  obtain ⟨h1, h2, h3⟩ := h
  unfold synaptics_ts_work_func
  rw [if_neg (by simp [h1]), if_neg (by push_neg; exact ⟨h2, h3⟩)]

/-- A decoded report with at least one finger: the statics and the trigger
requests are those of the gesture handling of the pressed slots. -/
theorem work_touch (b : Build) (c : Cycle) (s : State) (h : report_ok c s)
    (hm : (scan_fingers s.ts c.buf).1 ≠ 0) :
    (synaptics_ts_work_func b c s).1.g =
      (gest_loop s.g (scan_fingers s.ts c.buf).2
        (pressed_samples b s.ts c.buf (scan_fingers s.ts c.buf).1 ((s.ts.finger_support + 11) / 4)
          (List.range s.ts.finger_support))).1 ∧
    triggers (synaptics_ts_work_func b c s).2 =
      triggers (gest_loop s.g (scan_fingers s.ts c.buf).2
        (pressed_samples b s.ts c.buf (scan_fingers s.ts c.buf).1 ((s.ts.finger_support + 11) / 4)
          (List.range s.ts.finger_support))).2 ∧
    same_setup (synaptics_ts_work_func b c s).1.ts s.ts := by
  rw [work_ok_eq b c s h]
  simp only [work_report, if_neg hm, triggers_append, triggers_work_exit, List.append_nil]
  rw [if_pos (Or.inr hm), List.range_eq_range']
  have key := slot_loop_gesture b c (scan_fingers s.ts c.buf).2
    (press_changes s.ts (scan_fingers s.ts c.buf).1).1
    (press_changes s.ts (scan_fingers s.ts c.buf).1).2.1 ((s.ts.finger_support + 11) / 4)
    s.ts.finger_support 0
    ⟨{ s.ts with finger_pressed := (press_changes s.ts (scan_fingers s.ts c.buf).1).2.2 }, s.g, [],
      (s.ts.finger_support + 11) / 4, (scan_fingers s.ts c.buf).1, []⟩
    (by simp) (scan_fingers_lt _ _)
  obtain ⟨k1, k2, k3⟩ := key
  have hc : pressed_samples b
      { s.ts with finger_pressed := (press_changes s.ts (scan_fingers s.ts c.buf).1).2.2 } c.buf
      (scan_fingers s.ts c.buf).1 ((s.ts.finger_support + 11) / 4)
      (List.range' 0 s.ts.finger_support) =
      pressed_samples b s.ts c.buf (scan_fingers s.ts c.buf).1 ((s.ts.finger_support + 11) / 4)
      (List.range' 0 s.ts.finger_support) :=
    pressed_samples_congr _ _ _ _ _ _ _ _ (by simp [same_setup]) (fun _ _ => rfl)
  simp only [hc] at k1 k2
  refine ⟨k1, ?_, same_setup_trans k3 (by simp [same_setup])⟩
  simpa [triggers] using k2

/-- A decoded report without fingers: the statics and the trigger requests
are those of lines 623-654. -/
theorem work_zero (b : Build) (c : Cycle) (s : State) (h : report_ok c s)
    (hm : (scan_fingers s.ts c.buf).1 = 0) :
    (synaptics_ts_work_func b c s).1.g = (release_all c (scan_fingers s.ts c.buf).2 s.g).1 ∧
    triggers (synaptics_ts_work_func b c s).2 =
      triggers (release_all c (scan_fingers s.ts c.buf).2 s.g).2 ∧
    same_setup (synaptics_ts_work_func b c s).1.ts s.ts := by
  rw [work_ok_eq b c s h]
  simp only [work_report, if_pos hm, triggers_append, triggers_work_exit, List.append_nil]
  split_ifs with hl
  · rw [List.range_eq_range']
    simp only [hm]
    have key := slot_loop_gesture b c (scan_fingers s.ts c.buf).2
      (press_changes s.ts 0).1 (press_changes s.ts 0).2.1 ((s.ts.finger_support + 11) / 4)
      s.ts.finger_support 0
      ⟨{ s.ts with finger_pressed := (press_changes s.ts 0).2.2 },
        (release_all c (scan_fingers s.ts c.buf).2 s.g).1,
        report_leave b ++ (release_all c (scan_fingers s.ts c.buf).2 s.g).2,
        (s.ts.finger_support + 11) / 4, 0, []⟩
      (by simp) (by norm_num)
    simp only [pressed_samples_zero, gest_loop, triggers, List.append_nil, triggers_append,
      triggers_report_leave, List.nil_append] at key
    obtain ⟨k1, k2, k3⟩ := key
    exact ⟨k1, k2, same_setup_trans k3 (by simp [same_setup])⟩
  · simp [triggers_append, triggers_report_leave, same_setup]

/-! ## Facts about the gesture handling -/

theorem scan_zero_iff (ts : synaptics_ts_data) (buf : List Nat) :
    (scan_fingers ts buf).1 = 0 ↔ (scan_fingers ts buf).2 = 0 := by
  obtain ⟨_, h2, h3, _, _⟩ :=
    scan_foldl_inv (rd buf (1 + (ts.finger_support + 3) / 4)) (rd_lt _ _) ts.finger_support
  unfold scan_fingers
  constructor
  · intro hm
    rw [h3, List.length_eq_zero, List.filter_eq_nil_iff]
    intro i hi hc
    have hc2 := of_decide_eq_true hc
    have := (h2 i).2 ⟨List.mem_range.1 hi, hc2⟩
    rw [hm] at this
    simp at this
  · intro hc
    rw [h3, List.length_eq_zero, List.filter_eq_nil_iff] at hc
    apply Nat.eq_of_testBit_eq
    intro i
    rw [Nat.zero_testBit]
    by_contra hb
    have hb2 : ((List.range ts.finger_support).foldl
        (scan_step (rd buf (1 + (ts.finger_support + 3) / 4))) (0, 0)).1.testBit i = true := by
      simpa using hb
    obtain ⟨hi, hci⟩ := (h2 i).1 hb2
    exact hc i (List.mem_range.2 hi) (decide_eq_true hci)

@[simp] theorem note_zone_proximity_status (g : Globals) (y : Int) :
    (note_zone g y).proximity_status = g.proximity_status := rfl

@[simp] theorem note_zone_s2w_register_threshold (g : Globals) (y : Int) :
    (note_zone g y).s2w_register_threshold = g.s2w_register_threshold := rfl

@[simp] theorem note_zone_s2w_min_distance (g : Globals) (y : Int) :
    (note_zone g y).s2w_min_distance = g.s2w_min_distance := rfl

@[simp] theorem note_zone_s2w_allow_stroke (g : Globals) (y : Int) :
    (note_zone g y).s2w_allow_stroke = g.s2w_allow_stroke := rfl

@[simp] theorem note_zone_s2w_switch (g : Globals) (y : Int) :
    (note_zone g y).s2w_switch = g.s2w_switch := rfl

@[simp] theorem note_zone_dt2w_switch (g : Globals) (y : Int) :
    (note_zone g y).dt2w_switch = g.dt2w_switch := rfl

@[simp] theorem note_zone_dt2w_duration (g : Globals) (y : Int) :
    (note_zone g y).dt2w_duration = g.dt2w_duration := rfl

@[simp] theorem note_zone_dt2w_threshold (g : Globals) (y : Int) :
    (note_zone g y).dt2w_threshold = g.dt2w_threshold := rfl

@[simp] theorem note_zone_dt2w_start (g : Globals) (y : Int) :
    (note_zone g y).dt2w_start = g.dt2w_start := rfl

@[simp] theorem note_zone_scr_suspended (g : Globals) (y : Int) :
    (note_zone g y).scr_suspended = g.scr_suspended := rfl

@[simp] theorem note_zone_exec_count (g : Globals) (y : Int) :
    (note_zone g y).exec_count = g.exec_count := rfl

@[simp] theorem note_zone_barrier (g : Globals) (y : Int) :
    (note_zone g y).barrier = g.barrier := rfl

@[simp] theorem note_zone_mode (g : Globals) (y : Int) :
    (note_zone g y).mode = g.mode := rfl

@[simp] theorem note_zone_downx (g : Globals) (y : Int) :
    (note_zone g y).downx = g.downx := rfl

@[simp] theorem lock_panel_proximity_status (g : Globals) (far : Bool) :
    (lock_panel g far).proximity_status = g.proximity_status := by
  cases far <;> rfl

@[simp] theorem lock_panel_s2w_register_threshold (g : Globals) (far : Bool) :
    (lock_panel g far).s2w_register_threshold = g.s2w_register_threshold := by
  cases far <;> rfl

@[simp] theorem lock_panel_s2w_min_distance (g : Globals) (far : Bool) :
    (lock_panel g far).s2w_min_distance = g.s2w_min_distance := by
  cases far <;> rfl

@[simp] theorem lock_panel_s2w_allow_stroke (g : Globals) (far : Bool) :
    (lock_panel g far).s2w_allow_stroke = g.s2w_allow_stroke := by
  cases far <;> rfl

@[simp] theorem lock_panel_s2w_switch (g : Globals) (far : Bool) :
    (lock_panel g far).s2w_switch = g.s2w_switch := by
  cases far <;> rfl

@[simp] theorem lock_panel_dt2w_switch (g : Globals) (far : Bool) :
    (lock_panel g far).dt2w_switch = g.dt2w_switch := by
  cases far <;> rfl

@[simp] theorem lock_panel_dt2w_duration (g : Globals) (far : Bool) :
    (lock_panel g far).dt2w_duration = g.dt2w_duration := by
  cases far <;> rfl

@[simp] theorem lock_panel_dt2w_threshold (g : Globals) (far : Bool) :
    (lock_panel g far).dt2w_threshold = g.dt2w_threshold := by
  cases far <;> rfl

@[simp] theorem lock_panel_dt2w_start (g : Globals) (far : Bool) :
    (lock_panel g far).dt2w_start = g.dt2w_start := by
  cases far <;> rfl

@[simp] theorem lock_panel_dt2w_screen (g : Globals) (far : Bool) :
    (lock_panel g far).dt2w_screen = g.dt2w_screen := by
  cases far <;> rfl

@[simp] theorem lock_panel_scr_suspended (g : Globals) (far : Bool) :
    (lock_panel g far).scr_suspended = g.scr_suspended := by
  cases far <;> rfl

@[simp] theorem lock_panel_exec_count (g : Globals) (far : Bool) :
    (lock_panel g far).exec_count = g.exec_count := by
  cases far <;> rfl

@[simp] theorem lock_panel_mode (g : Globals) (far : Bool) :
    (lock_panel g far).mode = g.mode := by
  cases far <;> rfl

@[simp] theorem lock_panel_downx (g : Globals) (far : Bool) :
    (lock_panel g far).downx = g.downx := by
  cases far <;> rfl

theorem s2w_sample_screen (g : Globals) (d : Bool) (fc : Nat) (x y : Int) :
    s2w_sample { g with dt2w_screen := d } fc x y = s2w_sample g fc x y := rfl

theorem s2w_sample_sim (g1 g2 : Globals) (h : same_but_screen g1 g2) (fc : Nat) (x y : Int) :
    s2w_sample g1 fc x y = s2w_sample g2 fc x y := by
  rw [← s2w_sample_screen g1 false, ← s2w_sample_screen g2 false]
  unfold same_but_screen at h
  rw [h]

/-- One sample requests at most one trigger, and only by clearing a set
`exec_count`. -/
theorem s2w_sample_fire (g : Globals) (fc : Nat) (x y : Int) :
    ((s2w_sample g fc x y).2.1 = [] ∧ (s2w_sample g fc x y).1.exec_count = g.exec_count) ∨
    (g.exec_count = true ∧ (s2w_sample g fc x y).1.exec_count = false ∧
      (s2w_sample g fc x y).2.2 = true ∧
      ∃ m, (s2w_sample g fc x y).2.1 = [Out.pwrtrigger m]) := by
  generalize hr : s2w_sample g fc x y = r
  simp only [s2w_sample, note_zone_s2w_allow_stroke, note_zone_s2w_switch, note_zone_downx,
    note_zone_s2w_register_threshold, note_zone_s2w_min_distance, note_zone_exec_count,
    note_zone_scr_suspended, lock_panel_downx, lock_panel_exec_count,
    lock_panel_s2w_min_distance, lock_panel_scr_suspended] at hr
  split_ifs at hr
  all_goals subst hr
  all_goals first
    | (left; exact ⟨rfl, rfl⟩)
    | (left; exact ⟨rfl, lock_panel_exec_count _ _⟩)
    | (right; exact ⟨by assumption, rfl, rfl, _, rfl⟩)

/-- With a finger count other than one a sample only records the zone of the
touch. -/
theorem s2w_sample_multi (g : Globals) (fc : Nat) (x y : Int) (h : fc ≠ 1) :
    s2w_sample g fc x y = (note_zone g y, [], false) := by
  simp only [s2w_sample]
  split
  · rw [@if_neg (_ ∧ _) _ (fun hc => h hc.1)]
  · rw [@if_neg (_ ∧ _) _ (fun hc => h hc.1), @if_neg (_ ∧ _) _ (fun hc => h hc.1)]

theorem gest_loop_fire (fc : Nat) : ∀ (ps : List (Int × Int)) (g : Globals),
    (triggers (gest_loop g fc ps).2 = [] ∧ (gest_loop g fc ps).1.exec_count = g.exec_count) ∨
    (g.exec_count = true ∧ (gest_loop g fc ps).1.exec_count = false ∧
      (triggers (gest_loop g fc ps).2).length = 1) := by
  intro ps
  induction ps with
  | nil => intro g; left; exact ⟨rfl, rfl⟩
  | cons p rest ih =>
    intro g
    simp only [gest_loop]
    rcases s2w_sample_fire g fc p.1 p.2 with ⟨h1, h2⟩ | ⟨h1, h2, h3, m, h4⟩
    · split_ifs with hb
      · left; rw [h1]; exact ⟨rfl, h2⟩
      · rw [h1, List.nil_append]
        rcases ih (s2w_sample g fc p.1 p.2).1 with ⟨i1, i2⟩ | ⟨i1, i2, i3⟩
        · left; exact ⟨i1, i2.trans h2⟩
        · right; exact ⟨h2 ▸ i1, i2, i3⟩
    · rw [if_pos h3, h4]
      right; exact ⟨h1, h2, rfl⟩

theorem gest_loop_multi (fc : Nat) (h : fc ≠ 1) : ∀ (ps : List (Int × Int)) (g : Globals),
    same_but_screen (gest_loop g fc ps).1 g ∧ (gest_loop g fc ps).2 = [] := by
  intro ps
  induction ps with
  | nil => intro g; exact ⟨rfl, rfl⟩
  | cons p rest ih =>
    intro g
    simp only [gest_loop, s2w_sample_multi g fc p.1 p.2 h, Bool.false_eq_true, if_false,
      List.nil_append]
    obtain ⟨i1, i2⟩ := ih (note_zone g p.2)
    refine ⟨?_, i2⟩
    unfold same_but_screen at i1 ⊢
    rw [i1]; rfl

theorem gest_loop_sim (fc : Nat) (ps : List (Int × Int)) (g1 g2 : Globals)
    (h : same_but_screen g1 g2) :
    same_but_screen (gest_loop g1 fc ps).1 (gest_loop g2 fc ps).1 ∧
    (gest_loop g1 fc ps).2 = (gest_loop g2 fc ps).2 := by
  cases ps with
  | nil => exact ⟨h, rfl⟩
  | cons p rest =>
    simp only [gest_loop, s2w_sample_sim g1 g2 h]
    exact ⟨rfl, trivial⟩


/-! ## Decoding (C1, C2, C3) -/

set_option maxRecDepth 20000 in
theorem hi_nibble (v : Nat) (hv : v < 256) : (v &&& 240) >>> 4 = v >>> 4 := by
  revert v; decide

theorem decode_axis_zero (b : Build) (ts : synaptics_ts_data) (buf : List Nat) (base : Nat) :
    decode_axis b ts buf base 0 =
      spec_flip ts.flags (b.SYNAPTICS_FLIP_X % 4294967296) ts.max.1 (spec_raw_x buf base) := by
  have h15 : rd buf (base + 2) &&& 15 < 2 ^ 4 := Nat.and_lt_two_pow _ (by norm_num)
  have e : (((rd buf (base + 2) &&& (0x0f <<< (4 * 0)) % 256) >>> (0 * 4)) |||
      (rd buf (base + 0) <<< 4)) = spec_raw_x buf base := by
    show ((rd buf (base + 2) &&& 15) ||| (rd buf base <<< 4)) = _
    rw [Nat.or_comm, Nat.shiftLeft_eq, Nat.mul_comm, ← Nat.mul_add_lt_is_or h15]
    unfold spec_raw_x
    norm_num; ring
  simp only [decode_axis, spec_flip, max_at, e, Nat.shiftLeft_zero, if_true]

theorem decode_axis_one (b : Build) (ts : synaptics_ts_data) (buf : List Nat) (base : Nat) :
    decode_axis b ts buf base 1 =
      spec_flip ts.flags ((b.SYNAPTICS_FLIP_X <<< 1) % 4294967296) ts.max.2
        (spec_raw_y buf base) := by
  have hlt : rd buf (base + 2) >>> 4 < 2 ^ 4 := by
    have := rd_lt buf (base + 2)
    rw [Nat.shiftRight_eq_div_pow]; norm_num; omega
  have e : (((rd buf (base + 2) &&& (0x0f <<< (4 * 1)) % 256) >>> (1 * 4)) |||
      (rd buf (base + 1) <<< 4)) = spec_raw_y buf base := by
    show (((rd buf (base + 2) &&& 240) >>> 4) ||| (rd buf (base + 1) <<< 4)) = _
    rw [hi_nibble _ (rd_lt _ _), Nat.or_comm, Nat.shiftLeft_eq, Nat.mul_comm,
      ← Nat.mul_add_lt_is_or hlt]
    unfold spec_raw_y
    norm_num; ring
  simp only [decode_axis, spec_flip, max_at, e, one_ne_zero, if_false]

theorem spec_raw_x_le (buf : List Nat) (base : Nat) : spec_raw_x buf base ≤ 4095 := by
  have h1 := rd_lt buf base
  have h15 : rd buf (base + 2) &&& 15 < 2 ^ 4 := Nat.and_lt_two_pow _ (by norm_num)
  unfold spec_raw_x
  norm_num at h15 ⊢
  omega

theorem spec_raw_y_le (buf : List Nat) (base : Nat) : spec_raw_y buf base ≤ 4095 := by
  have h1 := rd_lt buf (base + 1)
  have hlt : rd buf (base + 2) >>> 4 < 16 := by
    have := rd_lt buf (base + 2)
    rw [Nat.shiftRight_eq_div_pow]; norm_num; omega
  unfold spec_raw_y
  omega

theorem width_le (v : Nat) (hv : v < 256) : ((v >>> 4) &&& 0x0F) + (v &&& 0x0F) ≤ 30 ∧
    ((v >>> 4) &&& 0x0F) = v >>> 4 := by
  have h1 : (v >>> 4) &&& 15 < 2 ^ 4 := Nat.and_lt_two_pow _ (by norm_num)
  have h2 : v &&& 15 < 2 ^ 4 := Nat.and_lt_two_pow _ (by norm_num)
  have h3 : v >>> 4 < 16 := by rw [Nat.shiftRight_eq_div_pow]; norm_num; omega
  have e : (15 : Nat) = 2 ^ 4 - 1 := by norm_num
  refine ⟨by norm_num at h1 h2 ⊢; omega, ?_⟩
  show (v >>> 4) &&& 15 = _
  rw [e, Nat.and_pow_two_sub_one_eq_mod]
  norm_num; omega

theorem decoded_fingers_row (b : Build) (c : Cycle) (s : State) (i : Nat) (fd : finger_row)
    (h : (i, fd) ∈ decoded_fingers b c s) :
    fd = decode_finger b s.ts c.buf ((s.ts.finger_support + 11) / 4 + 5 * i) := by
  unfold decoded_fingers at h
  split_ifs at h with h1 h2
  · simp at h
  · simp at h
  · simp only [work_report] at h
    split_ifs at h
    all_goals first
      | (exfalso; simp at h; done)
      | (rw [List.range_eq_range'] at h
         have := slot_loop_finger_data b c _ _ _ ((s.ts.finger_support + 11) / 4) s.ts
           s.ts.finger_support 0 _ (by simp) (by simp [same_setup]) (i, fd) h
         simpa using this)

/-- C2: every slot `i` decoded in a cycle (pressed or just released) is read
from the five bytes at `b = (fingerSupport + 11) / 4 + 5 * i`: raw X is
`buf[b] * 16 + (buf[b+2] & 0x0F)` and raw Y is `buf[b+1] * 16 + (buf[b+2] >> 4)`,
both at most 4095; an axis becomes `max[axis] - value` exactly when its flip
flag (the bit `SYNAPTICS_FLIP_X` for X, the next bit for Y) is set, and the
two are then exchanged exactly when the swap flag is set; the width is
`(buf[b+3] >> 4) + (buf[b+3] & 0x0F)`, at most 30, and the pressure is
`buf[b+4]`. -/
theorem C2_finger_decode (b : Build) (c : Cycle) (s : State) (i : Nat) (fd : finger_row)
    (h : (i, fd) ∈ decoded_fingers b c s) :
    spec_raw_x c.buf ((s.ts.finger_support + 11) / 4 + 5 * i) ≤ 4095 ∧
    spec_raw_y c.buf ((s.ts.finger_support + 11) / 4 + 5 * i) ≤ 4095 ∧
    fd.x = (if s.ts.flags &&& b.SYNAPTICS_SWAP_XY ≠ 0
      then spec_flip s.ts.flags ((b.SYNAPTICS_FLIP_X <<< 1) % 4294967296) s.ts.max.2
        (spec_raw_y c.buf ((s.ts.finger_support + 11) / 4 + 5 * i))
      else spec_flip s.ts.flags (b.SYNAPTICS_FLIP_X % 4294967296) s.ts.max.1
        (spec_raw_x c.buf ((s.ts.finger_support + 11) / 4 + 5 * i))) ∧
    fd.y = (if s.ts.flags &&& b.SYNAPTICS_SWAP_XY ≠ 0
      then spec_flip s.ts.flags (b.SYNAPTICS_FLIP_X % 4294967296) s.ts.max.1
        (spec_raw_x c.buf ((s.ts.finger_support + 11) / 4 + 5 * i))
      else spec_flip s.ts.flags ((b.SYNAPTICS_FLIP_X <<< 1) % 4294967296) s.ts.max.2
        (spec_raw_y c.buf ((s.ts.finger_support + 11) / 4 + 5 * i))) ∧
    fd.w = (((rd c.buf ((s.ts.finger_support + 11) / 4 + 5 * i + 3) >>> 4) +
      (rd c.buf ((s.ts.finger_support + 11) / 4 + 5 * i + 3) &&& 0x0F) : Nat) : Int) ∧
    fd.w ≤ 30 ∧
    fd.z = ((rd c.buf ((s.ts.finger_support + 11) / 4 + 5 * i + 4) : Nat) : Int) := by
  have hrow := decoded_fingers_row b c s i fd h
  have hw := width_le _ (rd_lt c.buf ((s.ts.finger_support + 11) / 4 + 5 * i + 3))
  refine ⟨spec_raw_x_le _ _, spec_raw_y_le _ _, ?_, ?_, ?_, ?_, ?_⟩
  · rw [hrow]; simp only [decode_finger, decode_axis_zero, decode_axis_one]
    split_ifs <;> rfl
  · rw [hrow]; simp only [decode_finger, decode_axis_zero, decode_axis_one]
    split_ifs <;> rfl
  · rw [hrow]; simp only [decode_finger]
    split_ifs <;> simp only [hw.2]
  · rw [hrow]; simp only [decode_finger]
    split_ifs <;> (show ((_ : Nat) : Int) ≤ 30; exact_mod_cast hw.1)
  · rw [hrow]; simp only [decode_finger]
    split_ifs <;> rfl

/-- Witness of C2: a finger in slot 0 at `(100, 2000)` of a four-finger
panel, read at offset 3. -/
theorem C2_finger_decode_witness :
    (0, (⟨100, 2000, 2, 40⟩ : finger_row)) ∈
      decoded_fingers sample_build (cycle_of (report_one 0 100 2000) 0 0) sample_state ∧
    spec_raw_x (report_one 0 100 2000) 3 ≤ 4095 ∧
    spec_raw_y (report_one 0 100 2000) 3 ≤ 4095 ∧
    (100 : Int) = spec_flip 0 1 1000 (spec_raw_x (report_one 0 100 2000) 3) ∧
    (2000 : Int) = spec_flip 0 2 2000 (spec_raw_y (report_one 0 100 2000) 3) ∧
    (2 : Int) = ((1 + 1 : Nat) : Int) ∧ (2 : Int) ≤ 30 ∧ (40 : Int) = ((40 : Nat) : Int) :=
  ⟨by decide,
    C2_finger_decode sample_build (cycle_of (report_one 0 100 2000) 0 0) sample_state 0
      ⟨100, 2000, 2, 40⟩ (by decide)⟩


/-- C1: a report that was read (sensor far, transfer succeeded) and whose
status nibble `buf[0] & 0x0F` is nonzero makes the cycle take the reset
branch: the first effect is the status error with that nibble as code, the
panel is reinitialised, no finger event and no power-key trigger request is
among the effects, and the state is left as it was, in particular
`finger_pressed`, `pre_finger_data`, `downx`, `barrier`, `exec_count`,
`dt2w_start` and `dt2w_screen`. -/
theorem C1_device_fault (b : Build) (c : Cycle) (s : State)
    (hprox : s.g.proximity_status = true) (hret : 0 ≤ c.ret)
    (hst : rd c.buf 0 &&& 0x0F ≠ 0) :
    (synaptics_ts_work_func b c s).2.head? = some (Out.status_error (rd c.buf 0 &&& 0x0F)) ∧
    Out.init_panel ∈ (synaptics_ts_work_func b c s).2 ∧
    (∀ o ∈ (synaptics_ts_work_func b c s).2, o.isFingerEvent = false ∧ o.isTrigger = false) ∧
    (synaptics_ts_work_func b c s).1 = s ∧
    (synaptics_ts_work_func b c s).1.ts.finger_pressed = s.ts.finger_pressed ∧
    (synaptics_ts_work_func b c s).1.ts.pre_finger_data = s.ts.pre_finger_data ∧
    (synaptics_ts_work_func b c s).1.g.downx = s.g.downx ∧
    (synaptics_ts_work_func b c s).1.g.barrier = s.g.barrier ∧
    (synaptics_ts_work_func b c s).1.g.exec_count = s.g.exec_count ∧
    (synaptics_ts_work_func b c s).1.g.dt2w_start = s.g.dt2w_start ∧
    (synaptics_ts_work_func b c s).1.g.dt2w_screen = s.g.dt2w_screen := by
  have hr : ¬ c.ret < 0 := by omega
  have e : synaptics_ts_work_func b c s = (s, reset_touch_control c s.ts ++ work_exit b s.ts) := by
    unfold synaptics_ts_work_func
    rw [if_neg (by simp [hprox]), if_pos (Or.inr hst)]
  rw [e]
  refine ⟨?_, ?_, ?_, rfl, rfl, rfl, rfl, rfl, rfl, rfl, rfl⟩
  · simp [reset_touch_control, hr]
  · simp [reset_touch_control]
  · have hall : (reset_touch_control c s.ts ++ work_exit b s.ts).all
        (fun o => !o.isFingerEvent && !o.isTrigger) = true := by
      simp only [reset_touch_control, work_exit, if_neg hr]
      split_ifs <;> rfl
    intro o ho
    have := List.all_eq_true.1 hall o ho
    simpa using this

/-- Witness of C1: status nibble `0x2` gives fault code 2 and no finger event. -/
theorem C1_device_fault_witness :
    sample_state.g.proximity_status = true ∧
    (0 : Int) ≤ (cycle_of (report_one 0x42 100 2000) 0 0).ret ∧
    rd (cycle_of (report_one 0x42 100 2000) 0 0).buf 0 &&& 0x0F ≠ 0 ∧
    (synaptics_ts_work_func sample_build (cycle_of (report_one 0x42 100 2000) 0 0)
      sample_state).2.head? = some (Out.status_error 2) ∧
    (∀ o ∈ (synaptics_ts_work_func sample_build (cycle_of (report_one 0x42 100 2000) 0 0)
      sample_state).2, o.isFingerEvent = false ∧ o.isTrigger = false) :=
  ⟨rfl, by decide, by decide,
    (C1_device_fault sample_build (cycle_of (report_one 0x42 100 2000) 0 0) sample_state
      rfl (by decide) (by decide)).1,
    (C1_device_fault sample_build (cycle_of (report_one 0x42 100 2000) 0 0) sample_state
      rfl (by decide) (by decide)).2.2.1⟩

/-- C3: for every slot `i` below `finger_support`, bit `i` of the pressed
mask computed by lines 602-606 is set exactly when the slot's two-bit
presence code `(buf[1 + (finger_support + 3) / 4] >> 2 * i) & 3` is nonzero,
and the finger count is the number of slots with a nonzero code. -/
theorem C3_presence_mask (ts : synaptics_ts_data) (buf : List Nat) (i : Nat)
    (hi : i < ts.finger_support) :
    ((scan_fingers ts buf).1.testBit i = true ↔
      (rd buf (1 + (ts.finger_support + 3) / 4) >>> (2 * i)) &&& 3 ≠ 0) ∧
    (scan_fingers ts buf).2 =
      ((List.range ts.finger_support).filter (fun j =>
        decide ((rd buf (1 + (ts.finger_support + 3) / 4) >>> (2 * j)) &&& 3 ≠ 0))).length := by
  obtain ⟨_, h2, h3, _, _⟩ :=
    scan_foldl_inv (rd buf (1 + (ts.finger_support + 3) / 4)) (rd_lt _ _) ts.finger_support
  constructor
  · unfold scan_fingers
    rw [h2 i, Nat.mul_comm]
    exact ⟨fun h => h.2, fun h => ⟨hi, h⟩⟩
  · unfold scan_fingers
    rw [h3]
    congr 2
    funext j
    rw [Nat.mul_comm]

/-- Witness of C3: slots 0 and 1 pressed in a four-finger panel. -/
theorem C3_presence_mask_witness :
    1 < sample_ts.finger_support ∧
    ((scan_fingers sample_ts (report_two 100 2000 300 1000)).1.testBit 1 = true ↔
      (rd (report_two 100 2000 300 1000) (1 + (sample_ts.finger_support + 3) / 4) >>> (2 * 1))
        &&& 3 ≠ 0) ∧
    (scan_fingers sample_ts (report_two 100 2000 300 1000)).2 =
      ((List.range sample_ts.finger_support).filter (fun j =>
        decide ((rd (report_two 100 2000 300 1000) (1 + (sample_ts.finger_support + 3) / 4)
          >>> (2 * j)) &&& 3 ≠ 0))).length :=
  ⟨by decide, C3_presence_mask sample_ts (report_two 100 2000 300 1000) 1 (by decide)⟩

/-! ## Sweep recognizer (C4, C8, C9, C10) -/

theorem run_cons (b : Build) (s : State) (e : Ev) (es : List Ev) :
    run b s (e :: es) = ((run b (step b s e).1 es).1, (step b s e).2 ++ (run b (step b s e).1 es).2) :=
  rfl

theorem triggers_suspend (s : State) : triggers (synaptics_ts_suspend s).2 = [] := by
  simp only [synaptics_ts_suspend]
  split_ifs <;> rfl

theorem triggers_resume (b : Build) (j : Nat) (s : State) :
    triggers (synaptics_ts_resume b j s).2 = [] := by
  simp only [synaptics_ts_resume]
  split_ifs <;> rfl

/-- Entry points other than the work function request no trigger and leave
the stroke variables alone. -/
theorem step_other (b : Build) (s : State) (e : Ev) (h : ∀ c, e ≠ Ev.work c) :
    triggers (step b s e).2 = [] ∧ (step b s e).1.g.exec_count = s.g.exec_count ∧
    (step b s e).1.g.downx = s.g.downx ∧ (step b s e).1.g.barrier = s.g.barrier := by
  cases e with
  | work c => exact absurd rfl (h c)
  | suspend =>
    refine ⟨triggers_suspend s, ?_, ?_, ?_⟩ <;>
      (simp only [step, synaptics_ts_suspend]; split_ifs <;> rfl)
  | resume j =>
    refine ⟨triggers_resume b j s, ?_, ?_, ?_⟩ <;>
      (simp only [step, synaptics_ts_resume]; split_ifs <;> rfl)
  | proximity v => exact ⟨rfl, rfl, rfl, rfl⟩
  | sweep2wake_store v =>
    refine ⟨rfl, ?_, ?_, ?_⟩ <;> (simp only [step]; split_ifs <;> rfl)
  | s2w_allow_stroke_store v =>
    refine ⟨rfl, ?_, ?_, ?_⟩ <;> (simp only [step]; split_ifs <;> rfl)
  | s2w_register_threshold_store v => exact ⟨rfl, rfl, rfl, rfl⟩
  | s2w_min_distance_store v => exact ⟨rfl, rfl, rfl, rfl⟩
  | dt2w_switch_store v =>
    refine ⟨rfl, ?_, ?_, ?_⟩ <;> (simp only [step]; split_ifs <;> rfl)
  | dt2w_duration_store v =>
    refine ⟨rfl, ?_, ?_, ?_⟩ <;> (simp only [step]; split_ifs <;> rfl)
  | dt2w_threshold_store v =>
    refine ⟨rfl, ?_, ?_, ?_⟩ <;> (simp only [step]; split_ifs <;> rfl)

/-- An entry point that does not see a zero-finger report requests at most
one trigger, and only by clearing a set `exec_count`. -/
theorem step_fire (b : Build) (s : State) (e : Ev) (h : ¬ sees_zero_fingers s e) :
    (triggers (step b s e).2 = [] ∧ (step b s e).1.g.exec_count = s.g.exec_count) ∨
    (s.g.exec_count = true ∧ (step b s e).1.g.exec_count = false ∧
      (triggers (step b s e).2).length = 1) := by
  by_cases hw : ∃ c, e = Ev.work c
  · obtain ⟨c, rfl⟩ := hw
    show (triggers (synaptics_ts_work_func b c s).2 = [] ∧ _) ∨ _
    simp only [step]
    by_cases hok : report_ok c s
    · have hm : (scan_fingers s.ts c.buf).1 ≠ 0 := by
        intro hz
        exact h ⟨hok, (scan_zero_iff _ _).1 hz⟩
      obtain ⟨w1, w2, _⟩ := work_touch b c s hok hm
      rw [w1, w2]
      exact gest_loop_fire _ _ _
    · obtain ⟨w1, w2⟩ := work_not_ok b c s hok
      left; rw [w1, w2]; exact ⟨rfl, rfl⟩
  · have := step_other b s e (fun c hc => hw ⟨c, hc⟩)
    left; exact ⟨this.1, this.2.1⟩

/-- C4: in a sequence of entry points (work cycles at any positions and
finger counts, interleaved with suspend, resume and changes of the
tunables) in which no work cycle sees a zero-finger report, at most one
power-key trigger request is issued; all of them come from the sweep
recognizer, the double-tap test running on zero-finger reports only.  If
`exec_count` is already false, none is issued. -/
theorem C4_sweep_fires_once (b : Build) (s : State) (es : List Ev)
    (h : no_zero_report b s es) :
    (triggers (run b s es).2).length ≤ 1 ∧
    (s.g.exec_count = false → triggers (run b s es).2 = []) := by
  induction es generalizing s with
  | nil => exact ⟨by simp [run, triggers], fun _ => rfl⟩
  | cons e es ih =>
    obtain ⟨h1, h2⟩ := h
    obtain ⟨i1, i2⟩ := ih (step b s e).1 h2
    rw [run_cons]
    simp only [triggers_append, List.length_append]
    rcases step_fire b s e h1 with ⟨f1, f2⟩ | ⟨f1, f2, f3⟩
    · rw [f1]
      refine ⟨by simpa using i1, fun hx => ?_⟩
      rw [List.nil_append]
      exact i2 (f2.trans hx)
    · rw [i2 f2]
      refine ⟨by simp [f3], fun hx => ?_⟩
      rw [f1] at hx
      exact absurd hx (by simp)

/-- Witness of C4: a suspended swipe on the button panel from 100 over 700
to 900 requests exactly one trigger. -/
theorem C4_sweep_fires_once_witness :
    no_zero_report sample_build sample_suspended sample_swipe ∧
    triggers (run sample_build sample_suspended sample_swipe).2 = [true] ∧
    (triggers (run sample_build sample_suspended sample_swipe).2).length ≤ 1 :=
  ⟨by decide, by decide,
    (C4_sweep_fires_once sample_build sample_suspended sample_swipe (by decide)).1⟩

theorem same_but_screen_fields (g1 g2 : Globals) (h : same_but_screen g1 g2) :
    g1.downx = g2.downx ∧ g1.barrier = g2.barrier ∧ g1.exec_count = g2.exec_count ∧
    g1.proximity_status = g2.proximity_status ∧ g1.s2w_switch = g2.s2w_switch ∧
    g1.dt2w_switch = g2.dt2w_switch ∧ g1.scr_suspended = g2.scr_suspended ∧
    g1.mode = g2.mode := by
  unfold same_but_screen at h
  have h1 := congrArg Globals.downx h
  have h2 := congrArg Globals.barrier h
  have h3 := congrArg Globals.exec_count h
  have h4 := congrArg Globals.proximity_status h
  have h5 := congrArg Globals.s2w_switch h
  have h6 := congrArg Globals.dt2w_switch h
  have h7 := congrArg Globals.scr_suspended h
  have h8 := congrArg Globals.mode h
  exact ⟨h1, h2, h3, h4, h5, h6, h7, h8⟩

/-- C8: a report whose finger count is greater than one issues no power-key
trigger request and leaves `downx`, `barrier` and `exec_count` as they were,
in both stroke modes and whatever the suspended flag and the positions. -/
theorem C8_multi_finger_frame (b : Build) (c : Cycle) (s : State)
    (h : 1 < (scan_fingers s.ts c.buf).2) :
    triggers (synaptics_ts_work_func b c s).2 = [] ∧
    (synaptics_ts_work_func b c s).1.g.downx = s.g.downx ∧
    (synaptics_ts_work_func b c s).1.g.barrier = s.g.barrier ∧
    (synaptics_ts_work_func b c s).1.g.exec_count = s.g.exec_count := by
  by_cases hok : report_ok c s
  · have hm : (scan_fingers s.ts c.buf).1 ≠ 0 := by
      intro hz
      have := (scan_zero_iff _ _).1 hz
      omega
    obtain ⟨w1, w2, _⟩ := work_touch b c s hok hm
    obtain ⟨m1, m2⟩ := gest_loop_multi (scan_fingers s.ts c.buf).2 (by omega)
      (pressed_samples b s.ts c.buf (scan_fingers s.ts c.buf).1 ((s.ts.finger_support + 11) / 4)
        (List.range s.ts.finger_support)) s.g
    obtain ⟨f1, f2, f3, _⟩ := same_but_screen_fields _ _ m1
    rw [w1, w2, m2]
    exact ⟨rfl, f1, f2, f3⟩
  · obtain ⟨w1, w2⟩ := work_not_ok b c s hok
    rw [w1, w2]
    exact ⟨rfl, rfl, rfl, rfl⟩

/-- Witness of C8: two fingers on the button panel, 600 apart from the
tracked start, while a stroke is being tracked. -/
theorem C8_multi_finger_frame_witness :
    1 < (scan_fingers sample_tracking.ts (report_two 700 2000 300 2000)).2 ∧
    sample_tracking.g.downx = 100 ∧
    triggers (synaptics_ts_work_func sample_build (cycle_of (report_two 700 2000 300 2000) 0 0)
      sample_tracking).2 = [] ∧
    (synaptics_ts_work_func sample_build (cycle_of (report_two 700 2000 300 2000) 0 0)
      sample_tracking).1.g.downx = 100 :=
  ⟨by decide, by decide,
    (C8_multi_finger_frame sample_build (cycle_of (report_two 700 2000 300 2000) 0 0)
      sample_tracking (by decide)).1,
    (C8_multi_finger_frame sample_build (cycle_of (report_two 700 2000 300 2000) 0 0)
      sample_tracking (by decide)).2.1⟩

/-- Lines 623-628 reset the stroke exactly when `s2w_switch` is set. -/
theorem release_all_sweep (c : Cycle) (g : Globals) :
    (g.s2w_switch = true →
      (release_all c 0 g).1.downx = -1 ∧ (release_all c 0 g).1.exec_count = true ∧
      (release_all c 0 g).1.barrier = false) ∧
    (g.s2w_switch = false →
      (release_all c 0 g).1.downx = g.downx ∧ (release_all c 0 g).1.exec_count = g.exec_count ∧
      (release_all c 0 g).1.barrier = g.barrier) := by
  constructor
  · intro h
    simp only [release_all, s2w_active, h, Bool.true_or, and_self, if_true]
    split_ifs <;> exact ⟨rfl, rfl, rfl⟩
  · intro h
    simp only [release_all, s2w_active, h, Bool.false_or, Bool.false_eq_true, if_false]
    split_ifs <;> exact ⟨rfl, rfl, rfl⟩

/-- Counterexample to C10: a stroke is started with sweep enabled, sweep is
switched off through sysfs, and the finger is lifted: the zero-finger report leaves `downx` at
the start position 100 instead of resetting it to -1. -/
theorem C10_counterexample :
    (scan_fingers sample_ts (report_one 0 100 2000)).2 = 1 ∧
    sees_zero_fingers (run sample_build sample_state
      [Ev.work (cycle_of (report_one 0 100 2000) 0 0), Ev.sweep2wake_store 0]).1
      (Ev.work (cycle_of report_none 0 0)) ∧
    (run sample_build sample_state
      [Ev.work (cycle_of (report_one 0 100 2000) 0 0), Ev.sweep2wake_store 0,
       Ev.work (cycle_of report_none 0 0)]).1.g.downx = 100 ∧
    (run sample_build sample_state
      [Ev.work (cycle_of (report_one 0 100 2000) 0 0), Ev.sweep2wake_store 0,
       Ev.work (cycle_of report_none 0 0)]).1.g.downx ≠ -1 := by
  decide

/-- C10 (amended): a decoded zero-finger report resets `downx` to -1
together with `exec_count = true` and `barrier = false` when sweep is
enabled (`s2w_switch`), whatever the double-tap flag; with sweep disabled
the three are left as they were. -/
theorem C10_release_resets (b : Build) (c : Cycle) (s : State) (hok : report_ok c s)
    (hz : (scan_fingers s.ts c.buf).2 = 0) :
    (s.g.s2w_switch = true →
      (synaptics_ts_work_func b c s).1.g.downx = -1 ∧
      (synaptics_ts_work_func b c s).1.g.exec_count = true ∧
      (synaptics_ts_work_func b c s).1.g.barrier = false) ∧
    (s.g.s2w_switch = false →
      (synaptics_ts_work_func b c s).1.g.downx = s.g.downx ∧
      (synaptics_ts_work_func b c s).1.g.exec_count = s.g.exec_count ∧
      (synaptics_ts_work_func b c s).1.g.barrier = s.g.barrier) := by
  obtain ⟨w1, _, _⟩ := work_zero b c s hok ((scan_zero_iff _ _).2 hz)
  rw [w1, hz]
  exact release_all_sweep c s.g

/-- Witness of C10 (amended): lifting the finger with sweep enabled. -/
theorem C10_release_resets_witness :
    report_ok (cycle_of report_none 0 0) sample_tracking ∧
    sample_tracking.g.downx = 100 ∧
    (synaptics_ts_work_func sample_build (cycle_of report_none 0 0) sample_tracking).1.g.downx = -1 :=
  ⟨by decide, by decide,
    ((C10_release_resets sample_build (cycle_of report_none 0 0) sample_tracking (by decide) (by decide)).1
        (by decide)).1⟩

theorem same_setup_symm {a b : synaptics_ts_data} (h : same_setup a b) : same_setup b a := by
  simp only [same_setup] at *
  obtain ⟨a1, a2, a3, a4, a5, a6, a7, a8⟩ := h
  exact ⟨a1.symm, a2.symm, a3.symm, a4.symm, a5.symm, a6.symm, a7.symm, a8.symm⟩

theorem same_but_screen_refl (g : Globals) : same_but_screen g g := rfl

theorem same_but_screen_symm {g1 g2 : Globals} (h : same_but_screen g1 g2) :
    same_but_screen g2 g1 := Eq.symm h

theorem same_but_screen_trans {g1 g2 g3 : Globals} (h1 : same_but_screen g1 g2)
    (h2 : same_but_screen g2 g3) : same_but_screen g1 g3 := Eq.trans h1 h2

theorem scan_fingers_congr (t1 t2 : synaptics_ts_data) (h : same_setup t1 t2) (buf : List Nat) :
    scan_fingers t1 buf = scan_fingers t2 buf := by
  obtain ⟨_, _, _, h4, _⟩ := h
  simp only [scan_fingers, h4]

theorem report_ok_congr (c : Cycle) (s1 s2 : State)
    (h : s1.g.proximity_status = s2.g.proximity_status) : report_ok c s1 ↔ report_ok c s2 := by
  simp only [report_ok, h]

theorem sees_zero_congr (s1 s2 : State) (h : related s1 s2) (e : Ev) :
    sees_zero_fingers s1 e ↔ sees_zero_fingers s2 e := by
  cases e with
  | work c =>
    simp only [sees_zero_fingers]
    rw [report_ok_congr c s1 s2 (same_but_screen_fields _ _ h.1).2.2.2.1,
      scan_fingers_congr _ _ h.2]
  | _ => exact Iff.rfl

theorem related_refl (s : State) : related s s :=
  ⟨same_but_screen_refl _, same_setup_refl _⟩

theorem s2w_active_congr (g1 g2 : Globals) (h : same_but_screen g1 g2) :
    s2w_active g1 = s2w_active g2 := by
  obtain ⟨_, _, _, _, h5, h6, _⟩ := same_but_screen_fields _ _ h
  simp only [s2w_active, h5, h6]

theorem same_but_screen_with (g1 g2 : Globals) (h : same_but_screen g1 g2)
    (f : Globals → Globals)
    (hf : ∀ g, { f g with dt2w_screen := false } = f { g with dt2w_screen := false }) :
    same_but_screen (f g1) (f g2) := by
  unfold same_but_screen at *
  rw [hf g1, hf g2, h]

/-- Entry points other than the work function keep two related states
related. -/
theorem step_other_related (b : Build) (s1 s2 : State) (h : related s1 s2) (e : Ev)
    (he : ∀ c, e ≠ Ev.work c) : related (step b s1 e).1 (step b s2 e).1 := by
  obtain ⟨hg, ht⟩ := h
  have hact := s2w_active_congr _ _ hg
  have ht' := ht
  obtain ⟨a1, a2, a3, a4, a5, a6, a7, a8⟩ := ht'
  cases e with
  | work c => exact absurd rfl (he c)
  | suspend =>
    refine ⟨?_, by simp [step, synaptics_ts_suspend, same_setup, set_pfd, *]⟩
    simp only [step, synaptics_ts_suspend, hact]
    split_ifs
    · exact same_but_screen_with _ _ hg (fun g => { g with scr_suspended := true, mode := false })
        (fun _ => rfl)
    · exact hg
  | resume j =>
    refine ⟨?_, by simp [step, synaptics_ts_resume, same_setup, *]⟩
    simp only [step, synaptics_ts_resume, hact]
    split_ifs
    · exact same_but_screen_with _ _ hg (fun g => { g with scr_suspended := false, mode := true })
        (fun _ => rfl)
    · exact hg
  | proximity v =>
    exact ⟨same_but_screen_with _ _ hg (fun g => { g with proximity_status := v }) (fun _ => rfl), ht⟩
  | sweep2wake_store v =>
    simp only [step]
    split_ifs
    · exact ⟨same_but_screen_with _ _ hg (fun g => { g with s2w_switch := decide (v ≠ 0) })
        (fun _ => rfl), ht⟩
    · exact ⟨hg, ht⟩
  | s2w_allow_stroke_store v =>
    simp only [step]
    split_ifs
    · exact ⟨same_but_screen_with _ _ hg (fun g => { g with s2w_allow_stroke := decide (v ≠ 0) })
        (fun _ => rfl), ht⟩
    · exact ⟨hg, ht⟩
  | s2w_register_threshold_store v =>
    exact ⟨same_but_screen_with _ _ hg (fun g => { g with s2w_register_threshold := to_int v })
      (fun _ => rfl), ht⟩
  | s2w_min_distance_store v =>
    exact ⟨same_but_screen_with _ _ hg (fun g => { g with s2w_min_distance := to_int v })
      (fun _ => rfl), ht⟩
  | dt2w_switch_store v =>
    simp only [step]
    split_ifs
    · exact ⟨same_but_screen_with _ _ hg (fun g => { g with dt2w_switch := decide (v ≠ 0) })
        (fun _ => rfl), ht⟩
    · exact ⟨hg, ht⟩
  | dt2w_duration_store v =>
    simp only [step]
    split_ifs
    · exact ⟨same_but_screen_with _ _ hg (fun g => { g with dt2w_duration := v % 4294967296 })
        (fun _ => rfl), ht⟩
    · exact ⟨hg, ht⟩
  | dt2w_threshold_store v =>
    simp only [step]
    split_ifs
    · exact ⟨same_but_screen_with _ _ hg (fun g => { g with dt2w_threshold := v % 4294967296 })
        (fun _ => rfl), ht⟩
    · exact ⟨hg, ht⟩

/-- Related states react alike to an entry point that does not see a
zero-finger report. -/
theorem step_sim (b : Build) (s1 s2 : State) (h : related s1 s2) (e : Ev)
    (hz : ¬ sees_zero_fingers s2 e) :
    related (step b s1 e).1 (step b s2 e).1 ∧
    triggers (step b s1 e).2 = triggers (step b s2 e).2 := by
  by_cases hw : ∃ c, e = Ev.work c
  · obtain ⟨c, rfl⟩ := hw
    obtain ⟨hg, ht⟩ := h
    simp only [step]
    have hprox := (same_but_screen_fields _ _ hg).2.2.2.1
    have hscan := scan_fingers_congr _ _ ht c.buf
    by_cases hok : report_ok c s2
    · have hok1 : report_ok c s1 := (report_ok_congr c s1 s2 hprox).2 hok
      have hm2 : (scan_fingers s2.ts c.buf).1 ≠ 0 := by
        intro h0
        exact hz ⟨hok, (scan_zero_iff _ _).1 h0⟩
      have hm1 : (scan_fingers s1.ts c.buf).1 ≠ 0 := by rw [hscan]; exact hm2
      obtain ⟨u1, u2, u3⟩ := work_touch b c s1 hok1 hm1
      obtain ⟨v1, v2, v3⟩ := work_touch b c s2 hok hm2
      have hps : pressed_samples b s1.ts c.buf (scan_fingers s1.ts c.buf).1
          ((s1.ts.finger_support + 11) / 4) (List.range s1.ts.finger_support) =
          pressed_samples b s2.ts c.buf (scan_fingers s2.ts c.buf).1
          ((s2.ts.finger_support + 11) / 4) (List.range s2.ts.finger_support) := by
        rw [hscan, ht.2.2.2.1]
        exact pressed_samples_congr _ _ _ _ _ _ _ _ ht (fun _ _ => rfl)
      obtain ⟨g1, g2⟩ := gest_loop_sim (scan_fingers s2.ts c.buf).2
        (pressed_samples b s2.ts c.buf (scan_fingers s2.ts c.buf).1
          ((s2.ts.finger_support + 11) / 4) (List.range s2.ts.finger_support)) s1.g s2.g hg
      rw [hps, hscan] at u1 u2
      refine ⟨⟨?_, same_setup_trans u3 (same_setup_trans ht (same_setup_symm v3))⟩, ?_⟩
      · rw [u1, v1]; exact g1
      · rw [u2, v2, g2]
    · have hok1 : ¬ report_ok c s1 := fun h1 => hok ((report_ok_congr c s1 s2 hprox).1 h1)
      obtain ⟨u1, u2⟩ := work_not_ok b c s1 hok1
      obtain ⟨v1, v2⟩ := work_not_ok b c s2 hok
      rw [u1, u2, v1, v2]
      exact ⟨⟨hg, ht⟩, rfl⟩
  · have hne : ∀ c, e ≠ Ev.work c := fun c hc => hw ⟨c, hc⟩
    exact ⟨step_other_related b s1 s2 h e hne,
      by rw [(step_other b s1 e hne).1, (step_other b s2 e hne).1]⟩

/-- Related states issue the same trigger requests along a sequence without
zero-finger report. -/
theorem run_sim (b : Build) (es : List Ev) : ∀ (s1 s2 : State), related s1 s2 →
    no_zero_report b s2 es → triggers (run b s1 es).2 = triggers (run b s2 es).2 := by
  induction es with
  | nil => intro _ _ _ _; rfl
  | cons e es ih =>
    intro s1 s2 h hz
    obtain ⟨z1, z2⟩ := hz
    obtain ⟨r1, r2⟩ := step_sim b s1 s2 h e z1
    rw [run_cons, run_cons]
    simp only [triggers_append]
    rw [r2, ih _ _ r1 z2]

/-- A report with more than one finger leaves a related state behind and
requests no trigger. -/
theorem work_multi_related (b : Build) (c : Cycle) (s : State)
    (h : 1 < (scan_fingers s.ts c.buf).2) :
    related (synaptics_ts_work_func b c s).1 s ∧ triggers (synaptics_ts_work_func b c s).2 = [] := by
  by_cases hok : report_ok c s
  · have hm : (scan_fingers s.ts c.buf).1 ≠ 0 := by
      intro hz
      have := (scan_zero_iff _ _).1 hz
      omega
    obtain ⟨w1, w2, w3⟩ := work_touch b c s hok hm
    obtain ⟨m1, m2⟩ := gest_loop_multi (scan_fingers s.ts c.buf).2 (by omega)
      (pressed_samples b s.ts c.buf (scan_fingers s.ts c.buf).1 ((s.ts.finger_support + 11) / 4)
        (List.range s.ts.finger_support)) s.g
    refine ⟨⟨?_, w3⟩, ?_⟩
    · rw [w1]; exact m1
    · rw [w2, m2]; rfl
  · obtain ⟨w1, w2⟩ := work_not_ok b c s hok
    rw [w1, w2]
    exact ⟨related_refl s, rfl⟩

/-- Counterexample to C9: a stroke is tracked from `x = 100` on the button
panel, a second finger comes down for one report, and the remaining single finger then reaches
`x = 700`: the last report issues a trigger request although a report with
two fingers preceded it in the same touch sequence. -/
theorem C9_counterexample :
    (scan_fingers sample_ts (report_two 400 2000 300 2000)).2 = 2 ∧
    no_zero_report sample_build sample_state
      [Ev.work (cycle_of (report_one 0 100 2000) 0 0),
       Ev.work (cycle_of (report_two 400 2000 300 2000) 0 0),
       Ev.work (cycle_of (report_one 0 700 2000) 0 0)] ∧
    triggers (run sample_build sample_state
      [Ev.work (cycle_of (report_one 0 100 2000) 0 0),
       Ev.work (cycle_of (report_two 400 2000 300 2000) 0 0)]).2 = [] ∧
    triggers (run sample_build sample_state
      [Ev.work (cycle_of (report_one 0 100 2000) 0 0),
       Ev.work (cycle_of (report_two 400 2000 300 2000) 0 0),
       Ev.work (cycle_of (report_one 0 700 2000) 0 0)]).2 = [false] := by
  decide

/-- C9 (amended): a report with more than one finger down does not
disqualify the stroke.  It issues no trigger request itself, and the
entry points that follow it, up to the next zero-finger report, issue
exactly the trigger requests they issue when the multi-finger report is
left out. -/
theorem C9_multi_finger_transparent (b : Build) (c : Cycle) (s : State) (es : List Ev)
    (h : 1 < (scan_fingers s.ts c.buf).2) (hes : no_zero_report b s es) :
    triggers (synaptics_ts_work_func b c s).2 = [] ∧
    triggers (run b s (Ev.work c :: es)).2 = triggers (run b s es).2 := by
  obtain ⟨m1, m2⟩ := work_multi_related b c s h
  refine ⟨m2, ?_⟩
  rw [run_cons]
  simp only [triggers_append, step, m2, List.nil_append]
  exact run_sim b es _ _ m1 hes

/-- Witness of C9 (amended): the two-finger report between touch-down and
the sample at `x = 700` changes nothing: the trigger is issued either way. -/
theorem C9_multi_finger_transparent_witness :
    1 < (scan_fingers sample_tracking.ts (cycle_of (report_two 400 2000 300 2000) 0 0).buf).2 ∧
    no_zero_report sample_build sample_tracking
      [Ev.work (cycle_of (report_one 0 700 2000) 0 0)] ∧
    triggers (run sample_build sample_tracking
      [Ev.work (cycle_of (report_one 0 700 2000) 0 0)]).2 = [false] ∧
    triggers (run sample_build sample_tracking
      (Ev.work (cycle_of (report_two 400 2000 300 2000) 0 0) ::
        [Ev.work (cycle_of (report_one 0 700 2000) 0 0)])).2 =
      triggers (run sample_build sample_tracking
        [Ev.work (cycle_of (report_one 0 700 2000) 0 0)]).2 :=
  ⟨by decide, by decide, by decide,
    (C9_multi_finger_transparent sample_build (cycle_of (report_two 400 2000 300 2000) 0 0)
      sample_tracking [Ev.work (cycle_of (report_one 0 700 2000) 0 0)]
      (by decide) (by decide)).2⟩

/-! ## Single-finger strokes (C6, C7) -/

theorem run_append (b : Build) (es1 es2 : List Ev) : ∀ s : State,
    run b s (es1 ++ es2) =
      ((run b (run b s es1).1 es2).1, (run b s es1).2 ++ (run b (run b s es1).1 es2).2) := by
  induction es1 with
  | nil => intro s; simp [run]
  | cons e es ih =>
    intro s
    rw [List.cons_append, run_cons, run_cons, ih]
    simp [List.append_assoc]

/-- The gesture handling leaves the tunables, the suspended flag and the
double-tap time stamp alone. -/
theorem s2w_sample_config (g : Globals) (fc : Nat) (x y : Int) :
    (s2w_sample g fc x y).1.s2w_allow_stroke = g.s2w_allow_stroke ∧
    (s2w_sample g fc x y).1.s2w_switch = g.s2w_switch ∧
    (s2w_sample g fc x y).1.s2w_register_threshold = g.s2w_register_threshold ∧
    (s2w_sample g fc x y).1.s2w_min_distance = g.s2w_min_distance ∧
    (s2w_sample g fc x y).1.scr_suspended = g.scr_suspended ∧
    (s2w_sample g fc x y).1.proximity_status = g.proximity_status := by
  generalize hr : s2w_sample g fc x y = r
  simp only [s2w_sample, note_zone_s2w_allow_stroke, note_zone_s2w_switch, note_zone_downx,
    note_zone_s2w_register_threshold, note_zone_s2w_min_distance, note_zone_exec_count,
    note_zone_scr_suspended, lock_panel_downx, lock_panel_exec_count,
    lock_panel_s2w_min_distance, lock_panel_scr_suspended] at hr
  split_ifs at hr
  all_goals subst hr
  all_goals first
    | exact ⟨rfl, rfl, rfl, rfl, rfl, rfl⟩
    | exact ⟨lock_panel_s2w_allow_stroke _ _, lock_panel_s2w_switch _ _,
        lock_panel_s2w_register_threshold _ _, lock_panel_s2w_min_distance _ _,
        lock_panel_scr_suspended _ _, lock_panel_proximity_status _ _⟩

/-- Bidirectional mode, touch-down on the button panel: the start is
recorded. -/
theorem s2w_sample_touch_down (g : Globals) (x y : Int) (hs : g.s2w_allow_stroke = true)
    (hsw : g.s2w_switch = true) (hd : g.downx = -1) (hy : 1900 < y) :
    s2w_sample g 1 x y = touch_down (note_zone g y) x := by
  simp [s2w_sample, hs, hsw, hd, hy]

/-- Bidirectional mode, a tracked stroke on the button panel: the start is
kept, and a trigger request is issued exactly when the finger is farther
from the start than both thresholds and `exec_count` is set. -/
theorem s2w_sample_tracked (g : Globals) (x y : Int) (hs : g.s2w_allow_stroke = true)
    (hsw : g.s2w_switch = true) (h1 : g.downx ≠ -1) (h2 : g.downx ≠ -2) (hy : 1900 < y) :
    (s2w_sample g 1 x y).1.downx = g.downx ∧
    ((g.s2w_register_threshold < ((g.downx - x).natAbs : Int) ∧
        g.s2w_min_distance < ((g.downx - x).natAbs : Int) ∧ g.exec_count = true) →
      (s2w_sample g 1 x y).2.1 = [Out.pwrtrigger g.scr_suspended] ∧
      (s2w_sample g 1 x y).1.exec_count = false) ∧
    (¬ (g.s2w_register_threshold < ((g.downx - x).natAbs : Int) ∧
        g.s2w_min_distance < ((g.downx - x).natAbs : Int) ∧ g.exec_count = true) →
      (s2w_sample g 1 x y).2.1 = [] ∧
      (s2w_sample g 1 x y).1.exec_count = g.exec_count) := by
  generalize hr : s2w_sample g 1 x y = r
  simp only [s2w_sample, note_zone_s2w_allow_stroke, note_zone_s2w_switch, note_zone_downx,
    note_zone_s2w_register_threshold, note_zone_s2w_min_distance, note_zone_exec_count,
    note_zone_scr_suspended, lock_panel_downx, lock_panel_exec_count,
    lock_panel_s2w_min_distance, lock_panel_scr_suspended, hs, hsw, if_true, true_and,
    ne_eq, h2, not_false_eq_true, hy, gt_iff_lt, h1, false_or, if_false] at hr
  split_ifs at hr with c1 c2 c3 c4
  all_goals subst hr
  · refine ⟨lock_panel_downx _ _, fun _ => ⟨by rw [c4]; rfl, rfl⟩, fun hn => absurd ⟨c1, c2, c3⟩ hn⟩
  · have c5 : g.scr_suspended = false := by simpa using c4
    refine ⟨lock_panel_downx _ _, fun _ => ⟨by rw [c5]; rfl, rfl⟩, fun hn => absurd ⟨c1, c2, c3⟩ hn⟩
  · exact ⟨lock_panel_downx _ _, fun h => absurd h.2.2 c3, fun _ => ⟨rfl, lock_panel_exec_count _ _⟩⟩
  · exact ⟨lock_panel_downx _ _, fun h => absurd h.2.1 c2, fun _ => ⟨rfl, lock_panel_exec_count _ _⟩⟩
  · exact ⟨rfl, fun h => absurd h.1 c1, fun _ => ⟨rfl, rfl⟩⟩

/-- A tracked stroke in bidirectional mode, all samples on the button
panel: without `exec_count` nothing is requested; with it, one trigger
request is issued as soon as some sample is farther from the start than both
thresholds. -/
theorem sweep_run_tracked (d reg dist : Int) (sus : Bool) (h1 : d ≠ -1) (h2 : d ≠ -2) :
    ∀ (ps : List (Int × Int)) (g : Globals), g.s2w_allow_stroke = true → g.s2w_switch = true →
      g.downx = d → g.s2w_register_threshold = reg → g.s2w_min_distance = dist →
      g.scr_suspended = sus → (∀ p ∈ ps, 1900 < p.2) →
      (g.exec_count = false →
        triggers (sweep_run g ps).2 = [] ∧ (sweep_run g ps).1.exec_count = false) ∧
      (g.exec_count = true →
        (∃ p ∈ ps, reg < ((d - p.1).natAbs : Int) ∧ dist < ((d - p.1).natAbs : Int)) →
        triggers (sweep_run g ps).2 = [sus] ∧ (sweep_run g ps).1.exec_count = false) := by
  intro ps
  induction ps with
  | nil =>
    intro g _ _ _ _ _ _ _
    exact ⟨fun h => ⟨rfl, h⟩, fun _ ⟨p, hp, _⟩ => absurd hp (List.not_mem_nil p)⟩
  | cons p ps ih =>
    intro g hs hsw hd hreg hdist hsus hy
    have hyp : 1900 < p.2 := hy p (List.mem_cons_self _ _)
    have hys : ∀ q ∈ ps, 1900 < q.2 := fun q hq => hy q (List.mem_cons_of_mem _ hq)
    obtain ⟨t1, t2, t3⟩ := s2w_sample_tracked g p.1 p.2 hs hsw (hd ▸ h1) (hd ▸ h2) hyp
    obtain ⟨c1, c2, c3, c4, c5, _⟩ := s2w_sample_config g 1 p.1 p.2
    have ih' := ih (s2w_sample g 1 p.1 p.2).1 (c1.trans hs) (c2.trans hsw) (t1.trans hd)
      (c3.trans hreg) (c4.trans hdist) (c5.trans hsus) hys
    simp only [sweep_run, triggers_append]
    simp only [hd, hreg, hdist, hsus] at t2 t3
    constructor
    · intro he
      obtain ⟨o1, o2⟩ := t3 (fun h => by rw [he] at h; exact absurd h.2.2 (by simp))
      rw [o1]
      exact ih'.1 (o2.trans he)
    · intro he ⟨q, hq, hq1, hq2⟩
      by_cases hfar : reg < ((d - p.1).natAbs : Int) ∧ dist < ((d - p.1).natAbs : Int)
      · obtain ⟨o1, o2⟩ := t2 ⟨hfar.1, hfar.2, he⟩
        obtain ⟨i1, i2⟩ := ih'.1 o2
        rw [o1, i1]
        exact ⟨rfl, i2⟩
      · obtain ⟨o1, o2⟩ := t3 (fun h => hfar ⟨h.1, h.2.1⟩)
        rw [o1]
        have hq' : q ∈ ps := by
          rcases List.mem_cons.1 hq with rfl | h
          · exact absurd ⟨hq1, hq2⟩ hfar
          · exact h
        exact ih'.2 (o2.trans he) ⟨q, hq', hq1, hq2⟩

theorem gest_loop_single (g : Globals) (fc : Nat) (p : Int × Int) :
    (gest_loop g fc [p]).1 = (s2w_sample g fc p.1 p.2).1 ∧
    (gest_loop g fc [p]).2 = (s2w_sample g fc p.1 p.2).2.1 := by
  simp only [gest_loop]
  split_ifs <;> simp

theorem one_finger_at_congr (b : Build) (s1 s2 : State) (c : Cycle) (x y : Int)
    (ht : same_setup s1.ts s2.ts) (hp : s1.g.proximity_status = s2.g.proximity_status)
    (h : one_finger_at b s2 c x y) : one_finger_at b s1 c x y := by
  obtain ⟨k1, k2, k3⟩ := h
  refine ⟨(report_ok_congr c s1 s2 hp).2 k1, ?_, ?_⟩
  · rw [scan_fingers_congr _ _ ht]; exact k2
  · rw [scan_fingers_congr _ _ ht, ht.2.2.2.1, ← k3]
    exact pressed_samples_congr _ _ _ _ _ _ _ _ ht (fun _ _ => rfl)

/-- A work cycle on a single-finger report is the gesture handling of that
finger's sample. -/
theorem work_one_finger (b : Build) (c : Cycle) (s : State) (x y : Int)
    (h : one_finger_at b s c x y) :
    (synaptics_ts_work_func b c s).1.g = (s2w_sample s.g 1 x y).1 ∧
    triggers (synaptics_ts_work_func b c s).2 = triggers (s2w_sample s.g 1 x y).2.1 ∧
    same_setup (synaptics_ts_work_func b c s).1.ts s.ts := by
  obtain ⟨k1, k2, k3⟩ := h
  have hm : (scan_fingers s.ts c.buf).1 ≠ 0 := by
    intro hz
    have := (scan_zero_iff _ _).1 hz
    omega
  obtain ⟨w1, w2, w3⟩ := work_touch b c s k1 hm
  rw [k2, k3] at w1 w2
  obtain ⟨g1, g2⟩ := gest_loop_single s.g 1 (x, y)
  rw [g1] at w1
  rw [g2] at w2
  exact ⟨w1, w2, w3⟩

/-- A sequence of single-finger reports acts on the statics as the gesture
handling of the samples, one after the other. -/
theorem run_stroke (b : Build) (s0 : State) (cs : List Cycle) (ps : List (Int × Int))
    (h : List.Forall₂ (fun c p => one_finger_at b s0 c p.1 p.2) cs ps) :
    ∀ s : State, same_setup s.ts s0.ts → s.g.proximity_status = s0.g.proximity_status →
      (run b s (cs.map Ev.work)).1.g = (sweep_run s.g ps).1 ∧
      triggers (run b s (cs.map Ev.work)).2 = triggers (sweep_run s.g ps).2 := by
  induction h with
  | nil => intro s _ _; exact ⟨rfl, rfl⟩
  | cons hcp _ ih =>
    intro s ht hp
    have h1 := one_finger_at_congr b s s0 _ _ _ ht hp hcp
    obtain ⟨w1, w2, w3⟩ := work_one_finger b _ s _ _ h1
    obtain ⟨_, _, _, _, _, c6⟩ := s2w_sample_config s.g 1 _ _
    rw [List.map_cons, run_cons]
    simp only [step, triggers_append, sweep_run]
    have ih' := ih _ (same_setup_trans w3 ht) (by rw [w1, c6]; exact hp)
    rw [w1] at ih'
    rw [w2]
    exact ⟨ih'.1, by rw [ih'.2]⟩

/-- Without `exec_count` a sequence without zero-finger report requests no
trigger. -/
theorem run_quiet (b : Build) (es : List Ev) : ∀ s : State, no_zero_report b s es →
    s.g.exec_count = false → triggers (run b s es).2 = [] := by
  induction es with
  | nil => intro _ _ _; rfl
  | cons e es ih =>
    intro s h hx
    obtain ⟨h1, h2⟩ := h
    rw [run_cons, triggers_append]
    rcases step_fire b s e h1 with ⟨f1, f2⟩ | ⟨f1, _, _⟩
    · rw [f1, List.nil_append]
      exact ih _ h2 (f2.trans hx)
    · rw [hx] at f1
      exact absurd f1 (by simp)

/-- A single-finger stroke on the button panel in bidirectional mode, from
no active stroke: the first sample records the start `x0`; one trigger
request, with the mode given by the suspended flag, is issued once a later
sample is farther from `x0` than both thresholds. -/
theorem sweep_run_stroke (g : Globals) (x0 y0 : Int) (ps : List (Int × Int))
    (hs : g.s2w_allow_stroke = true) (hsw : g.s2w_switch = true) (hd : g.downx = -1)
    (hx : g.exec_count = true) (h1 : x0 ≠ -1) (h2 : x0 ≠ -2) (hy0 : 1900 < y0)
    (hy : ∀ p ∈ ps, 1900 < p.2)
    (hfar : ∃ p ∈ ps, g.s2w_register_threshold < ((x0 - p.1).natAbs : Int) ∧
      g.s2w_min_distance < ((x0 - p.1).natAbs : Int)) :
    triggers (sweep_run g ((x0, y0) :: ps)).2 = [g.scr_suspended] ∧
    (sweep_run g ((x0, y0) :: ps)).1.exec_count = false := by
  have e := s2w_sample_touch_down g x0 y0 hs hsw hd hy0
  simp only [sweep_run, e, triggers_append]
  obtain ⟨_, t2⟩ := sweep_run_tracked x0 g.s2w_register_threshold g.s2w_min_distance
    g.scr_suspended h1 h2 ps (touch_down (note_zone g y0) x0).1 hs hsw rfl rfl rfl rfl hy
  obtain ⟨r1, r2⟩ := t2 hx hfar
  rw [r1]
  exact ⟨rfl, r2⟩

/-- Counterexample to C6, the claimed swipe on the display area: starting idle and suspended, with
the default thresholds 9 and 500 in bidirectional mode, a finger at
`(100, 1000)` followed by the same finger at `(700, 1000)` requests no
trigger at all. -/
theorem C6_counterexample :
    sample_suspended.g.scr_suspended = true ∧ sample_suspended.g.s2w_switch = true ∧
    sample_suspended.g.s2w_allow_stroke = true ∧
    sample_suspended.g.s2w_register_threshold = 9 ∧ sample_suspended.g.s2w_min_distance = 500 ∧
    one_finger_at sample_build sample_suspended (cycle_of (report_one 0 100 1000) 0 0) 100 1000 ∧
    one_finger_at sample_build sample_suspended (cycle_of (report_one 0 700 1000) 0 0) 700 1000 ∧
    triggers (run sample_build sample_suspended
      [Ev.work (cycle_of (report_one 0 100 1000) 0 0),
       Ev.work (cycle_of (report_one 0 700 1000) 0 0)]).2 = [] := by
  decide

/-- C6 (amended): starting from the idle gesture state with the screen
suspended, sweep enabled, bidirectional stroke mode, `registerThreshold = 9`
and `minDistance = 500`, a decoded report with one finger at `x = 100` on the
button panel (`y > 1900`) followed by a report with that finger at `x = 700`
on the button panel yields exactly one trigger request, and its mode is
wake-on. -/
theorem C6_button_panel_swipe (b : Build) (s : State) (c1 c2 : Cycle) (y1 y2 : Int)
    (hd : s.g.downx = -1) (hx : s.g.exec_count = true) (hsus : s.g.scr_suspended = true)
    (hsw : s.g.s2w_switch = true) (hs : s.g.s2w_allow_stroke = true)
    (hreg : s.g.s2w_register_threshold = 9) (hmin : s.g.s2w_min_distance = 500)
    (h1 : one_finger_at b s c1 100 y1) (hy1 : 1900 < y1)
    (h2 : one_finger_at b s c2 700 y2) (hy2 : 1900 < y2) :
    triggers (run b s [Ev.work c1, Ev.work c2]).2 = [true] := by
  have hf : List.Forall₂ (fun c p => one_finger_at b s c p.1 p.2) [c1, c2]
      [(100, y1), (700, y2)] :=
    List.Forall₂.cons h1 (List.Forall₂.cons h2 List.Forall₂.nil)
  obtain ⟨_, r2⟩ := run_stroke b s [c1, c2] _ hf s (same_setup_refl _) rfl
  have hrun : run b s [Ev.work c1, Ev.work c2] = run b s ([c1, c2].map Ev.work) := rfl
  rw [hrun, r2]
  obtain ⟨k1, _⟩ := sweep_run_stroke s.g 100 y1 [(700, y2)] hs hsw hd hx (by decide) (by decide)
    hy1 (fun p hp => by rw [List.mem_singleton.1 hp]; exact hy2)
    ⟨(700, y2), List.mem_singleton.2 rfl, by rw [hreg]; norm_num, by rw [hmin]; norm_num⟩
  rw [k1, hsus]

/-- Witness of C6 (amended): the swipe from 100 to 700 at `y = 2000`. -/
theorem C6_button_panel_swipe_witness :
    one_finger_at sample_build sample_suspended (cycle_of (report_one 0 100 2000) 0 0) 100 2000 ∧
    one_finger_at sample_build sample_suspended (cycle_of (report_one 0 700 2000) 0 0) 700 2000 ∧
    triggers (run sample_build sample_suspended
      [Ev.work (cycle_of (report_one 0 100 2000) 0 0),
       Ev.work (cycle_of (report_one 0 700 2000) 0 0)]).2 = [true] :=
  ⟨by decide, by decide,
    C6_button_panel_swipe sample_build sample_suspended (cycle_of (report_one 0 100 2000) 0 0)
      (cycle_of (report_one 0 700 2000) 0 0) 2000 2000 rfl rfl rfl rfl rfl rfl rfl
      (by decide) (by decide) (by decide) (by decide)⟩

/-- Counterexample to C7: with `minDistance = 5` and the default
`registerThreshold = 9`, a single-finger stroke on the button panel whose X samples go 0, 3, 6 (that
is, up to `minDistance + 1`) requests no trigger. -/
theorem C7_counterexample :
    (0 : Int) ≤ 5 ∧ sample_state.g.s2w_register_threshold = 9 ∧
    one_finger_at sample_build sample_state (cycle_of (report_one 0 0 2000) 0 0) 0 2000 ∧
    one_finger_at sample_build sample_state (cycle_of (report_one 0 3 2000) 0 0) 3 2000 ∧
    one_finger_at sample_build sample_state (cycle_of (report_one 0 6 2000) 0 0) 6 2000 ∧
    triggers (run sample_build sample_state
      [Ev.s2w_min_distance_store 5,
       Ev.work (cycle_of (report_one 0 0 2000) 0 0),
       Ev.work (cycle_of (report_one 0 3 2000) 0 0),
       Ev.work (cycle_of (report_one 0 6 2000) 0 0)]).2 = [] := by
  decide

/-- C7 (amended): for every `minDistance >= 0` and every `registerThreshold`
with `0 <= registerThreshold <= minDistance`, with sweep enabled in
bidirectional stroke mode and no active stroke, a single-finger stroke on the
button panel (`y > 1900` in every sample) whose X samples increase
monotonically from 0 to `minDistance + 1` yields exactly one trigger request
(wake-on when suspended, wake-off otherwise), and whatever follows up to the
next zero-finger report yields none. -/
theorem C7_monotonic_stroke (b : Build) (s : State) (cs : List Cycle) (ps : List (Int × Int))
    (more : List Ev)
    (hsw : s.g.s2w_switch = true) (hs : s.g.s2w_allow_stroke = true)
    (hd : s.g.downx = -1) (hx : s.g.exec_count = true)
    (hmin : 0 ≤ s.g.s2w_min_distance) (_hreg : 0 ≤ s.g.s2w_register_threshold)
    (hle : s.g.s2w_register_threshold ≤ s.g.s2w_min_distance)
    (hcs : List.Forall₂ (fun c p => one_finger_at b s c p.1 p.2) cs ps)
    (hzone : ∀ p ∈ ps, 1900 < p.2)
    (hfirst : (ps.map Prod.fst).head? = some 0)
    (hlast : (ps.map Prod.fst).getLast? = some (s.g.s2w_min_distance + 1))
    (_hmono : List.Chain' (fun x1 x2 => x1 ≤ x2) (ps.map Prod.fst))
    (hmore : no_zero_report b (run b s (cs.map Ev.work)).1 more) :
    triggers (run b s (cs.map Ev.work)).2 = [s.g.scr_suspended] ∧
    triggers (run b (run b s (cs.map Ev.work)).1 more).2 = [] ∧
    (triggers (run b s (cs.map Ev.work ++ more)).2).length = 1 := by
  obtain ⟨r1, r2⟩ := run_stroke b s cs ps hcs s (same_setup_refl _) rfl
  cases ps with
  | nil => simp at hfirst
  | cons p0 rest =>
    obtain ⟨x0, y0⟩ := p0
    have hx0 : x0 = 0 := by simpa using hfirst
    subst hx0
    have hfar : ∃ p ∈ rest, s.g.s2w_register_threshold < (((0 : Int) - p.1).natAbs : Int) ∧
        s.g.s2w_min_distance < (((0 : Int) - p.1).natAbs : Int) := by
      cases rest with
      | nil =>
        simp at hlast
        omega
      | cons p1 rest' =>
        rw [List.map_cons, List.map_cons, List.getLast?_cons_cons, ← List.map_cons] at hlast
        obtain ⟨p, hp, hpx⟩ := List.mem_map.1 (List.mem_of_getLast?_eq_some hlast)
        refine ⟨p, hp, ?_, ?_⟩ <;> (rw [hpx]; omega)
    obtain ⟨k1, k2⟩ := sweep_run_stroke s.g 0 y0 rest hs hsw hd hx (by decide) (by decide)
      (hzone _ (List.mem_cons_self _ _)) (fun p hp => hzone p (List.mem_cons_of_mem _ hp)) hfar
    have hq := run_quiet b more _ hmore (by rw [r1]; exact k2)
    refine ⟨by rw [r2, k1], hq, ?_⟩
    rw [run_append, triggers_append, hq, r2, k1]
    rfl

/-- Witness of C7 (amended): thresholds 9 and 500, samples 0, 300, 501 on the
button panel, then a further sample at 900. -/
theorem C7_monotonic_stroke_witness :
    List.Forall₂ (fun c p => one_finger_at sample_build sample_state c p.1 p.2)
      [cycle_of (report_one 0 0 2000) 0 0, cycle_of (report_one 0 300 2000) 0 0,
       cycle_of (report_one 0 501 2000) 0 0]
      [(0, 2000), (300, 2000), (501, 2000)] ∧
    triggers (run sample_build sample_state
      ([cycle_of (report_one 0 0 2000) 0 0, cycle_of (report_one 0 300 2000) 0 0,
        cycle_of (report_one 0 501 2000) 0 0].map Ev.work)).2 = [false] ∧
    triggers (run sample_build (run sample_build sample_state
      ([cycle_of (report_one 0 0 2000) 0 0, cycle_of (report_one 0 300 2000) 0 0,
        cycle_of (report_one 0 501 2000) 0 0].map Ev.work)).1
      [Ev.work (cycle_of (report_one 0 900 2000) 0 0)]).2 = [] :=
  have hf : List.Forall₂ (fun c p => one_finger_at sample_build sample_state c p.1 p.2)
      [cycle_of (report_one 0 0 2000) 0 0, cycle_of (report_one 0 300 2000) 0 0,
       cycle_of (report_one 0 501 2000) 0 0]
      [(0, 2000), (300, 2000), (501, 2000)] :=
    List.Forall₂.cons (by decide) (List.Forall₂.cons (by decide)
      (List.Forall₂.cons (by decide) List.Forall₂.nil))
  have h := C7_monotonic_stroke sample_build sample_state _ _
    [Ev.work (cycle_of (report_one 0 900 2000) 0 0)] rfl rfl rfl rfl (by decide) (by decide)
    (by decide) hf (by decide) rfl rfl (by simp) (by decide)
  ⟨hf, h.1, h.2.1⟩

/-! ## Double tap (C5) -/

/-- The double-tap test of lines 631-653 as run by a decoded zero-finger
report while suspended with double-tap enabled. -/
theorem work_double_tap (b : Build) (c : Cycle) (s : State) (hok : report_ok c s)
    (hz : (scan_fingers s.ts c.buf).2 = 0) (hs : s.g.scr_suspended = true)
    (hd : s.g.dt2w_switch = true) :
    triggers (synaptics_ts_work_func b c s).2 =
      if s.g.dt2w_screen = true ∧ c.stray < 1900 ∧
          (s.g.dt2w_duration * 1000 * 1000) % 4294967296 <
            (c.now % 18446744073709551616 +
              (18446744073709551616 - s.g.dt2w_start % 18446744073709551616))
              % 18446744073709551616 ∧
          (c.now % 18446744073709551616 +
              (18446744073709551616 - s.g.dt2w_start % 18446744073709551616))
              % 18446744073709551616 < (s.g.dt2w_threshold * 1000 * 1000) % 4294967296
      then [true] else [] := by
  obtain ⟨_, w2, _⟩ := work_zero b c s hok ((scan_zero_iff _ _).2 hz)
  rw [w2, hz]
  have ha : s2w_active s.g = true := by simp [s2w_active, hd]
  simp only [release_all, tap_time, too_long_time, ha, and_self, if_true]
  by_cases hsw : s.g.s2w_switch = true
  · simp only [hsw, if_true, hs, hd, and_self, gt_iff_lt]
    split_ifs
    all_goals first
      | rfl
      | (exfalso; tauto)
  · simp only [hsw, if_false, hs, hd, and_self, gt_iff_lt]
    split_ifs
    all_goals first
      | rfl
      | (exfalso; tauto)

theorem run_snoc (b : Build) (s : State) (es : List Ev) (e : Ev) :
    triggers (run b s (es ++ [e])).2 =
      triggers (run b s es).2 ++ triggers (step b (run b s es).1 e).2 := by
  rw [run_append, triggers_append, run_cons]
  simp only [run, List.append_nil]

/-- C5, evaluated: suspended, double-tap enabled, `duration = 100`,
`threshold = 500`, second tap lifted 150 ms after the first.  Whatever word
the lifting cycle finds beyond `finger_data`, the outcome differs from
"trigger exactly when both taps were on the display": if the word is below
1900, a first tap on the button panel (`y = 2000`) followed by a tap on the
display (`y = 1000`) issues a wake-on request; otherwise two taps on the
display issue none. -/
theorem C5_double_tap_stray (stray : Int) :
    if stray < 1900 then
      triggers (run sample_build sample_suspended
        (sample_taps 2000 1000 ++ [Ev.work (sample_lift 150000000 stray)])).2 = [true]
    else
      triggers (run sample_build sample_suspended
        (sample_taps 1000 1000 ++ [Ev.work (sample_lift 150000000 stray)])).2 = [] := by
  have hlast : ∀ y1 : Nat, triggers (run sample_build sample_suspended
      (sample_taps y1 1000 ++ [Ev.work (sample_lift 150000000 stray)])).2 =
      triggers (run sample_build sample_suspended (sample_taps y1 1000)).2 ++
      triggers (synaptics_ts_work_func sample_build (sample_lift 150000000 stray)
        (run sample_build sample_suspended (sample_taps y1 1000)).1).2 := by
    intro y1
    rw [run_snoc]
    rfl
  have hok : ∀ y1 : Nat, report_ok (sample_lift 150000000 stray)
      (run sample_build sample_suspended (sample_taps y1 1000)).1 ↔
      report_ok (sample_lift 150000000 0)
      (run sample_build sample_suspended (sample_taps y1 1000)).1 := fun _ => Iff.rfl
  split_ifs with h
  · rw [hlast 2000]
    have h0 : triggers (run sample_build sample_suspended (sample_taps 2000 1000)).2 = [] := by
      decide
    have h1 : report_ok (sample_lift 150000000 0)
        (run sample_build sample_suspended (sample_taps 2000 1000)).1 := by decide
    have h2 : (scan_fingers (run sample_build sample_suspended (sample_taps 2000 1000)).1.ts
        (sample_lift 150000000 0).buf).2 = 0 := by decide
    have h3 : (run sample_build sample_suspended (sample_taps 2000 1000)).1.g.dt2w_screen = true ∧
        ((run sample_build sample_suspended (sample_taps 2000 1000)).1.g.dt2w_duration * 1000 * 1000)
          % 4294967296 <
        ((sample_lift 150000000 0).now % 18446744073709551616 + (18446744073709551616 -
          (run sample_build sample_suspended (sample_taps 2000 1000)).1.g.dt2w_start
            % 18446744073709551616)) % 18446744073709551616 ∧
        ((sample_lift 150000000 0).now % 18446744073709551616 + (18446744073709551616 -
          (run sample_build sample_suspended (sample_taps 2000 1000)).1.g.dt2w_start
            % 18446744073709551616)) % 18446744073709551616 <
        ((run sample_build sample_suspended (sample_taps 2000 1000)).1.g.dt2w_threshold
          * 1000 * 1000) % 4294967296 := by decide
    rw [h0, work_double_tap _ _ _ ((hok 2000).2 h1) h2 (by decide) (by decide)]
    rw [if_pos ⟨h3.1, h, h3.2.1, h3.2.2⟩]
    rfl
  · rw [hlast 1000]
    have h0 : triggers (run sample_build sample_suspended (sample_taps 1000 1000)).2 = [] := by
      decide
    have h1 : report_ok (sample_lift 150000000 0)
        (run sample_build sample_suspended (sample_taps 1000 1000)).1 := by decide
    have h2 : (scan_fingers (run sample_build sample_suspended (sample_taps 1000 1000)).1.ts
        (sample_lift 150000000 0).buf).2 = 0 := by decide
    rw [h0, work_double_tap _ _ _ ((hok 1000).2 h1) h2 (by decide) (by decide)]
    rw [if_neg (fun hc => h hc.2.1)]
    rfl

/-! ## Masks and arithmetic (C13, C18, C20) -/

/-- C20: the double-tap window bounds are formed in 32-bit unsigned
arithmetic: `tap_time` is `dt2w_duration * 1000000` modulo `2^32` and
`too_long_time` is `dt2w_threshold * 1000000` modulo `2^32` nanoseconds, so
each equals the configured number of milliseconds in nanoseconds exactly
when the configured value is at most 4294. -/
theorem C20_window_bounds_wrap (g : Globals) :
    tap_time g = (g.dt2w_duration * 1000000) % 2 ^ 32 ∧
    too_long_time g = (g.dt2w_threshold * 1000000) % 2 ^ 32 ∧
    (tap_time g = g.dt2w_duration * 1000000 ↔ g.dt2w_duration ≤ 4294) ∧
    (too_long_time g = g.dt2w_threshold * 1000000 ↔ g.dt2w_threshold ≤ 4294) := by
  unfold tap_time too_long_time
  refine ⟨by norm_num; ring_nf, by norm_num; ring_nf, ?_, ?_⟩
  · constructor
    · intro h; omega
    · intro h; omega
  · constructor
    · intro h; omega
    · intro h; omega

/-- C18: whatever the report, a slot with index 4 or more is never marked
pressed and the finger count never exceeds 4: all presence codes come from
the one byte `buf[1 + (finger_support + 3) / 4]` shifted right by `2 * i`. -/
theorem C18_four_slots_only (ts : synaptics_ts_data) (buf : List Nat) (i : Nat)
    (_hfs : ts.finger_support ≤ 10) (hi : 4 ≤ i) :
    (scan_fingers ts buf).1.testBit i = false ∧ (scan_fingers ts buf).2 ≤ 4 ∧
    (rd buf (1 + (ts.finger_support + 3) / 4) >>> (2 * i)) &&& 0x03 = 0 := by
  obtain ⟨_, h2, _, _, h5⟩ :=
    scan_foldl_inv (rd buf (1 + (ts.finger_support + 3) / 4)) (rd_lt _ _) ts.finger_support
  have hc : (rd buf (1 + (ts.finger_support + 3) / 4) >>> (i * 2)) &&& 0x03 = 0 := by
    by_contra hne
    have := code_lt_four _ i (rd_lt _ _) hne
    omega
  refine ⟨?_, h5, by rw [Nat.mul_comm]; exact hc⟩
  unfold scan_fingers
  cases hb : ((List.range ts.finger_support).foldl
      (scan_step (rd buf (1 + (ts.finger_support + 3) / 4))) (0, 0)).1.testBit i
  · rfl
  · exact absurd hc ((h2 i).1 hb).2

/-- Witness of C18: a ten-finger panel whose presence byte is `0xFF`. -/
theorem C18_four_slots_only_witness :
    ({ sample_ts with finger_support := 10 } : synaptics_ts_data).finger_support ≤ 10 ∧
    4 ≤ 5 ∧
    (scan_fingers { sample_ts with finger_support := 10 } (List.replicate 61 255)).1.testBit 5
      = false ∧
    (scan_fingers { sample_ts with finger_support := 10 } (List.replicate 61 255)).1 = 15 ∧
    (scan_fingers { sample_ts with finger_support := 10 } (List.replicate 61 255)).2 ≤ 4 :=
  ⟨by decide, by decide,
    (C18_four_slots_only { sample_ts with finger_support := 10 } (List.replicate 61 255) 5
      (by decide) (by decide)).1,
    by decide,
    (C18_four_slots_only { sample_ts with finger_support := 10 } (List.replicate 61 255) 5
      (by decide) (by decide)).2.1⟩

theorem not_mask_testBit (m i : Nat) (hi : i < 8) :
    (4294967295 ^^^ m).testBit i = !m.testBit i := by
  have e2 : (4294967295 : Nat) = 2 ^ 32 - 1 := by norm_num
  rw [Nat.testBit_xor, e2, Nat.testBit_two_pow_sub_one]
  have : decide (i < 32) = true := by simp; omega
  rw [this]
  cases m.testBit i <;> rfl

/-- C13: for every stored mask, decoded mask and calibration phase, the
press and release transition masks of lines 607-612 have no bit in common. -/
theorem C13_masks_disjoint (ts : synaptics_ts_data) (finger_pressed : Nat) :
    (press_changes ts finger_pressed).1 &&& (press_changes ts finger_pressed).2.1 = 0 := by
  simp only [press_changes]
  split_ifs
  · dsimp only
    apply Nat.eq_of_testBit_eq
    intro i
    have e : (256 : Nat) = 2 ^ 8 := by norm_num
    rw [Nat.zero_testBit, Nat.testBit_and, Nat.testBit_and, e, Nat.testBit_mod_two_pow,
      Nat.testBit_mod_two_pow, Nat.testBit_and]
    by_cases hi : i < 8
    · rw [not_mask_testBit _ _ hi]
      cases finger_pressed.testBit i <;> simp
    · simp [hi]
  · simp

/-! ## Calibration phase (C12, C14, C15, C19) -/

theorem note_press_phase (ts : synaptics_ts_data) (fc pc i : Nat) (fd : finger_row) :
    (note_press ts fc pc i fd).1.pre_finger_data 0 0 = ts.pre_finger_data 0 0 ∨
    (ts.pre_finger_data 0 0 = 0 ∧ 1 < fc ∧ (note_press ts fc pc i fd).1.pre_finger_data 0 0 = 1) := by
  simp only [note_press]
  split_ifs with h1 h2 h3 h4
  · left; simp [set_pfd]
  · right; refine ⟨by simpa [set_pfd] using h4.1, h4.2, by simp [set_pfd]⟩
  · left; simp [set_pfd]
  · left; rfl
  · left; rfl

theorem note_press_calibrated (ts : synaptics_ts_data) (fc pc i : Nat) (fd : finger_row)
    (h : 2 ≤ ts.pre_finger_data 0 0) : note_press ts fc pc i fd = (ts, []) := by
  simp only [note_press]
  rw [if_neg (by omega)]

theorem slot_tail_touch (b : Build) (c : Cycle) (fc rc i : Nat) (fd : finger_row) (l : Loop)
    (h : fc ≠ 0) : (slot_tail b c fc rc i fd l).ts = l.ts := by
  simp only [slot_tail, h, false_and, if_false]
  split_ifs <;> rfl

theorem slot_tail_release (b : Build) (c : Cycle) (rc i : Nat) (fd : finger_row) (l : Loop) :
    (slot_tail b c 0 rc i fd l).ts.pre_finger_data 0 0 = 0 ∨
    (slot_tail b c 0 rc i fd l).ts.pre_finger_data 0 0 = 2 := by
  simp only [slot_tail]
  split_ifs <;> simp [set_pfd]

/-- In a report with fingers the slot body can move the phase from 0 to 1
only. -/
theorem slot_body_phase_touch (b : Build) (c : Cycle) (fc pc rc i : Nat) (l : Loop)
    (h : fc ≠ 0) :
    (slot_body b c fc pc rc i l).1.ts.pre_finger_data 0 0 = l.ts.pre_finger_data 0 0 ∨
    (l.ts.pre_finger_data 0 0 = 0 ∧ (slot_body b c fc pc rc i l).1.ts.pre_finger_data 0 0 = 1) := by
  simp only [slot_body]
  split_ifs
  · rcases note_press_phase l.ts fc pc i (decode_finger b l.ts c.buf l.base) with h1 | ⟨h1, _, h3⟩
    · left; exact h1
    · right; exact ⟨h1, h3⟩
  · rw [slot_tail_touch _ _ _ _ _ _ _ h]
    rcases note_press_phase l.ts fc pc i (decode_finger b l.ts c.buf l.base) with h1 | ⟨h1, _, h3⟩
    · left; exact h1
    · right; exact ⟨h1, h3⟩
  · rw [slot_tail_touch _ _ _ _ _ _ _ h]; left; rfl
  · left; rfl

/-- In a report with fingers and with the phase at 2 or more the slot body
leaves the device structure alone. -/
theorem slot_body_calibrated (b : Build) (c : Cycle) (fc pc rc i : Nat) (l : Loop)
    (h : fc ≠ 0) (hp : 2 ≤ l.ts.pre_finger_data 0 0) :
    (slot_body b c fc pc rc i l).1.ts = l.ts := by
  simp only [slot_body, note_press_calibrated l.ts fc pc i _ hp]
  split_ifs
  · rfl
  · rw [slot_tail_touch _ _ _ _ _ _ _ h]
  · rw [slot_tail_touch _ _ _ _ _ _ _ h]
  · rfl

/-- In a report without fingers the slot body leaves the phase or sets it to
0 or 2. -/
theorem slot_body_phase_release (b : Build) (c : Cycle) (pc rc i : Nat) (l : Loop)
    (hfp : l.finger_pressed = 0) :
    (slot_body b c 0 pc rc i l).1.finger_pressed = 0 ∧
    ((slot_body b c 0 pc rc i l).1.ts.pre_finger_data 0 0 = l.ts.pre_finger_data 0 0 ∨
      (slot_body b c 0 pc rc i l).1.ts.pre_finger_data 0 0 = 0 ∨
      (slot_body b c 0 pc rc i l).1.ts.pre_finger_data 0 0 = 2) := by
  have hnp : ¬ ((l.finger_pressed >>> i) &&& 1 = 1) := by
    rw [hfp]; simp
  simp only [slot_body, if_neg hnp]
  split_ifs
  · refine ⟨by rw [slot_tail_finger_pressed]; exact hfp, Or.inr ?_⟩
    exact slot_tail_release b c rc i _ _
  · exact ⟨hfp, Or.inl rfl⟩

theorem slot_loop_phase_touch (b : Build) (c : Cycle) (fc pc rc : Nat) (h : fc ≠ 0) :
    ∀ (slots : List Nat) (l : Loop),
      (slot_loop b c fc pc rc slots l).ts.pre_finger_data 0 0 = l.ts.pre_finger_data 0 0 ∨
      (l.ts.pre_finger_data 0 0 = 0 ∧ (slot_loop b c fc pc rc slots l).ts.pre_finger_data 0 0 = 1) := by
  intro slots
  induction slots with
  | nil => intro l; left; rfl
  | cons i rest ih =>
    intro l
    simp only [slot_loop]
    have hb := slot_body_phase_touch b c fc pc rc i l h
    split_ifs
    · exact hb
    · rcases ih { (slot_body b c fc pc rc i l).1 with base := (slot_body b c fc pc rc i l).1.base + 5 }
        with h1 | ⟨h1, h2⟩
      · rcases hb with h3 | ⟨h3, h4⟩
        · left; exact h1.trans h3
        · right; exact ⟨h3, h1.trans h4⟩
      · rcases hb with h3 | ⟨h3, h4⟩
        · right; exact ⟨h3 ▸ h1, h2⟩
        · exfalso
          have : (slot_body b c fc pc rc i l).1.ts.pre_finger_data 0 0 = 0 := h1
          omega

theorem slot_loop_calibrated (b : Build) (c : Cycle) (fc pc rc : Nat) (h : fc ≠ 0) :
    ∀ (slots : List Nat) (l : Loop), 2 ≤ l.ts.pre_finger_data 0 0 →
      (slot_loop b c fc pc rc slots l).ts = l.ts := by
  intro slots
  induction slots with
  | nil => intro l _; rfl
  | cons i rest ih =>
    intro l hp
    simp only [slot_loop]
    have hb := slot_body_calibrated b c fc pc rc i l h hp
    split_ifs
    · exact hb
    · rw [ih _ (by show 2 ≤ (slot_body b c fc pc rc i l).1.ts.pre_finger_data 0 0; rw [hb]; exact hp)]
      exact hb

theorem slot_loop_phase_release (b : Build) (c : Cycle) (pc rc : Nat) :
    ∀ (slots : List Nat) (l : Loop), l.finger_pressed = 0 →
      (slot_loop b c 0 pc rc slots l).ts.pre_finger_data 0 0 = l.ts.pre_finger_data 0 0 ∨
      (slot_loop b c 0 pc rc slots l).ts.pre_finger_data 0 0 = 0 ∨
      (slot_loop b c 0 pc rc slots l).ts.pre_finger_data 0 0 = 2 := by
  intro slots
  induction slots with
  | nil => intro l _; left; rfl
  | cons i rest ih =>
    intro l hfp
    simp only [slot_loop]
    obtain ⟨hb1, hb2⟩ := slot_body_phase_release b c pc rc i l hfp
    split_ifs
    · exact hb2
    · rcases ih { (slot_body b c 0 pc rc i l).1 with base := (slot_body b c 0 pc rc i l).1.base + 5 }
        hb1 with h1 | h1 | h1
      · rcases hb2 with h3 | h3 | h3
        · left; exact h1.trans h3
        · right; left; exact h1.trans h3
        · right; right; exact h1.trans h3
      · right; left; exact h1
      · right; right; exact h1

/-- The phase and the stored mask after a cycle whose report is decoded. -/
theorem work_ok_ts (b : Build) (c : Cycle) (s : State) (h : report_ok c s) :
    (synaptics_ts_work_func b c s).1.ts = (work_report b c s).ts := by
  rw [work_ok_eq b c s h]

/-- A decoded report with fingers moves the phase from 0 to 1 at most, and
changes nothing of the device structure once the phase is 2. -/
theorem work_touch_phase (b : Build) (c : Cycle) (s : State) (h : report_ok c s)
    (hc : (scan_fingers s.ts c.buf).2 ≠ 0) :
    ((synaptics_ts_work_func b c s).1.ts.pre_finger_data 0 0 = s.ts.pre_finger_data 0 0 ∨
      (s.ts.pre_finger_data 0 0 = 0 ∧
        (synaptics_ts_work_func b c s).1.ts.pre_finger_data 0 0 = 1)) ∧
    (s.ts.pre_finger_data 0 0 = 2 → (synaptics_ts_work_func b c s).1.ts = s.ts) := by
  have hm : (scan_fingers s.ts c.buf).1 ≠ 0 := fun hz => hc ((scan_zero_iff _ _).1 hz)
  rw [work_ok_ts b c s h]
  simp only [work_report, if_neg hm]
  rw [if_pos (Or.inr hm)]
  constructor
  · exact slot_loop_phase_touch b c _ _ _ hc _ _
  · intro hp
    rw [slot_loop_calibrated b c _ _ _ hc _ _ (by show 2 ≤ s.ts.pre_finger_data 0 0; omega)]
    simp only [press_changes]
    rw [if_neg (fun hh => by have := hh.2; omega)]

/-- A decoded report without fingers leaves the phase or sets it to 0 or 2,
and changes nothing of the device structure once the phase is 2. -/
theorem work_zero_phase (b : Build) (c : Cycle) (s : State) (h : report_ok c s)
    (hc : (scan_fingers s.ts c.buf).2 = 0) :
    ((synaptics_ts_work_func b c s).1.ts.pre_finger_data 0 0 = s.ts.pre_finger_data 0 0 ∨
      (synaptics_ts_work_func b c s).1.ts.pre_finger_data 0 0 = 0 ∨
      (synaptics_ts_work_func b c s).1.ts.pre_finger_data 0 0 = 2) ∧
    (s.ts.pre_finger_data 0 0 = 2 → (synaptics_ts_work_func b c s).1.ts = s.ts) := by
  have hm : (scan_fingers s.ts c.buf).1 = 0 := (scan_zero_iff _ _).2 hc
  rw [work_ok_ts b c s h]
  simp only [work_report, if_pos hm]
  constructor
  · split_ifs
    · rw [hc]
      exact slot_loop_phase_release b c _ _ _ _ hm
    · left; rfl
  · intro hp
    rw [if_neg (by
      intro hh
      rcases hh with hh | hh
      · have : s.ts.pre_finger_data 0 0 < 2 := hh
        omega
      · exact hh hm)]
    simp only [press_changes]
    rw [if_neg (fun hh => by have := hh.2; omega)]

/-- Counterexample to C12: after calibration is confirmed, a report with a
new finger in slot 0 (stored mask 0, decoded mask 1) yields the press mask
0, not `(prev XOR cur) AND cur = 1`, and the stored mask stays 0. -/
theorem C12_counterexample :
    report_ok (cycle_of (report_one 0 100 1000) 0 0) sample_calibrated ∧
    sample_calibrated.ts.finger_pressed = 0 ∧
    (scan_fingers sample_calibrated.ts (cycle_of (report_one 0 100 1000) 0 0).buf).1 = 1 ∧
    (press_changes sample_calibrated.ts 1).1 = 0 ∧
    (sample_calibrated.ts.finger_pressed ^^^ 1) &&& 1 = 1 ∧
    (synaptics_ts_work_func sample_build (cycle_of (report_one 0 100 1000) 0 0)
      sample_calibrated).1.ts.finger_pressed = 0 := by
  decide

/-- C12 (amended): in a cycle that starts with the calibration phase below
2, with `prev` the stored pressed mask (a value of the 8-bit local) and
`cur` the mask decoded from the report, lines 607-612 compute
`pressed = (prev XOR cur) AND cur` and
`released = (prev XOR cur) AND NOT cur`, and store `cur`. -/
theorem C12_transition_masks (ts : synaptics_ts_data) (buf : List Nat)
    (hphase : ts.pre_finger_data 0 0 < 2) (hprev : ts.finger_pressed < 256) :
    (press_changes ts (scan_fingers ts buf).1).1 =
      (ts.finger_pressed ^^^ (scan_fingers ts buf).1) &&& (scan_fingers ts buf).1 ∧
    (∀ i, (press_changes ts (scan_fingers ts buf).1).2.1.testBit i =
      ((ts.finger_pressed ^^^ (scan_fingers ts buf).1).testBit i &&
        !(scan_fingers ts buf).1.testBit i)) ∧
    (press_changes ts (scan_fingers ts buf).1).2.2 = (scan_fingers ts buf).1 := by
  have hcur := scan_fingers_lt ts buf
  generalize (scan_fingers ts buf).1 = cur at hcur ⊢
  by_cases he : ts.finger_pressed = cur
  · simp only [press_changes]
    rw [if_neg (fun hh => hh.1 he)]
    refine ⟨?_, fun i => ?_, he⟩
    · rw [he, Nat.xor_self]; simp
    · rw [he, Nat.xor_self]; simp
  · have hx : ts.finger_pressed ^^^ cur < 2 ^ 8 := Nat.xor_lt_two_pow (by omega) (by omega)
    have hmod : (ts.finger_pressed ^^^ cur) % 256 = ts.finger_pressed ^^^ cur :=
      Nat.mod_eq_of_lt (by omega)
    simp only [press_changes]
    rw [if_pos ⟨he, hphase⟩]
    refine ⟨by rw [hmod], fun i => ?_, rfl⟩
    show (((ts.finger_pressed ^^^ cur) % 256 &&& (4294967295 ^^^ cur)) % 256).testBit i = _
    have e : (256 : Nat) = 2 ^ 8 := by norm_num
    rw [hmod, e, Nat.testBit_mod_two_pow, Nat.testBit_and]
    by_cases hi : i < 8
    · rw [not_mask_testBit _ _ hi]; simp [hi]
    · have hf : (ts.finger_pressed ^^^ cur).testBit i = false := by
        apply Nat.testBit_lt_two_pow
        calc ts.finger_pressed ^^^ cur < 2 ^ 8 := hx
          _ ≤ 2 ^ i := Nat.pow_le_pow_right (by norm_num) (by omega)
      simp [hi, hf]

/-- Witness of C12 (amended): the first press on a cold panel. -/
theorem C12_transition_masks_witness :
    sample_ts.pre_finger_data 0 0 < 2 ∧ sample_ts.finger_pressed < 256 ∧
    (press_changes sample_ts (scan_fingers sample_ts (report_one 0 100 1000)).1).1 =
      (sample_ts.finger_pressed ^^^ (scan_fingers sample_ts (report_one 0 100 1000)).1) &&&
        (scan_fingers sample_ts (report_one 0 100 1000)).1 ∧
    (press_changes sample_ts (scan_fingers sample_ts (report_one 0 100 1000)).1).1 = 1 :=
  ⟨by decide, by decide,
    (C12_transition_masks sample_ts (report_one 0 100 1000) (by decide) (by decide)).1,
    by decide⟩

/-- C19: a work cycle that starts with the calibration phase at 2 ends with
the phase at 2, whatever the report and the clock; the transition masks of
such a cycle are both zero and the stored pressed mask is not updated. -/
theorem C19_calibrated_absorbing (b : Build) (c : Cycle) (s : State)
    (hp : s.ts.pre_finger_data 0 0 = 2) :
    (synaptics_ts_work_func b c s).1.ts.pre_finger_data 0 0 = 2 ∧
    (synaptics_ts_work_func b c s).1.ts.finger_pressed = s.ts.finger_pressed ∧
    (press_changes s.ts (scan_fingers s.ts c.buf).1).1 = 0 ∧
    (press_changes s.ts (scan_fingers s.ts c.buf).1).2.1 = 0 ∧
    (press_changes s.ts (scan_fingers s.ts c.buf).1).2.2 = s.ts.finger_pressed := by
  have hpc : press_changes s.ts (scan_fingers s.ts c.buf).1 = (0, 0, s.ts.finger_pressed) := by
    simp only [press_changes]
    rw [if_neg (fun hh => by have := hh.2; omega)]
  have hts : (synaptics_ts_work_func b c s).1.ts = s.ts := by
    by_cases hok : report_ok c s
    · by_cases hc : (scan_fingers s.ts c.buf).2 = 0
      · exact (work_zero_phase b c s hok hc).2 hp
      · exact (work_touch_phase b c s hok hc).2 hp
    · rw [(work_not_ok b c s hok).1]
  rw [hts, hpc]
  exact ⟨hp, rfl, rfl, rfl, rfl⟩

/-- Witness of C19: a new press after calibration was confirmed. -/
theorem C19_calibrated_absorbing_witness :
    sample_calibrated.ts.pre_finger_data 0 0 = 2 ∧
    (synaptics_ts_work_func sample_build (cycle_of (report_one 0 100 1000) 0 0)
      sample_calibrated).1.ts.pre_finger_data 0 0 = 2 ∧
    (synaptics_ts_work_func sample_build (cycle_of (report_one 0 100 1000) 0 0)
      sample_calibrated).1.ts.finger_pressed = sample_calibrated.ts.finger_pressed :=
  ⟨by decide,
    (C19_calibrated_absorbing sample_build (cycle_of (report_one 0 100 1000) 0 0)
      sample_calibrated (by decide)).1,
    (C19_calibrated_absorbing sample_build (cycle_of (report_one 0 100 1000) 0 0)
      sample_calibrated (by decide)).2.1⟩

/-- Counterexample to C14: two fingers come down on a cold panel (phase 1)
and are lifted together; the zero-finger report sets the phase back to 0. -/
theorem C14_counterexample :
    sample_warming.ts.pre_finger_data 0 0 = 1 ∧
    (synaptics_ts_work_func sample_build (cycle_of report_none 0 0)
      sample_warming).1.ts.pre_finger_data 0 0 = 0 := by
  decide

/-- C14 (amended): with no suspend or resume in between, a work cycle lowers
the calibration phase only from 1 (Warming) to 0 (Cold), and only when it
decodes a zero-finger report; every other cycle ends with a phase that is
not lower than at its start. -/
theorem C14_phase_drop (b : Build) (c : Cycle) (s : State)
    (h : (synaptics_ts_work_func b c s).1.ts.pre_finger_data 0 0 < s.ts.pre_finger_data 0 0) :
    s.ts.pre_finger_data 0 0 = 1 ∧
    (synaptics_ts_work_func b c s).1.ts.pre_finger_data 0 0 = 0 ∧
    report_ok c s ∧ (scan_fingers s.ts c.buf).2 = 0 := by
  by_cases hok : report_ok c s
  · by_cases hc : (scan_fingers s.ts c.buf).2 = 0
    · obtain ⟨h1, h2⟩ := work_zero_phase b c s hok hc
      have h3 : s.ts.pre_finger_data 0 0 ≠ 2 := by
        intro h4
        rw [h2 h4] at h
        exact absurd h (lt_irrefl _)
      rcases h1 with h1 | h1 | h1
      · rw [h1] at h; exact absurd h (lt_irrefl _)
      · by_cases h5 : s.ts.pre_finger_data 0 0 = 1
        · exact ⟨h5, h1, hok, hc⟩
        · exfalso
          rw [h1] at h
          by_cases h6 : s.ts.pre_finger_data 0 0 < 2
          · omega
          · have hm : (scan_fingers s.ts c.buf).1 = 0 := (scan_zero_iff _ _).2 hc
            have hts : (synaptics_ts_work_func b c s).1.ts.pre_finger_data 0 0 =
                s.ts.pre_finger_data 0 0 := by
              rw [work_ok_ts b c s hok]
              simp only [work_report, if_pos hm]
              rw [if_neg (by
                intro hh
                rcases hh with hh | hh
                · exact h6 hh
                · exact hh hm)]
            rw [hts] at h1
            omega
      · exfalso
        by_cases h6 : s.ts.pre_finger_data 0 0 < 2
        · rw [h1] at h; omega
        · have hm : (scan_fingers s.ts c.buf).1 = 0 := (scan_zero_iff _ _).2 hc
          have hts : (synaptics_ts_work_func b c s).1.ts.pre_finger_data 0 0 =
              s.ts.pre_finger_data 0 0 := by
            rw [work_ok_ts b c s hok]
            simp only [work_report, if_pos hm]
            rw [if_neg (by
              intro hh
              rcases hh with hh | hh
              · exact h6 hh
              · exact hh hm)]
          rw [hts] at h
          exact absurd h (lt_irrefl _)
    · exfalso
      rcases (work_touch_phase b c s hok hc).1 with h1 | ⟨h1, h2⟩
      · rw [h1] at h; exact absurd h (lt_irrefl _)
      · rw [h1, h2] at h; omega
  · exfalso
    rw [(work_not_ok b c s hok).1] at h
    exact absurd h (lt_irrefl _)

/-- Witness of C14 (amended): the release of two fingers on a warming panel. -/
theorem C14_phase_drop_witness :
    (synaptics_ts_work_func sample_build (cycle_of report_none 0 0)
      sample_warming).1.ts.pre_finger_data 0 0 < sample_warming.ts.pre_finger_data 0 0 ∧
    sample_warming.ts.pre_finger_data 0 0 = 1 ∧
    (scan_fingers sample_warming.ts (cycle_of report_none 0 0).buf).2 = 0 :=
  ⟨by decide,
    (C14_phase_drop sample_build (cycle_of report_none 0 0) sample_warming (by decide)).1,
    (C14_phase_drop sample_build (cycle_of report_none 0 0) sample_warming (by decide)).2.2.2⟩

/-- The release mask of a report without fingers holds the bits of the
stored mask, and only while the phase is below 2. -/
theorem press_changes_release_bit (ts : synaptics_ts_data) (j : Nat) :
    (press_changes ts 0).2.1.testBit j = true ↔
      (ts.finger_pressed.testBit j = true ∧ j < 8 ∧ ts.pre_finger_data 0 0 < 2) := by
  have e : (256 : Nat) = 2 ^ 8 := by norm_num
  simp only [press_changes]
  split_ifs with h
  · dsimp only
    rw [e, Nat.testBit_mod_two_pow, Nat.testBit_and, Nat.testBit_mod_two_pow, Nat.xor_zero]
    by_cases hj : j < 8
    · rw [not_mask_testBit _ _ hj]
      simp [hj, h.2]
    · simp [hj]
  · constructor
    · intro hh; simp at hh
    · rintro ⟨h1, _, h3⟩
      exfalso
      apply h
      refine ⟨?_, h3⟩
      intro h0
      rw [h0] at h1
      simp at h1

theorem slot_tail_release_exact (b : Build) (c : Cycle) (rc i : Nat) (fd : finger_row) (l : Loop) :
    (slot_tail b c 0 rc i fd l).ts.pre_finger_data 0 0 =
      (if l.ts.pre_finger_data 0 0 = 0 ∧
          (c.jiffies > (l.ts.timestamp + 15 * b.HZ) % 18446744073709551616 ∨
            ((fd.y % 4294967296).toNat > l.ts.raw_base ∧
              (l.ts.pre_finger_data (i + 1) 1 - fd.y).natAbs > l.ts.raw_ref))
        then 2 else 0) ∧
    (∀ a j, ¬ (a = 0 ∧ j = 0) →
      (slot_tail b c 0 rc i fd l).ts.pre_finger_data a j = l.ts.pre_finger_data a j) := by
  simp only [slot_tail, true_and]
  split_ifs <;> simp_all [set_pfd]

/-- One slot of the loop in a report without fingers: no `break`; a slot
outside the release mask changes nothing, a released slot sets the phase to
2 when the phase is 0 and the test of lines 868-870 holds, and to 0
otherwise. -/
theorem slot_body_release_step (b : Build) (c : Cycle) (s : State) (pc rc k : Nat) (l : Loop)
    (hfp : l.finger_pressed = 0) (hs : same_setup l.ts s.ts)
    (hpf : ∀ a j, ¬ (a = 0 ∧ j = 0) → l.ts.pre_finger_data a j = s.ts.pre_finger_data a j)
    (hb : l.base = (s.ts.finger_support + 11) / 4 + 5 * k) :
    (slot_body b c 0 pc rc k l).2 = false ∧
    (slot_body b c 0 pc rc k l).1.finger_pressed = 0 ∧
    same_setup (slot_body b c 0 pc rc k l).1.ts s.ts ∧
    (∀ a j, ¬ (a = 0 ∧ j = 0) →
      (slot_body b c 0 pc rc k l).1.ts.pre_finger_data a j = s.ts.pre_finger_data a j) ∧
    (slot_body b c 0 pc rc k l).1.base = (s.ts.finger_support + 11) / 4 + 5 * k ∧
    (slot_body b c 0 pc rc k l).1.ts.pre_finger_data 0 0 =
      (if rc.testBit k = true then
        (if l.ts.pre_finger_data 0 0 = 0 ∧ drift_confirms b s c k then 2 else 0)
      else l.ts.pre_finger_data 0 0) := by
  have hnp : ¬ ((l.finger_pressed >>> k) &&& 1 = 1) := by
    rw [hfp]; simp
  have hbase := slot_body_base b c 0 pc rc k l
  have hset := same_setup_trans (slot_body_setup b c 0 pc rc k l) hs
  have hfd : decode_finger b l.ts c.buf l.base =
      decode_finger b s.ts c.buf ((s.ts.finger_support + 11) / 4 + 5 * k) := by
    rw [decode_finger_congr b l.ts s.ts hs, hb]
  obtain ⟨_, _, _, _, _, s6, s7, s8⟩ := hs
  have hp1 := hpf (k + 1) 1 (by omega)
  refine ⟨?_, ?_, hset, ?_, hbase.trans hb, ?_⟩
  · simp only [slot_body, if_neg hnp]
    split_ifs <;> rfl
  · exact (slot_body_phase_release b c pc rc k l hfp).1
  · intro a j haj
    simp only [slot_body, if_neg hnp]
    split_ifs
    · rw [(slot_tail_release_exact b c rc k _ _).2 a j haj]
      exact hpf a j haj
    · exact hpf a j haj
  · have hor : ((l.finger_pressed ||| rc) >>> k) &&& 1 = 1 ↔ rc.testBit k = true := by
      rw [hfp, Nat.zero_or]; exact shr_and_one_eq rc k
    simp only [slot_body, if_neg hnp]
    by_cases hr : rc.testBit k = true
    · rw [if_pos (hor.2 hr), if_pos hr, (slot_tail_release_exact b c rc k _ _).1]
      simp only [drift_confirms, hfd, s6, s7, s8, hp1]
    · rw [if_neg (fun h => hr (hor.1 h)), if_neg hr]

/-- A report without fingers ends with the phase at 2 only if the phase was
2 before the loop or a released slot passed the test of lines 868-870. -/
theorem slot_loop_confirm_only_if (b : Build) (c : Cycle) (s : State) (pc rc : Nat) :
    ∀ (n k : Nat) (l : Loop), l.finger_pressed = 0 → same_setup l.ts s.ts →
      (∀ a j, ¬ (a = 0 ∧ j = 0) → l.ts.pre_finger_data a j = s.ts.pre_finger_data a j) →
      l.base = (s.ts.finger_support + 11) / 4 + 5 * k →
      (slot_loop b c 0 pc rc (List.range' k n) l).ts.pre_finger_data 0 0 = 2 →
      l.ts.pre_finger_data 0 0 = 2 ∨
        ∃ i, k ≤ i ∧ i < k + n ∧ rc.testBit i = true ∧ drift_confirms b s c i := by
  intro n
  induction n with
  | zero => intro k l _ _ _ _ h; exact Or.inl h
  | succ n ih =>
    intro k l hfp hs hpf hb h
    obtain ⟨t1, t2, t3, t4, t5, t6⟩ := slot_body_release_step b c s pc rc k l hfp hs hpf hb
    rw [List.range'_succ] at h
    simp only [slot_loop, t1, Bool.false_eq_true, if_false] at h
    have key := ih (k + 1) { (slot_body b c 0 pc rc k l).1 with
        base := (slot_body b c 0 pc rc k l).1.base + 5 } t2 t3 t4
      (by show (slot_body b c 0 pc rc k l).1.base + 5 = _; rw [t5]; ring)
    rcases key h with h1 | ⟨i, i1, i2, i3, i4⟩
    · have h1' : (slot_body b c 0 pc rc k l).1.ts.pre_finger_data 0 0 = 2 := h1
      rw [t6] at h1'
      by_cases hr : rc.testBit k = true
      · rw [if_pos hr] at h1'
        by_cases hd : l.ts.pre_finger_data 0 0 = 0 ∧ drift_confirms b s c k
        · exact Or.inr ⟨k, le_refl _, by omega, hr, hd.2⟩
        · rw [if_neg hd] at h1'; omega
      · rw [if_neg hr] at h1'; exact Or.inl h1'
    · exact Or.inr ⟨i, by omega, by omega, i3, i4⟩

/-- A report without fingers that releases the one slot `i`: the phase after
the loop is decided by the test of lines 868-870 for that slot. -/
theorem slot_loop_single_release (b : Build) (c : Cycle) (s : State) (pc rc i : Nat)
    (hi : rc.testBit i = true) :
    ∀ (n k : Nat) (l : Loop), l.finger_pressed = 0 → same_setup l.ts s.ts →
      (∀ a j, ¬ (a = 0 ∧ j = 0) → l.ts.pre_finger_data a j = s.ts.pre_finger_data a j) →
      l.base = (s.ts.finger_support + 11) / 4 + 5 * k →
      (∀ j, j ≠ i → k ≤ j → j < k + n → rc.testBit j = false) →
      (slot_loop b c 0 pc rc (List.range' k n) l).ts.pre_finger_data 0 0 =
        (if k ≤ i ∧ i < k + n then
          (if l.ts.pre_finger_data 0 0 = 0 ∧ drift_confirms b s c i then 2 else 0)
        else l.ts.pre_finger_data 0 0) := by
  intro n
  induction n with
  | zero =>
    intro k l _ _ _ _ _
    rw [if_neg (by omega)]
    rfl
  | succ n ih =>
    intro k l hfp hs hpf hb ho
    obtain ⟨t1, t2, t3, t4, t5, t6⟩ := slot_body_release_step b c s pc rc k l hfp hs hpf hb
    rw [List.range'_succ]
    simp only [slot_loop, t1, Bool.false_eq_true, if_false]
    have key := ih (k + 1) { (slot_body b c 0 pc rc k l).1 with
        base := (slot_body b c 0 pc rc k l).1.base + 5 } t2 t3 t4
      (by show (slot_body b c 0 pc rc k l).1.base + 5 = _; rw [t5]; ring)
      (fun j hj h1 h2 => ho j hj (by omega) (by omega))
    refine key.trans ?_
    dsimp only
    rw [t6]
    by_cases hk : k = i
    · subst hk
      have c1 : ¬ (k + 1 ≤ k ∧ k < k + 1 + n) := by omega
      have c2 : k ≤ k ∧ k < k + (n + 1) := ⟨le_refl _, by omega⟩
      rw [if_neg c1, if_pos hi, if_pos c2]
    · have hrk : rc.testBit k = false := ho k hk (le_refl _) (by omega)
      have hrk' : ¬ (rc.testBit k = true) := by rw [hrk]; simp
      rw [if_neg hrk']
      by_cases hin : k + 1 ≤ i ∧ i < k + 1 + n
      · have c2 : k ≤ i ∧ i < k + (n + 1) := by omega
        rw [if_pos hin, if_pos c2]
      · have c2 : ¬ (k ≤ i ∧ i < k + (n + 1)) := by omega
        rw [if_neg hin, if_neg c2]

/-- A decoded report without fingers read while the phase is below 2: the
device structure after the cycle is the one left by the slot loop. -/
theorem work_zero_loop (b : Build) (c : Cycle) (s : State) (h : report_ok c s)
    (hc : (scan_fingers s.ts c.buf).2 = 0) (hp : s.ts.pre_finger_data 0 0 < 2) :
    ∃ l0 : Loop, l0.finger_pressed = 0 ∧ same_setup l0.ts s.ts ∧
      (∀ a j, l0.ts.pre_finger_data a j = s.ts.pre_finger_data a j) ∧
      l0.base = (s.ts.finger_support + 11) / 4 + 5 * 0 ∧
      (synaptics_ts_work_func b c s).1.ts =
        (slot_loop b c 0 (press_changes s.ts 0).1 (press_changes s.ts 0).2.1
          (List.range' 0 s.ts.finger_support) l0).ts := by
  have hm : (scan_fingers s.ts c.buf).1 = 0 := (scan_zero_iff _ _).2 hc
  rw [work_ok_ts b c s h]
  simp only [work_report, if_pos hm, hm, hc]
  rw [if_pos (Or.inl hp), List.range_eq_range']
  exact ⟨_, rfl, ⟨rfl, rfl, rfl, rfl, rfl, rfl, rfl, rfl⟩, fun _ _ => rfl, rfl, rfl⟩

/-- A decoded report without fingers read while the phase is 2 or more
leaves the phase. -/
theorem work_zero_calibrated (b : Build) (c : Cycle) (s : State) (h : report_ok c s)
    (hc : (scan_fingers s.ts c.buf).2 = 0) (hp : ¬ s.ts.pre_finger_data 0 0 < 2) :
    (synaptics_ts_work_func b c s).1.ts.pre_finger_data 0 0 = s.ts.pre_finger_data 0 0 := by
  have hm : (scan_fingers s.ts c.buf).1 = 0 := (scan_zero_iff _ _).2 hc
  rw [work_ok_ts b c s h]
  simp only [work_report, if_pos hm]
  rw [if_neg (by
    intro hh
    rcases hh with hh | hh
    · exact hp hh
    · exact hh hm)]

/-- With the start marker at -2 a sample only records the zone of the
touch. -/
theorem s2w_sample_disqualified (g : Globals) (fc : Nat) (x y : Int) (h : g.downx = -2) :
    s2w_sample g fc x y = (note_zone g y, [], false) := by
  simp only [s2w_sample, note_zone_downx, h]
  split_ifs <;> first | rfl | (exfalso; simp_all)

theorem gest_loop_disqualified (fc : Nat) : ∀ (ps : List (Int × Int)) (g : Globals),
    g.downx = -2 → (gest_loop g fc ps).1.downx = -2 ∧ (gest_loop g fc ps).2 = [] := by
  intro ps
  induction ps with
  | nil => intro g h; exact ⟨h, rfl⟩
  | cons p rest ih =>
    intro g h
    simp only [gest_loop, s2w_sample_disqualified g fc p.1 p.2 h, Bool.false_eq_true, if_false,
      List.nil_append]
    exact ih (note_zone g p.2) h

/-- With the start marker at -2, an entry point that does not see a
zero-finger report keeps the marker and requests no trigger. -/
theorem step_disqualified (b : Build) (s : State) (e : Ev) (h : s.g.downx = -2)
    (hz : ¬ sees_zero_fingers s e) :
    (step b s e).1.g.downx = -2 ∧ triggers (step b s e).2 = [] := by
  by_cases hw : ∃ c, e = Ev.work c
  · obtain ⟨c, rfl⟩ := hw
    simp only [step]
    by_cases hok : report_ok c s
    · have hm : (scan_fingers s.ts c.buf).1 ≠ 0 := fun h0 => hz ⟨hok, (scan_zero_iff _ _).1 h0⟩
      obtain ⟨w1, w2, _⟩ := work_touch b c s hok hm
      obtain ⟨g1, g2⟩ := gest_loop_disqualified (scan_fingers s.ts c.buf).2
        (pressed_samples b s.ts c.buf (scan_fingers s.ts c.buf).1 ((s.ts.finger_support + 11) / 4)
          (List.range s.ts.finger_support)) s.g h
      rw [w1, w2, g2]
      exact ⟨g1, rfl⟩
    · obtain ⟨w1, w2⟩ := work_not_ok b c s hok
      rw [w1, w2]
      exact ⟨h, rfl⟩
  · obtain ⟨o1, _, o3, _⟩ := step_other b s e (fun c hc => hw ⟨c, hc⟩)
    exact ⟨o3.trans h, o1⟩

theorem run_disqualified (b : Build) (es : List Ev) : ∀ s : State, s.g.downx = -2 →
    no_zero_report b s es → (run b s es).1.g.downx = -2 ∧ triggers (run b s es).2 = [] := by
  induction es with
  | nil => intro s h _; exact ⟨h, rfl⟩
  | cons e es ih =>
    intro s h hz
    obtain ⟨z1, z2⟩ := hz
    obtain ⟨d1, d2⟩ := step_disqualified b s e h z1
    obtain ⟨i1, i2⟩ := ih _ d1 z2
    rw [run_cons, triggers_append, d2, i2]
    exact ⟨i1, rfl⟩

/-- A single-finger sample at `y <= 1900` with sweep enabled sets the start
marker to -2 and requests nothing, in both stroke modes. -/
theorem s2w_sample_on_screen (g : Globals) (x y : Int) (hsw : g.s2w_switch = true)
    (hy : y ≤ 1900) :
    (s2w_sample g 1 x y).1.downx = -2 ∧ (s2w_sample g 1 x y).2.1 = [] := by
  by_cases hd : g.downx = -2
  · rw [s2w_sample_disqualified g 1 x y hd]
    exact ⟨hd, rfl⟩
  · have hny : ¬ y > 1900 := by omega
    simp only [s2w_sample, note_zone_downx, note_zone_s2w_switch, note_zone_s2w_allow_stroke,
      note_zone_scr_suspended, hsw]
    split_ifs <;> first | exact ⟨rfl, rfl⟩ | (exfalso; simp_all)

/-- C17: a single-finger sample at `y <= 1900` processed while sweep is
enabled, in bidirectional or in free-swipe mode, sets the start marker to
-2 and requests no trigger; from then on, whatever entry points follow up
to the next zero-finger report (samples on the button panel beyond
`minDistance` included), the marker stays -2 and no trigger request is
issued. -/
theorem C17_screen_touch_disqualifies (b : Build) (s : State) (c : Cycle) (x y : Int)
    (es : List Ev) (hsw : s.g.s2w_switch = true) (h : one_finger_at b s c x y) (hy : y ≤ 1900)
    (hes : no_zero_report b (synaptics_ts_work_func b c s).1 es) :
    (synaptics_ts_work_func b c s).1.g.downx = -2 ∧
    triggers (synaptics_ts_work_func b c s).2 = [] ∧
    (run b (synaptics_ts_work_func b c s).1 es).1.g.downx = -2 ∧
    triggers (run b (synaptics_ts_work_func b c s).1 es).2 = [] := by
  obtain ⟨w1, w2, _⟩ := work_one_finger b c s x y h
  obtain ⟨o1, o2⟩ := s2w_sample_on_screen s.g x y hsw hy
  have hd : (synaptics_ts_work_func b c s).1.g.downx = -2 := by rw [w1]; exact o1
  obtain ⟨r1, r2⟩ := run_disqualified b es _ hd hes
  exact ⟨hd, by rw [w2, o2]; rfl, r1, r2⟩

/-- Witness of C17: a touch at `(100, 1000)` that then moves on the button
panel from 100 to 900. -/
theorem C17_screen_touch_disqualifies_witness :
    one_finger_at sample_build sample_state (cycle_of (report_one 0 100 1000) 0 0) 100 1000 ∧
    no_zero_report sample_build
      (synaptics_ts_work_func sample_build (cycle_of (report_one 0 100 1000) 0 0) sample_state).1
      [Ev.work (cycle_of (report_one 0 100 2000) 0 0),
       Ev.work (cycle_of (report_one 0 900 2000) 0 0)] ∧
    (run sample_build
      (synaptics_ts_work_func sample_build (cycle_of (report_one 0 100 1000) 0 0) sample_state).1
      [Ev.work (cycle_of (report_one 0 100 2000) 0 0),
       Ev.work (cycle_of (report_one 0 900 2000) 0 0)]).1.g.downx = -2 ∧
    triggers (run sample_build
      (synaptics_ts_work_func sample_build (cycle_of (report_one 0 100 1000) 0 0) sample_state).1
      [Ev.work (cycle_of (report_one 0 100 2000) 0 0),
       Ev.work (cycle_of (report_one 0 900 2000) 0 0)]).2 = [] :=
  ⟨by decide, by decide,
    (C17_screen_touch_disqualifies sample_build sample_state
      (cycle_of (report_one 0 100 1000) 0 0) 100 1000
      [Ev.work (cycle_of (report_one 0 100 2000) 0 0),
       Ev.work (cycle_of (report_one 0 900 2000) 0 0)] rfl (by decide) (by decide)
      (by decide)).2.2.1,
    (C17_screen_touch_disqualifies sample_build sample_state
      (cycle_of (report_one 0 100 1000) 0 0) 100 1000
      [Ev.work (cycle_of (report_one 0 100 2000) 0 0),
       Ev.work (cycle_of (report_one 0 900 2000) 0 0)] rfl (by decide) (by decide)
      (by decide)).2.2.2⟩

/-! ## The report buffer (C16) -/

theorem report_len_eq (ts : synaptics_ts_data) :
    report_len ts = (ts.finger_support + 11) / 4 + 5 * ts.finger_support := by
  unfold report_len; omega

theorem scan_fingers_buf (ts : synaptics_ts_data) (buf buf' : List Nat)
    (h : rd buf' (1 + (ts.finger_support + 3) / 4) = rd buf (1 + (ts.finger_support + 3) / 4)) :
    scan_fingers ts buf' = scan_fingers ts buf := by
  simp only [scan_fingers, h]

theorem decode_finger_buf (b : Build) (ts : synaptics_ts_data) (buf buf' : List Nat) (base : Nat)
    (h : ∀ k, k < 5 → rd buf' (base + k) = rd buf (base + k)) :
    decode_finger b ts buf' base = decode_finger b ts buf base := by
  have h0 := h 0 (by omega)
  have h1 := h 1 (by omega)
  have h2 := h 2 (by omega)
  have h3 := h 3 (by omega)
  have h4 := h 4 (by omega)
  simp only [decode_finger, decode_axis, h0, h1, h2, h3, h4]

theorem slot_body_buf (b : Build) (c : Cycle) (buf' : List Nat) (fc pc rc i : Nat) (l : Loop)
    (h : ∀ k, k < 5 → rd buf' (l.base + k) = rd c.buf (l.base + k)) :
    slot_body b (with_buf c buf') fc pc rc i l = slot_body b c fc pc rc i l := by
  have hd : decode_finger b l.ts (with_buf c buf').buf l.base = decode_finger b l.ts c.buf l.base :=
    decode_finger_buf b l.ts c.buf buf' l.base h
  have ht : ∀ fd l', slot_tail b (with_buf c buf') fc rc i fd l' = slot_tail b c fc rc i fd l' :=
    fun _ _ => rfl
  simp only [slot_body, hd, ht]

theorem slot_loop_buf (b : Build) (c : Cycle) (buf' : List Nat) (fc pc rc : Nat) :
    ∀ (n k : Nat) (l : Loop), (∀ j, j < l.base + 5 * n → rd buf' j = rd c.buf j) →
      slot_loop b (with_buf c buf') fc pc rc (List.range' k n) l =
        slot_loop b c fc pc rc (List.range' k n) l := by
  intro n
  induction n with
  | zero => intro k l _; rfl
  | succ n ih =>
    intro k l h
    rw [List.range'_succ]
    simp only [slot_loop]
    rw [slot_body_buf b c buf' fc pc rc k l (fun k hk => h _ (by omega))]
    split_ifs
    · rfl
    · apply ih
      intro j hj
      apply h
      have := slot_body_base b c fc pc rc k l
      simp only at hj
      omega

theorem work_report_buf (b : Build) (c : Cycle) (s : State) (buf' : List Nat)
    (h : ∀ j, j < report_len s.ts → rd buf' j = rd c.buf j) :
    work_report b (with_buf c buf') s = work_report b c s := by
  have hs : scan_fingers s.ts (with_buf c buf').buf = scan_fingers s.ts c.buf :=
    scan_fingers_buf s.ts c.buf buf' (h _ (by unfold report_len; omega))
  have hr : ∀ fc g, release_all (with_buf c buf') fc g = release_all c fc g := fun _ _ => rfl
  have hl : ∀ (fc pc rc : Nat) (l : Loop), l.base = (s.ts.finger_support + 11) / 4 →
      slot_loop b (with_buf c buf') fc pc rc (List.range s.ts.finger_support) l =
        slot_loop b c fc pc rc (List.range s.ts.finger_support) l := by
    intro fc pc rc l hb
    rw [List.range_eq_range']
    apply slot_loop_buf
    intro j hj
    apply h
    rw [report_len_eq]
    omega
  simp only [work_report, hs, hr]
  split_ifs <;> first | rfl | exact hl _ _ _ _ rfl

theorem work_buf (b : Build) (c : Cycle) (s : State) (buf' : List Nat)
    (h : ∀ j, j < report_len s.ts → rd buf' j = rd c.buf j) :
    synaptics_ts_work_func b (with_buf c buf') s = synaptics_ts_work_func b c s ∧
    decoded_fingers b (with_buf c buf') s = decoded_fingers b c s := by
  have h0 : rd (with_buf c buf').buf 0 = rd c.buf 0 := h 0 (by unfold report_len; omega)
  have hret : (with_buf c buf').ret = c.ret := rfl
  have hx : reset_touch_control (with_buf c buf') s.ts = reset_touch_control c s.ts := by
    simp only [reset_touch_control, h0, hret]
  simp only [synaptics_ts_work_func, decoded_fingers, h0, hret, hx, work_report_buf b c s buf' h,
    and_self]

theorem slot_loop_finger_slots (b : Build) (c : Cycle) (fc pc rc : Nat) :
    ∀ (slots : List Nat) (l : Loop),
      ∀ e ∈ (slot_loop b c fc pc rc slots l).finger_data, e ∈ l.finger_data ∨ e.1 ∈ slots := by
  intro slots
  induction slots with
  | nil => intro l e he; exact Or.inl he
  | cons i rest ih =>
    intro l e he
    simp only [slot_loop] at he
    have key : e ∈ (slot_body b c fc pc rc i l).1.finger_data →
        e ∈ l.finger_data ∨ e.1 ∈ i :: rest := by
      intro hm
      rcases slot_body_finger_data b c fc pc rc i l with h1 | h1
      · rw [h1] at hm; exact Or.inl hm
      · rw [h1, List.mem_append, List.mem_singleton] at hm
        rcases hm with hm | hm
        · exact Or.inl hm
        · right; rw [hm]; exact List.mem_cons_self _ _
    split_ifs at he
    · exact key he
    · rcases ih _ e he with h1 | h1
      · exact key h1
      · exact Or.inr (List.mem_cons_of_mem _ h1)

theorem decoded_fingers_slot (b : Build) (c : Cycle) (s : State) (e : Nat × finger_row)
    (h : e ∈ decoded_fingers b c s) : e.1 < s.ts.finger_support := by
  unfold decoded_fingers at h
  split_ifs at h with h1 h2
  · simp at h
  · simp at h
  · simp only [work_report] at h
    split_ifs at h
    all_goals first
      | (exfalso; simp at h; done)
      | (rcases slot_loop_finger_slots b c _ _ _ _ _ e h with h3 | h3
         · simp at h3
         · simpa using h3)

/-- C16: the report buffer has `(21 * finger_support + 11) / 4` bytes, which
is `(finger_support + 11) / 4 + 5 * finger_support`; the status byte 0, the
presence byte `1 + (finger_support + 3) / 4` and the five bytes of every
slot `i < finger_support`, which start at `(finger_support + 11) / 4 + 5 * i`,
all have an index below that length; every decoded row belongs to a slot
`i < finger_support` and is decoded at that offset; and the cycle reads no
other byte: two buffers that agree below the length give the same state,
the same effects and the same decoded rows. -/
theorem C16_reads_in_bounds (b : Build) (c : Cycle) (s : State) (buf' : List Nat)
    (h : ∀ j, j < report_len s.ts → rd buf' j = rd c.buf j) :
    report_len s.ts = (s.ts.finger_support + 11) / 4 + 5 * s.ts.finger_support ∧
    0 < report_len s.ts ∧
    1 + (s.ts.finger_support + 3) / 4 < report_len s.ts ∧
    (∀ i k, i < s.ts.finger_support → k < 5 →
      (s.ts.finger_support + 11) / 4 + 5 * i + k < report_len s.ts) ∧
    (∀ e ∈ decoded_fingers b c s, e.1 < s.ts.finger_support ∧
      e.2 = decode_finger b s.ts c.buf ((s.ts.finger_support + 11) / 4 + 5 * e.1)) ∧
    synaptics_ts_work_func b (with_buf c buf') s = synaptics_ts_work_func b c s ∧
    decoded_fingers b (with_buf c buf') s = decoded_fingers b c s := by
  refine ⟨report_len_eq _, by unfold report_len; omega, by unfold report_len; omega, ?_, ?_,
    (work_buf b c s buf' h).1, (work_buf b c s buf' h).2⟩
  · intro i k hi hk
    rw [report_len_eq]
    omega
  · intro e he
    exact ⟨decoded_fingers_slot b c s e he, decoded_fingers_row b c s e.1 e.2 he⟩

/-- Witness of C16: the report of one finger at `(100, 2000)`, followed by
bytes that lie beyond the buffer. -/
theorem C16_reads_in_bounds_witness :
    report_len sample_state.ts = 23 ∧
    synaptics_ts_work_func sample_build
        (with_buf (cycle_of (report_one 0 100 2000) 0 0) (report_one 0 100 2000 ++ [255, 255]))
        sample_state =
      synaptics_ts_work_func sample_build (cycle_of (report_one 0 100 2000) 0 0) sample_state :=
  ⟨by decide,
    (C16_reads_in_bounds sample_build (cycle_of (report_one 0 100 2000) 0 0) sample_state
      (report_one 0 100 2000 ++ [255, 255]) (by
        intro j hj
        have hj' : j < 23 := hj
        interval_cases j <;> rfl)).2.2.2.2.2.1⟩

/-! ## The mode of a sweep request (C11) -/

theorem mem_triggers (m : Bool) : ∀ os : List Out, m ∈ triggers os ↔ Out.pwrtrigger m ∈ os := by
  intro os
  induction os with
  | nil => simp [triggers]
  | cons o os ih => cases o <;> simp [triggers, ih]

theorem pressed_samples_length (b : Build) (ts : synaptics_ts_data) (buf : List Nat)
    (mask base0 : Nat) (slots : List Nat) :
    (pressed_samples b ts buf mask base0 slots).length =
      (slots.filter (fun i => mask.testBit i)).length := by
  unfold pressed_samples
  induction slots with
  | nil => rfl
  | cons i rest ih =>
    by_cases h : mask.testBit i = true
    · simp [List.filterMap_cons, List.filter_cons, h, ih]
    · simp [List.filterMap_cons, List.filter_cons, h, ih]

/-- The gesture handling sees as many pressed slots as the scan counted. -/
theorem pressed_samples_count (b : Build) (ts : synaptics_ts_data) (buf : List Nat) (base0 : Nat) :
    (pressed_samples b ts buf (scan_fingers ts buf).1 base0 (List.range ts.finger_support)).length =
      (scan_fingers ts buf).2 := by
  obtain ⟨_, h2, h3, _, _⟩ :=
    scan_foldl_inv (rd buf (1 + (ts.finger_support + 3) / 4)) (rd_lt _ _) ts.finger_support
  rw [pressed_samples_length]
  unfold scan_fingers
  rw [h3]
  congr 1
  apply List.filter_congr
  intro i hi
  have hi' := List.mem_range.1 hi
  by_cases hc : (rd buf (1 + (ts.finger_support + 3) / 4) >>> (i * 2)) &&& 0x03 ≠ 0
  · rw [(h2 i).2 ⟨hi', hc⟩, decide_eq_true hc]
  · have hn : ¬ (List.foldl (scan_step (rd buf (1 + (ts.finger_support + 3) / 4))) (0, 0)
        (List.range ts.finger_support)).1.testBit i = true := fun ht => hc ((h2 i).1 ht).2
    rw [Bool.not_eq_true] at hn
    rw [hn, decide_eq_false hc]

/-- A difference that fits a C `int` is not changed by the wrap. -/
theorem wrap_int_exact (v : Int) (h1 : -2147483648 ≤ v) (h2 : v ≤ 2147483647) :
    wrap_int v = v := by
  unfold wrap_int
  omega

/-- Bidirectional mode: a request carries the mode of the screen state and
is issued beyond both thresholds. -/
theorem s2w_sample_stroke_mode (g : Globals) (fc : Nat) (x y : Int) (m : Bool)
    (hs : g.s2w_allow_stroke = true) (hm : Out.pwrtrigger m ∈ (s2w_sample g fc x y).2.1) :
    m = g.scr_suspended ∧ g.s2w_min_distance < ((g.downx - x).natAbs : Int) ∧
    g.s2w_register_threshold < ((g.downx - x).natAbs : Int) := by
  generalize hr : s2w_sample g fc x y = r at hm
  simp only [s2w_sample, note_zone_s2w_allow_stroke, note_zone_s2w_switch, note_zone_downx,
    note_zone_s2w_register_threshold, note_zone_s2w_min_distance, note_zone_exec_count,
    note_zone_scr_suspended, lock_panel_downx, lock_panel_exec_count,
    lock_panel_s2w_min_distance, lock_panel_scr_suspended, hs, if_true] at hr
  split_ifs at hr with h1 h2 h3 h4 h5 h6 h7
  all_goals subst hr
  all_goals first
    | (exfalso; exact List.not_mem_nil _ hm)
    | (have hm' := List.mem_singleton.1 hm
       injection hm' with hm'
       rw [hm']
       refine ⟨?_, h5, ?_⟩
       · first | exact h7.symm | exact (Bool.not_eq_true _ ▸ h7).symm
       · rcases h3 with h3 | h3
         · exact absurd h3 h4
         · exact h3)

/-- Free-swipe mode: a request is a wake-on request for a sample right of
the start by more than `s2w_min_distance` while suspended, or a wake-off
request while awake for a sample left of the start and below the wrapped
difference of line 840. -/
theorem s2w_sample_swipe_mode (g : Globals) (fc : Nat) (x y : Int) (m : Bool)
    (hs : g.s2w_allow_stroke = false) (hm : Out.pwrtrigger m ∈ (s2w_sample g fc x y).2.1) :
    (m = true ∧ g.scr_suspended = true ∧ g.downx < x ∧ g.downx + g.s2w_min_distance < x) ∨
    (m = false ∧ g.scr_suspended = false ∧ x < g.downx ∧
      x < wrap_int (g.downx - g.s2w_min_distance)) := by
  generalize hr : s2w_sample g fc x y = r at hm
  simp only [s2w_sample, note_zone_s2w_allow_stroke, note_zone_s2w_switch, note_zone_downx,
    note_zone_s2w_register_threshold, note_zone_s2w_min_distance, note_zone_exec_count,
    note_zone_scr_suspended, lock_panel_downx, lock_panel_exec_count,
    lock_panel_s2w_min_distance, lock_panel_scr_suspended, hs, Bool.false_eq_true,
    if_false] at hr
  split_ifs at hr with h1 h2 h3 h4 h5 h6 h7 h8 h9 h10 h11 h12
  all_goals subst hr
  all_goals first
    | (exfalso; exact List.not_mem_nil _ hm)
    | (have hm' := List.mem_singleton.1 hm
       injection hm' with hm'
       first
         | (left
            have h3' : g.downx < x := by
              rcases h3 with h3 | h3
              · exact absurd h3 h4
              · exact h3
            refine ⟨hm', h1.2.1, h3', ?_⟩
            omega)
         | (right
            have h9' : x < g.downx := by
              rcases h9 with h9 | h9
              · exact absurd h9 h10
              · exact h9
            exact ⟨hm', h7.2.1, h9', h11⟩))

/-- A request is issued only for a single finger on the button panel while
sweep is enabled, a start is tracked and the trigger is armed. -/
theorem s2w_sample_fire_tracked (g : Globals) (fc : Nat) (x y : Int) (m : Bool)
    (hm : Out.pwrtrigger m ∈ (s2w_sample g fc x y).2.1) :
    fc = 1 ∧ g.s2w_switch = true ∧ y > 1900 ∧ g.downx ≠ -1 ∧ g.downx ≠ -2 ∧
    g.exec_count = true := by
  generalize hr : s2w_sample g fc x y = r at hm
  simp only [s2w_sample, note_zone_s2w_allow_stroke, note_zone_s2w_switch, note_zone_downx,
    note_zone_s2w_register_threshold, note_zone_s2w_min_distance, note_zone_exec_count,
    note_zone_scr_suspended, lock_panel_downx, lock_panel_exec_count,
    lock_panel_s2w_min_distance, lock_panel_scr_suspended] at hr
  split_ifs at hr
  all_goals subst hr
  all_goals first
    | (exfalso; exact List.not_mem_nil _ hm)
    | tauto

/-- Free-swipe mode while suspended, a tracked stroke on the button panel:
a wake-on request is issued exactly when the sample is right of the start
by more than `s2w_min_distance` and `exec_count` is set. -/
theorem s2w_sample_swipe_wake (g : Globals) (x y : Int) (hs : g.s2w_allow_stroke = false)
    (hsu : g.scr_suspended = true) (hsw : g.s2w_switch = true) (h1 : g.downx ≠ -1)
    (h2 : g.downx ≠ -2) (hy : 1900 < y) :
    ((g.downx < x ∧ g.downx + g.s2w_min_distance < x ∧ g.exec_count = true) →
      (s2w_sample g 1 x y).2.1 = [Out.pwrtrigger true]) ∧
    (¬ (g.downx < x ∧ g.downx + g.s2w_min_distance < x ∧ g.exec_count = true) →
      (s2w_sample g 1 x y).2.1 = []) := by
  generalize hr : s2w_sample g 1 x y = r
  simp only [s2w_sample, note_zone_s2w_allow_stroke, note_zone_s2w_switch, note_zone_downx,
    note_zone_s2w_register_threshold, note_zone_s2w_min_distance, note_zone_exec_count,
    note_zone_scr_suspended, lock_panel_downx, lock_panel_exec_count,
    lock_panel_s2w_min_distance, lock_panel_scr_suspended, hs, hsu, hsw, Bool.false_eq_true,
    if_false, if_true, true_and, ne_eq, h2, not_false_eq_true, hy, gt_iff_lt, h1, false_or] at hr
  split_ifs at hr with c1 c2 c3
  all_goals subst hr
  · exact ⟨fun _ => rfl, fun hn => absurd ⟨c1, by omega, c3⟩ hn⟩
  · exact ⟨fun h => absurd h.2.2 c3, fun _ => rfl⟩
  · exact ⟨fun h => absurd (show g.s2w_min_distance < ((g.downx - x).natAbs : Int) by
      have := h.1; have := h.2.1; omega) c2, fun _ => rfl⟩
  · exact ⟨fun h => absurd h.1 c1, fun _ => rfl⟩

/-- Free-swipe mode while awake, a tracked stroke on the button panel: a
wake-off request is issued exactly when the sample is left of the start and
below the wrapped difference `downx - s2w_min_distance`, and `exec_count`
is set. -/
theorem s2w_sample_swipe_sleep (g : Globals) (x y : Int) (hs : g.s2w_allow_stroke = false)
    (hsu : g.scr_suspended = false) (hsw : g.s2w_switch = true) (h1 : g.downx ≠ -1)
    (h2 : g.downx ≠ -2) (hy : 1900 < y) :
    ((x < g.downx ∧ x < wrap_int (g.downx - g.s2w_min_distance) ∧ g.exec_count = true) →
      (s2w_sample g 1 x y).2.1 = [Out.pwrtrigger false]) ∧
    (¬ (x < g.downx ∧ x < wrap_int (g.downx - g.s2w_min_distance) ∧ g.exec_count = true) →
      (s2w_sample g 1 x y).2.1 = []) := by
  generalize hr : s2w_sample g 1 x y = r
  simp only [s2w_sample, note_zone_s2w_allow_stroke, note_zone_s2w_switch, note_zone_downx,
    note_zone_s2w_register_threshold, note_zone_s2w_min_distance, note_zone_exec_count,
    note_zone_scr_suspended, lock_panel_downx, lock_panel_exec_count,
    lock_panel_s2w_min_distance, lock_panel_scr_suspended, hs, hsu, hsw, Bool.false_eq_true,
    if_false, if_true, true_and, false_and, ne_eq, h2, not_false_eq_true, hy, gt_iff_lt, h1,
    false_or] at hr
  split_ifs at hr with c1 c2 c3
  all_goals subst hr
  · exact ⟨fun _ => rfl, fun hn => absurd ⟨c1, c2, c3⟩ hn⟩
  · exact ⟨fun h => absurd h.2.2 c3, fun _ => rfl⟩
  · exact ⟨fun h => absurd h.2.1 c2, fun _ => rfl⟩
  · exact ⟨fun h => absurd h.1 c1, fun _ => rfl⟩

end Synaptics3k
